import Mathlib

/-!
AsyncRTOS websocket client: state machine, error handler, receive pump, retry loop.

Shallow embedding of `src/src/aos_ws_client.c`.

* The client context `_aos_ws_client_ctx_t` is a structure; every handler of the
  source is a function on the system state `Sys` (context, transport, runtime
  loop registry, log of observable actions).
* The ESP-IDF transport and the AsyncRTOS runtime are external collaborators.
  The transport is a script: the value returned by the n-th call of each
  operation is given by a function of n, so that every sequence of transport
  outcomes is covered by some script.
* Every call that leaves the client (transport calls, runtime loop calls,
  callbacks, promise resolutions) is appended to `Sys.log` in program order.
* Machine integers are naturals reduced modulo `2 ^ 32` where the source
  does arithmetic on them.
* The constructor `aos_ws_client_alloc` takes the outcomes of its external
  calls and the build-time defaults as inputs; the destructor
  `aos_ws_client_free` is its list of release calls.
-/

namespace AosWsClient

/-! ## Data model -/

/-- Lifecycle states of the client (`_aos_ws_client_state_t`). -/
inductive _aos_ws_client_state_t where
  | DISCONNECTED
  | CONNECTING
  | CONNECTED
  | RECONNECTING
  deriving DecidableEq, Repr

/-- Unexpected events delivered to the event handler (`aos_ws_client_event_t`). -/
inductive aos_ws_client_event_t where
  | AOS_WS_CLIENT_EVENT_DISCONNECTED
  | AOS_WS_CLIENT_EVENT_RECONNECTING
  | AOS_WS_CLIENT_EVENT_RECONNECTED
  deriving DecidableEq, Repr

/-- Connection mode `AOS_WS_CLIENT_MODE_SECURE` (enumerator 0). -/
def AOS_WS_CLIENT_MODE_SECURE : Nat := 0

/-- Connection mode `AOS_WS_CLIENT_MODE_SECURE_TEST` (enumerator 1). -/
def AOS_WS_CLIENT_MODE_SECURE_TEST : Nat := 1

/-- Connection mode `AOS_WS_CLIENT_MODE_INSECURE` (enumerator 2). -/
def AOS_WS_CLIENT_MODE_INSECURE : Nat := 2

/-- Client configuration (`aos_ws_client_config_t`). Pointers are options
(`none` is `NULL`); function pointers are options of an address. -/
structure aos_ws_client_config_t where
  on_data : Option Nat
  event_handler : Option Nat
  host : Option String
  path : Option String
  mode : Nat
  port : Nat
  subprotocol : Option String
  user_agent : Option String
  headers : Option String
  server_cert_chain_pem : Option String
  client_cert_chain_pem : Option String
  client_key_pem : Option String
  connection_attempts : Nat
  reconnection_attempts : Nat
  retry_interval_ms : Nat
  send_timeout_ms : Nat
  poll_timeout_ms : Nat
  buffer_size : Nat
  stacksize : Nat
  queuesize : Nat
  priority : Nat
  name : Option String
  deriving DecidableEq, Repr

/-- The two periodic loops the client registers with the runtime. -/
inductive LoopFn where
  | _aos_ws_client_poll_loop
  | _aos_ws_client_retry_loop
  deriving DecidableEq, Repr

/-- Handle of a periodic loop registered with the runtime
(`aos_task_loop_handle_t`): the function and its interval. -/
structure aos_task_loop_handle_t where
  fn : LoopFn
  interval_ms : Nat
  deriving DecidableEq, Repr

/-- Client context (`_aos_ws_client_ctx_t`). Futures are identified by a
number; `none` is the `NULL` pointer. -/
structure _aos_ws_client_ctx_t where
  state : _aos_ws_client_state_t
  config : aos_ws_client_config_t
  buffer : List Nat
  connection_attempt : Nat
  reconnection_attempt : Nat
  connect_future : Option Nat
  poll_loop : Option aos_task_loop_handle_t
  retry_loop : Option aos_task_loop_handle_t
  deriving DecidableEq, Repr

/-- Observable actions, in the order the source performs them. -/
inductive Action where
  | esp_transport_connect (host : Option String) (port : Nat) (timeout_ms : Nat)
  | esp_transport_read (offset : Nat) (len : Nat) (timeout_ms : Nat)
  | esp_transport_ws_send_raw (opcode : Nat) (data : List Nat) (len : Nat) (timeout_ms : Nat)
  | esp_transport_ws_poll_connection_closed (timeout_ms : Nat)
  | esp_transport_close
  | aos_task_loop_set (h : aos_task_loop_handle_t)
  | aos_task_loop_unset (h : Option aos_task_loop_handle_t)
  | on_data (data : List Nat) (data_len : Nat)
  | event_handler (event : aos_ws_client_event_t)
  | aos_resolve (future : Nat) (out_err : Option Nat)
  deriving DecidableEq, Repr

/-- The transport as seen by the client: a script of the values its
operations return. `connect_ret n`, `read_ret n`, `send_ret n` are the results
of the n-th connect, read and send; `read_data n` are the bytes the n-th read
stores; `read_opcode n` and `read_payload_len n` are what the getters answer
once n reads have been made. `connects`, `reads`, `sends` count the calls made. -/
structure esp_transport_handle_t where
  connect_ret : Nat → Int
  read_ret : Nat → Int
  read_data : Nat → List Nat
  send_ret : Nat → Int
  read_opcode : Nat → Nat
  read_payload_len : Nat → Int
  connects : Nat
  reads : Nat
  sends : Nat

/-- System state: the client context, its transport, the loops registered
with the runtime, and the log of observable actions. -/
structure Sys where
  ctx : _aos_ws_client_ctx_t
  transport : esp_transport_handle_t
  loops : List aos_task_loop_handle_t
  log : List Action

/-! ## Opcodes of the websocket transport (`ws_transport_opcodes_t`) -/

/-- Continuation frame opcode. -/
def WS_TRANSPORT_OPCODES_CONT : Nat := 0x00
/-- Text frame opcode. -/
def WS_TRANSPORT_OPCODES_TEXT : Nat := 0x01
/-- Binary frame opcode. -/
def WS_TRANSPORT_OPCODES_BINARY : Nat := 0x02
/-- Close frame opcode. -/
def WS_TRANSPORT_OPCODES_CLOSE : Nat := 0x08
/-- Ping frame opcode. -/
def WS_TRANSPORT_OPCODES_PING : Nat := 0x09
/-- Pong frame opcode. -/
def WS_TRANSPORT_OPCODES_PONG : Nat := 0x0a
/-- FIN flag. -/
def WS_TRANSPORT_OPCODES_FIN : Nat := 0x80
/-- Value reported when no frame header has been received. -/
def WS_TRANSPORT_OPCODES_NONE : Nat := 0x100

/-! ## External calls -/

/-- Append one action to the log. -/
def Sys.emit (s : Sys) (a : Action) : Sys :=
  { s with log := s.log ++ [a] }

/-- Call of `esp_transport_connect`: the scripted result and the state after. -/
def esp_transport_connect (host : Option String) (port timeout_ms : Nat) (s : Sys) : Int × Sys :=
  (s.transport.connect_ret s.transport.connects,
   { s with
     transport := { s.transport with connects := s.transport.connects + 1 },
     log := s.log ++ [Action.esp_transport_connect host port timeout_ms] })

/-- Store `bytes` in `buffer` starting at `offset`. -/
def store (buffer : List Nat) (offset : Nat) (bytes : List Nat) : List Nat :=
  buffer.take offset ++ bytes ++ buffer.drop (offset + bytes.length)

/-- Call of `esp_transport_read(transport, buffer + offset, len, timeout)`. -/
def esp_transport_read (offset len timeout_ms : Nat) (s : Sys) : Int × Sys :=
  (s.transport.read_ret s.transport.reads,
   { s with
     ctx := { s.ctx with buffer := store s.ctx.buffer offset (s.transport.read_data s.transport.reads) },
     transport := { s.transport with reads := s.transport.reads + 1 },
     log := s.log ++ [Action.esp_transport_read offset len timeout_ms] })

/-- Call of `esp_transport_ws_send_raw`. -/
def esp_transport_ws_send_raw (opcode : Nat) (data : List Nat) (len timeout_ms : Nat) (s : Sys) :
    Int × Sys :=
  (s.transport.send_ret s.transport.sends,
   { s with
     transport := { s.transport with sends := s.transport.sends + 1 },
     log := s.log ++ [Action.esp_transport_ws_send_raw opcode data len timeout_ms] })

/-- Getter `esp_transport_ws_get_read_opcode`. -/
def esp_transport_ws_get_read_opcode (s : Sys) : Nat :=
  s.transport.read_opcode s.transport.reads

/-- Getter `esp_transport_ws_get_read_payload_len` (an `int`). -/
def esp_transport_ws_get_read_payload_len (s : Sys) : Int :=
  s.transport.read_payload_len s.transport.reads

/-- Call of `aos_task_loop_set`: registers the loop and returns its handle. -/
def aos_task_loop_set (fn : LoopFn) (interval_ms : Nat) (s : Sys) : aos_task_loop_handle_t × Sys :=
  (⟨fn, interval_ms⟩,
   { s with
     loops := s.loops ++ [⟨fn, interval_ms⟩],
     log := s.log ++ [Action.aos_task_loop_set ⟨fn, interval_ms⟩] })

/-- Call of `aos_task_loop_unset`: a null handle unregisters nothing. -/
def aos_task_loop_unset (h : Option aos_task_loop_handle_t) (s : Sys) : Sys :=
  { s with
    loops := (match h with
      | none => s.loops
      | some l => s.loops.erase l),
    log := s.log ++ [Action.aos_task_loop_unset h] }

/-- Length of the C string stored in `data`: the bytes before the first NUL. -/
def strlen (data : List Nat) : Nat :=
  (data.takeWhile (fun b => b != 0)).length

/-- Reduction of an unsigned 32-bit value. -/
def u32 (n : Nat) : Nat := n % 2 ^ 32

/-! ## The client -/

/-- Close-clean helper `_aos_ws_client_disconnect`. -/
def _aos_ws_client_disconnect (s : Sys) : Sys :=
  let s := aos_task_loop_unset s.ctx.poll_loop s
  let s := { s with ctx := { s.ctx with poll_loop := none } }
  let s := aos_task_loop_unset s.ctx.retry_loop s
  let s := { s with ctx := { s.ctx with retry_loop := none } }
  match s.ctx.state with
  | _aos_ws_client_state_t.CONNECTED =>
    let s := (esp_transport_ws_send_raw
      (WS_TRANSPORT_OPCODES_CLOSE ||| WS_TRANSPORT_OPCODES_FIN) [] 0 s.ctx.config.send_timeout_ms s).2
    let s := s.emit (Action.esp_transport_ws_poll_connection_closed s.ctx.config.send_timeout_ms)
    s.emit Action.esp_transport_close
  | _ => s

/-- Error handler `_aos_ws_client_onerror`. -/
def _aos_ws_client_onerror (s : Sys) : Sys :=
  let s := _aos_ws_client_disconnect s
  match s.ctx.connect_future with
  | some future =>
    if s.ctx.connection_attempt ≥ s.ctx.config.connection_attempts then
      let s := _aos_ws_client_disconnect s
      let s := { s with ctx := { s.ctx with state := _aos_ws_client_state_t.DISCONNECTED } }
      let s := s.emit (Action.aos_resolve future (some 1))
      { s with ctx := { s.ctx with connect_future := none } }
    else
      let s := { s with ctx := { s.ctx with connection_attempt := u32 (s.ctx.connection_attempt + 1) } }
      let r := aos_task_loop_set LoopFn._aos_ws_client_retry_loop s.ctx.config.retry_interval_ms s
      let s := { r.2 with ctx := { r.2.ctx with retry_loop := some r.1 } }
      { s with ctx := { s.ctx with state := _aos_ws_client_state_t.CONNECTING } }
  | none =>
    let s := { s with ctx := { s.ctx with state := _aos_ws_client_state_t.RECONNECTING } }
    let s := if s.ctx.reconnection_attempt = 0 then
        s.emit (Action.event_handler aos_ws_client_event_t.AOS_WS_CLIENT_EVENT_RECONNECTING)
      else s
    if s.ctx.reconnection_attempt ≥ s.ctx.config.reconnection_attempts then
      let s := { s with ctx := { s.ctx with state := _aos_ws_client_state_t.DISCONNECTED } }
      s.emit (Action.event_handler aos_ws_client_event_t.AOS_WS_CLIENT_EVENT_DISCONNECTED)
    else
      let s := { s with ctx := { s.ctx with reconnection_attempt := u32 (s.ctx.reconnection_attempt + 1) } }
      let r := aos_task_loop_set LoopFn._aos_ws_client_retry_loop s.ctx.config.retry_interval_ms s
      { r.2 with ctx := { r.2.ctx with retry_loop := some r.1 } }

/-- The do-while read loop of `_aos_ws_client_poll_loop`. `none`: the fuel ran
out. `some (none, s)`: a read returned a negative value (the caller runs the
error handler and returns). `some (some data_len, s)`: the loop exited with
`data_len` bytes read. -/
def read_loop : Nat → Nat → Sys → Option (Option Nat × Sys)
  | 0, _, _ => none
  | fuel + 1, data_len, s =>
    let r := esp_transport_read data_len
      (u32 (s.ctx.config.buffer_size + 2 ^ 32 - data_len)) s.ctx.config.poll_timeout_ms s
    let len := r.1
    let s := r.2
    if len < 0 then some (none, s)
    else
      let data_len := u32 (data_len + len.toNat)
      if len ≠ 0 ∧ data_len < s.ctx.config.buffer_size
          ∧ data_len < (esp_transport_ws_get_read_payload_len s % 2 ^ 32).toNat then
        read_loop fuel data_len s
      else some (some data_len, s)

/-- The opcode switch of `_aos_ws_client_poll_loop`, after the read loop. -/
def poll_dispatch (data_len : Nat) (s : Sys) : Sys :=
  let opcode := esp_transport_ws_get_read_opcode s
  if opcode = WS_TRANSPORT_OPCODES_CONT ∨ opcode = WS_TRANSPORT_OPCODES_TEXT
      ∨ opcode = WS_TRANSPORT_OPCODES_BINARY then
    s.emit (Action.on_data s.ctx.buffer data_len)
  else if opcode = WS_TRANSPORT_OPCODES_PING then
    let r := esp_transport_ws_send_raw (WS_TRANSPORT_OPCODES_PONG ||| WS_TRANSPORT_OPCODES_FIN)
      s.ctx.buffer data_len s.ctx.config.send_timeout_ms s
    if r.1 < 0 then _aos_ws_client_onerror r.2 else r.2
  else if opcode = WS_TRANSPORT_OPCODES_PONG then s
  else if opcode = WS_TRANSPORT_OPCODES_CLOSE then
    let s := _aos_ws_client_disconnect s
    s.emit (Action.event_handler aos_ws_client_event_t.AOS_WS_CLIENT_EVENT_DISCONNECTED)
  else if opcode = WS_TRANSPORT_OPCODES_NONE then s
  else _aos_ws_client_onerror s

/-- Receive pump `_aos_ws_client_poll_loop`: one tick. -/
def _aos_ws_client_poll_loop (fuel : Nat) (s : Sys) : Option Sys :=
  match read_loop fuel 0 s with
  | none => none
  | some (none, s) => some (_aos_ws_client_onerror s)
  | some (some data_len, s) => some (poll_dispatch data_len s)

/-- The success path of `_aos_ws_client_retry_loop`, from the disarming of
the retry loop to the arming of the poll loop (everything between the connect
and the immediate poll tick). -/
def retry_loop_connected (s : Sys) : Sys :=
  let s := aos_task_loop_unset s.ctx.retry_loop s
  let s := { s with ctx := { s.ctx with retry_loop := none } }
  let s := { s with ctx := { s.ctx with state := _aos_ws_client_state_t.CONNECTED } }
  let s := if s.ctx.reconnection_attempt ≠ 0 then
      let s := { s with ctx := { s.ctx with reconnection_attempt := 0 } }
      s.emit (Action.event_handler aos_ws_client_event_t.AOS_WS_CLIENT_EVENT_RECONNECTED)
    else s
  let s := match s.ctx.connect_future with
    | some future =>
      let s := s.emit (Action.aos_resolve future (some 0))
      { s with ctx := { s.ctx with connect_future := none } }
    | none => s
  let r := aos_task_loop_set LoopFn._aos_ws_client_poll_loop 1 s
  { r.2 with ctx := { r.2.ctx with poll_loop := some r.1 } }

/-- Retry loop `_aos_ws_client_retry_loop`: one tick. -/
def _aos_ws_client_retry_loop (fuel : Nat) (s : Sys) : Option Sys :=
  let r := esp_transport_connect s.ctx.config.host s.ctx.config.port s.ctx.config.send_timeout_ms s
  if r.1 < 0 then some (_aos_ws_client_onerror r.2)
  else _aos_ws_client_poll_loop fuel (retry_loop_connected r.2)

/-- Handler `_aos_ws_client_handler_send_text`. -/
def _aos_ws_client_handler_send_text (future : Nat) (in_data : List Nat) (s : Sys) : Sys :=
  match s.ctx.state with
  | _aos_ws_client_state_t.CONNECTED =>
    let r := esp_transport_ws_send_raw (WS_TRANSPORT_OPCODES_TEXT ||| WS_TRANSPORT_OPCODES_FIN)
      in_data (strlen in_data) s.ctx.config.send_timeout_ms s
    if r.1 < 0 then
      let s := _aos_ws_client_onerror r.2
      s.emit (Action.aos_resolve future (some 1))
    else r.2.emit (Action.aos_resolve future (some 0))
  | _ => s.emit (Action.aos_resolve future (some 1))

/-- Handler `_aos_ws_client_handler_send_binary`. -/
def _aos_ws_client_handler_send_binary (future : Nat) (in_data : List Nat) (in_data_len : Nat)
    (s : Sys) : Sys :=
  match s.ctx.state with
  | _aos_ws_client_state_t.CONNECTED =>
    let r := esp_transport_ws_send_raw (WS_TRANSPORT_OPCODES_BINARY ||| WS_TRANSPORT_OPCODES_FIN)
      in_data in_data_len s.ctx.config.send_timeout_ms s
    if r.1 < 0 then
      let s := _aos_ws_client_onerror r.2
      s.emit (Action.aos_resolve future (some 1))
    else r.2.emit (Action.aos_resolve future (some 0))
  | _ => s.emit (Action.aos_resolve future (some 1))

/-- Resolution of the pending connect future with `out_err = 1`, as done by
the CONNECT and DISCONNECT handlers (`if (ctx->connect_future) ...`). -/
def resolve_connect_future (s : Sys) : Sys :=
  match s.ctx.connect_future with
  | some pending =>
    let s := s.emit (Action.aos_resolve pending (some 1))
    { s with ctx := { s.ctx with connect_future := none } }
  | none => s

/-- The success path of `_aos_ws_client_handler_connect`, from the clearing
of `connect_future` to the arming of the poll loop (everything between the
connect and the immediate poll tick). -/
def handler_connect_connected (future : Nat) (s : Sys) : Sys :=
  let s := { s with ctx := { s.ctx with connect_future := none } }
  let s := { s with ctx := { s.ctx with state := _aos_ws_client_state_t.CONNECTED } }
  let s := s.emit (Action.aos_resolve future (some 0))
  let r := aos_task_loop_set LoopFn._aos_ws_client_poll_loop 1 s
  { r.2 with ctx := { r.2.ctx with poll_loop := some r.1 } }

/-- The path of `_aos_ws_client_handler_connect` taken in the states other
than CONNECTED, up to the connect call: close-clean, resolution of a pending
connect future, storing of the new future, reset of the counters. -/
def handler_connect_prepare (future : Nat) (s : Sys) : Sys :=
  let s := _aos_ws_client_disconnect s
  let s := resolve_connect_future s
  let s := { s with ctx := { s.ctx with connect_future := some future } }
  let s := { s with ctx := { s.ctx with connection_attempt := 0 } }
  { s with ctx := { s.ctx with reconnection_attempt := 0 } }

/-- Handler `_aos_ws_client_handler_connect`. -/
def _aos_ws_client_handler_connect (fuel : Nat) (future : Nat) (s : Sys) : Option Sys :=
  match s.ctx.state with
  | _aos_ws_client_state_t.CONNECTED =>
    let s := { s with ctx := { s.ctx with connection_attempt := 0 } }
    let s := { s with ctx := { s.ctx with reconnection_attempt := 0 } }
    some (s.emit (Action.aos_resolve future (some 0)))
  | _ =>
    let s := handler_connect_prepare future s
    let r := esp_transport_connect s.ctx.config.host s.ctx.config.port s.ctx.config.send_timeout_ms s
    if r.1 < 0 then some (_aos_ws_client_onerror r.2)
    else _aos_ws_client_poll_loop fuel (handler_connect_connected future r.2)

/-- Handler `_aos_ws_client_handler_disconnect`. -/
def _aos_ws_client_handler_disconnect (future : Nat) (s : Sys) : Sys :=
  match s.ctx.state with
  | _aos_ws_client_state_t.DISCONNECTED => s.emit (Action.aos_resolve future none)
  | _ =>
    let s := _aos_ws_client_disconnect s
    let s := resolve_connect_future s
    let s := { s with ctx := { s.ctx with state := _aos_ws_client_state_t.DISCONNECTED } }
    s.emit (Action.aos_resolve future none)

/-! ## The runtime: commands and ticks -/

/-- What the runtime delivers to the task: a command with its future, or a
tick of one of the two loops. -/
inductive Input where
  | AOS_WS_CLIENT_TASKEVT_CONNECT (future : Nat)
  | AOS_WS_CLIENT_TASKEVT_DISCONNECT (future : Nat)
  | AOS_WS_CLIENT_TASKEVT_SEND_TEXT (future : Nat) (in_data : List Nat)
  | AOS_WS_CLIENT_TASKEVT_SEND_BINARY (future : Nat) (in_data : List Nat) (in_data_len : Nat)
  | poll_tick
  | retry_tick
  deriving DecidableEq, Repr

/-- The runtime has a loop running function `fn` registered. -/
def armed (fn : LoopFn) (s : Sys) : Bool :=
  s.loops.any (fun h => h.fn == fn)

/-- One scheduling step: a command runs its handler; a tick runs its loop
when that loop is registered with the runtime and is not delivered otherwise. -/
def step (fuel : Nat) (s : Sys) : Input → Option Sys
  | Input.AOS_WS_CLIENT_TASKEVT_CONNECT future => _aos_ws_client_handler_connect fuel future s
  | Input.AOS_WS_CLIENT_TASKEVT_DISCONNECT future => some (_aos_ws_client_handler_disconnect future s)
  | Input.AOS_WS_CLIENT_TASKEVT_SEND_TEXT future in_data =>
    some (_aos_ws_client_handler_send_text future in_data s)
  | Input.AOS_WS_CLIENT_TASKEVT_SEND_BINARY future in_data in_data_len =>
    some (_aos_ws_client_handler_send_binary future in_data in_data_len s)
  | Input.poll_tick =>
    if armed LoopFn._aos_ws_client_poll_loop s then _aos_ws_client_poll_loop fuel s else some s
  | Input.retry_tick =>
    if armed LoopFn._aos_ws_client_retry_loop s then _aos_ws_client_retry_loop fuel s else some s

/-- Run a sequence of inputs, one handler after the other. -/
def run (fuel : Nat) : Sys → List Input → Option Sys
  | s, [] => some s
  | s, i :: rest =>
    match step fuel s i with
    | none => none
    | some s1 => run fuel s1 rest

/-- The context as `aos_ws_client_alloc` leaves it: zero-filled by `calloc`
(state DISCONNECTED, counters 0, null future and loop handles), then the
configuration and a zero-filled buffer of `buffer_size` bytes are stored. -/
def initial_ctx (config : aos_ws_client_config_t) : _aos_ws_client_ctx_t :=
  { state := _aos_ws_client_state_t.DISCONNECTED
    config := config
    buffer := List.replicate config.buffer_size 0
    connection_attempt := 0
    reconnection_attempt := 0
    connect_future := none
    poll_loop := none
    retry_loop := none }

/-- The system right after allocation: no loop registered, empty log. -/
def initial (config : aos_ws_client_config_t) (transport : esp_transport_handle_t) : Sys :=
  { ctx := initial_ctx config, transport := transport, loops := [], log := [] }

/-! ## Projections of the log -/

/-- The events delivered to the event handler, in order. -/
def events : List Action → List aos_ws_client_event_t
  | [] => []
  | Action.event_handler e :: rest => e :: events rest
  | _ :: rest => events rest

/-- The futures resolved, in order, with the value of `out_err`. -/
def resolutions : List Action → List (Nat × Option Nat)
  | [] => []
  | Action.aos_resolve f e :: rest => (f, e) :: resolutions rest
  | _ :: rest => resolutions rest

/-- Number of calls of `esp_transport_connect` in a log. -/
def connect_calls : List Action → Nat
  | [] => 0
  | Action.esp_transport_connect _ _ _ :: rest => connect_calls rest + 1
  | _ :: rest => connect_calls rest

/-- The frames passed to `esp_transport_ws_send_raw`, in order: opcode and length. -/
def frames : List Action → List (Nat × Nat)
  | [] => []
  | Action.esp_transport_ws_send_raw op _ len _ :: rest => (op, len) :: frames rest
  | _ :: rest => frames rest

/-- A default-filled configuration used in examples. -/
def example_config : aos_ws_client_config_t :=
  { on_data := some 1, event_handler := some 2, host := some "ws.postman-echo.com",
    path := some "/raw", mode := AOS_WS_CLIENT_MODE_SECURE_TEST, port := 443,
    subprotocol := none, user_agent := some "AOS Websocket client", headers := none,
    server_cert_chain_pem := none, client_cert_chain_pem := none, client_key_pem := none,
    connection_attempts := 3, reconnection_attempts := 4294967295, retry_interval_ms := 3000,
    send_timeout_ms := 3000, poll_timeout_ms := 100, buffer_size := 8,
    stacksize := 3072, queuesize := 3, priority := 1, name := none }

/-- The example configuration with reconnection budget `n`. -/
def reconnect_budget (n : Nat) : aos_ws_client_config_t :=
  { example_config with reconnection_attempts := n }

/-- A transport on which nothing ever arrives: connects and sends succeed,
reads time out with no frame header received. -/
def quiet_transport : esp_transport_handle_t :=
  { connect_ret := fun _ => 0, read_ret := fun _ => 0, read_data := fun _ => [],
    send_ret := fun _ => 0, read_opcode := fun _ => WS_TRANSPORT_OPCODES_NONE,
    read_payload_len := fun _ => 0, connects := 0, reads := 0, sends := 0 }

/-- A transport whose connects all fail. -/
def refusing_transport : esp_transport_handle_t :=
  { quiet_transport with connect_ret := fun _ => -1 }

/-- A transport on which the server closes the session: the second read
delivers a CLOSE frame with empty payload; nothing else arrives. -/
def closing_transport : esp_transport_handle_t :=
  { quiet_transport with
    read_opcode := fun n => if n = 2 then WS_TRANSPORT_OPCODES_CLOSE else WS_TRANSPORT_OPCODES_NONE }

/-- The state the runtime reaches from a freshly allocated client by the
given inputs (the allocated state itself if the fuel runs out). -/
def after (fuel : Nat) (config : aos_ws_client_config_t) (transport : esp_transport_handle_t)
    (inputs : List Input) : Sys :=
  (run fuel (initial config transport) inputs).getD (initial config transport)

/-- The client after one CONNECT command (future 0) on the freshly allocated
client: CONNECTED with the poll loop armed when the transport accepts the
connection, CONNECTING with future 0 pending and a retry armed when it refuses. -/
def after_connect (config : aos_ws_client_config_t) (transport : esp_transport_handle_t) : Sys :=
  after 1 config transport [Input.AOS_WS_CLIENT_TASKEVT_CONNECT 0]

open _aos_ws_client_state_t aos_ws_client_event_t

/-- A state is reachable when the runtime can bring the freshly allocated
client to it by delivering commands and ticks. -/
inductive Reachable : Sys → Prop where
  | init (config : aos_ws_client_config_t) (transport : esp_transport_handle_t) :
    Reachable (initial config transport)
  | step {s s1 : Sys} (fuel : Nat) (i : Input) :
    Reachable s → step fuel s i = some s1 → Reachable s1

/-- Invariant of the reachable states: the runtime registry holds exactly the
loops whose handles the context stores; a DISCONNECTED client has no loop and no
pending connect future; a CONNECTED client has a zero reconnection counter and no
pending connect future; the two loops are never armed together and have the
function and interval the source gives them; the poll loop is armed only in state
CONNECTED; the retry loop is armed exactly in the states CONNECTING and
RECONNECTING; the state is CONNECTING exactly when a connect future is pending. -/
def Inv (s : Sys) : Prop :=
  s.loops = s.ctx.poll_loop.toList ++ s.ctx.retry_loop.toList ∧
  (s.ctx.state = DISCONNECTED →
    s.ctx.poll_loop = none ∧ s.ctx.retry_loop = none ∧ s.ctx.connect_future = none) ∧
  (s.ctx.state = CONNECTED → s.ctx.reconnection_attempt = 0 ∧ s.ctx.connect_future = none) ∧
  (s.ctx.retry_loop ≠ none → s.ctx.poll_loop = none) ∧
  (∀ h, s.ctx.poll_loop = some h → h = ⟨LoopFn._aos_ws_client_poll_loop, 1⟩) ∧
  (∀ h, s.ctx.retry_loop = some h →
    h = ⟨LoopFn._aos_ws_client_retry_loop, s.ctx.config.retry_interval_ms⟩) ∧
  (s.ctx.poll_loop ≠ none → s.ctx.state = CONNECTED) ∧
  (s.ctx.retry_loop ≠ none ↔ (s.ctx.state = CONNECTING ∨ s.ctx.state = RECONNECTING)) ∧
  (s.ctx.state = CONNECTING ↔ s.ctx.connect_future ≠ none)

/-- The client is recovering the connection lost in state `s0` and `j` retry
ticks have failed since: state RECONNECTING, no connect future, reconnection
counter `j + 1`, retry loop armed alone, RECONNECTING emitted once, `j` connect
calls made, and the scripts of the transport are those of `s0`. -/
def Recovering (s0 : Sys) (j : Nat) (s : Sys) : Prop :=
  s.ctx.state = RECONNECTING ∧ s.ctx.connect_future = none ∧
  s.ctx.reconnection_attempt = j + 1 ∧ s.ctx.config = s0.ctx.config ∧
  s.ctx.poll_loop = none ∧
  s.ctx.retry_loop = some ⟨LoopFn._aos_ws_client_retry_loop, s0.ctx.config.retry_interval_ms⟩ ∧
  s.loops = [⟨LoopFn._aos_ws_client_retry_loop, s0.ctx.config.retry_interval_ms⟩] ∧
  events s.log = events s0.log ++ [AOS_WS_CLIENT_EVENT_RECONNECTING] ∧
  connect_calls s.log = connect_calls s0.log + j ∧
  s.transport.connects = s0.transport.connects + j ∧
  s.transport.connect_ret = s0.transport.connect_ret ∧
  s.transport.reads = s0.transport.reads ∧
  s.transport.read_ret = s0.transport.read_ret ∧
  s.transport.read_opcode = s0.transport.read_opcode

/-- A transport that drops for good: the first connect succeeds and the
first read times out, the second read fails and so does every later connect. -/
def dropping_transport : esp_transport_handle_t :=
  { quiet_transport with
    connect_ret := fun n => if n = 0 then 0 else -1
    read_ret := fun n => if n = 1 then -1 else 0 }

/-- A transport that drops and comes back: the first and the fourth connect
succeed and the other connects fail; the second read fails and the other
reads time out. -/
def recovering_transport : esp_transport_handle_t :=
  { quiet_transport with
    connect_ret := fun n => if n = 0 ∨ n = 3 then 0 else -1
    read_ret := fun n => if n = 1 then -1 else 0 }

/-- A transport whose sends all fail; nothing arrives on it. -/
def failing_send_transport : esp_transport_handle_t :=
  { quiet_transport with send_ret := fun _ => -1 }

/-- The futures resolved, in order. -/
def resolved (l : List Action) : List Nat := (resolutions l).map Prod.fst

/-- From `s` to `s1` nothing was resolved and the pending connect future is
the same, or exactly the pending connect future was resolved and cleared. -/
def Settles (s s1 : Sys) : Prop :=
  (resolved s1.log = resolved s.log ∧ s1.ctx.connect_future = s.ctx.connect_future) ∨
  (∃ f, s.ctx.connect_future = some f ∧ resolved s1.log = resolved s.log ++ [f] ∧
    s1.ctx.connect_future = none)

/-- The future carried by a command; ticks carry none. -/
def Input.future_of : Input → Option Nat
  | Input.AOS_WS_CLIENT_TASKEVT_CONNECT future => some future
  | Input.AOS_WS_CLIENT_TASKEVT_DISCONNECT future => some future
  | Input.AOS_WS_CLIENT_TASKEVT_SEND_TEXT future _ => some future
  | Input.AOS_WS_CLIENT_TASKEVT_SEND_BINARY future _ _ => some future
  | Input.poll_tick => none
  | Input.retry_tick => none

/-- Bookkeeping of promises: `U` are the futures issued so far, `C` those
issued with a CONNECT. No future is resolved twice, only issued futures
are resolved, the stored connect future is an unresolved CONNECT future, and
every CONNECT future is resolved or stored. -/
def PInv (U C : Nat → Prop) (s : Sys) : Prop :=
  (resolved s.log).Nodup ∧ (∀ f ∈ resolved s.log, U f) ∧ (∀ f, C f → U f) ∧
  (∀ f, s.ctx.connect_future = some f → C f ∧ f ∉ resolved s.log) ∧
  (∀ f, C f → f ∈ resolved s.log ∨ s.ctx.connect_future = some f)

/-- A transport that accepts the connection and then fails every read. -/
def failing_read_transport : esp_transport_handle_t :=
  { quiet_transport with read_ret := fun _ => -1 }

/-- Value of `data_len` before the `i`-th next read of the read loop, when
`data_len` is `d` now and the next read is the `r`-th of the transport (the
reads in between return no negative value): each read adds its byte count,
modulo `2 ^ 32`. -/
def data_len_before (read_ret : Nat → Int) : Nat → Nat → Nat → Nat
  | _, d, 0 => d
  | r, d, i + 1 => data_len_before read_ret (r + 1) (u32 (d + (read_ret r).toNat)) i

/-- Sum of the byte counts returned by the `k` reads that follow the first
`r` reads of the transport. -/
def bytes_returned (read_ret : Nat → Int) : Nat → Nat → Nat
  | _, 0 => 0
  | r, k + 1 => (read_ret r).toNat + bytes_returned read_ret (r + 1) k

/-- The calls of `on_data` in a log, in order: buffer contents and length. -/
def data_calls : List Action → List (List Nat × Nat)
  | [] => []
  | Action.on_data data len :: rest => (data, len) :: data_calls rest
  | _ :: rest => data_calls rest

/-- The reads of the poll tick that starts in `s` deliver the payload `P` of
the current frame in order. The `i`-th read of the tick is made when it is the
first one or when fewer than min(|P|, buffer_size) bytes have been read so far;
it returns a count that is at most what remains of the payload and of the buffer
and that is positive when something remains, it stores the next bytes of `P`, and
the transport then declares the payload length |P|. -/
def delivers_payload (P : List Nat) (s : Sys) : Prop :=
  ∀ i, (i = 0 ∨ data_len_before s.transport.read_ret s.transport.reads 0 i
      < min P.length s.ctx.config.buffer_size) →
    0 ≤ s.transport.read_ret (s.transport.reads + i) ∧
    (s.transport.read_ret (s.transport.reads + i)).toNat
      ≤ min P.length s.ctx.config.buffer_size
        - data_len_before s.transport.read_ret s.transport.reads 0 i ∧
    (data_len_before s.transport.read_ret s.transport.reads 0 i
        < min P.length s.ctx.config.buffer_size →
      1 ≤ s.transport.read_ret (s.transport.reads + i)) ∧
    s.transport.read_data (s.transport.reads + i)
      = (P.drop (data_len_before s.transport.read_ret s.transport.reads 0 i)).take
          (s.transport.read_ret (s.transport.reads + i)).toNat ∧
    s.transport.read_payload_len (s.transport.reads + i + 1) = (P.length : Int)

/-! ## Allocation (`aos_ws_client_alloc`) -/

/-- Build-time defaults `CONFIG_AOS_WS_CLIENT_*` of the component, which the
build system generates; they are parameters here. -/
structure sdkconfig where
  CONFIG_AOS_WS_CLIENT_CONNECTIONATTEMPTS_DEFAULT : Nat
  CONFIG_AOS_WS_CLIENT_RECONNECTIONATTEMPTS_DEFAULT : Nat
  CONFIG_AOS_WS_CLIENT_RETRYINTERVALMS_DEFAULT : Nat
  CONFIG_AOS_WS_CLIENT_SENDTIMEOUTMS_DEFAULT : Nat
  CONFIG_AOS_WS_CLIENT_POLLINGTIMEOUTMS_DEFAULT : Nat
  CONFIG_AOS_WS_CLIENT_BUFFERSIZE_DEFAULT : Nat
  CONFIG_AOS_WS_CLIENT_TASK_STACKSIZE_DEFAULT : Nat
  CONFIG_AOS_WS_CLIENT_TASK_QUEUESIZE_DEFAULT : Nat
  CONFIG_AOS_WS_CLIENT_TASK_PRIORITY_DEFAULT : Nat

/-- Outcomes of the external calls `aos_ws_client_alloc` makes: `true` when an
allocation returns a non-null pointer, when `esp_transport_ws_set_config`
returns `ESP_OK`, and when `aos_task_handler_set` (for the given task event)
returns 0. -/
structure alloc_outcomes where
  calloc_ctx : Bool
  calloc_buffer : Bool
  aos_task_alloc : Bool
  esp_transport_ssl_init : Bool
  esp_transport_tcp_init : Bool
  esp_transport_ws_init : Bool
  esp_transport_ws_set_config : Bool
  aos_task_handler_set : Nat → Bool

/-- External calls of `aos_ws_client_alloc`, in the order the source makes
them. A release call records whether its argument is a live pointer (`true`) or
`NULL` (`false`). -/
inductive AllocAction where
  | calloc_ctx
  | calloc_buffer (size : Nat)
  | aos_task_alloc (stacksize queuesize priority : Nat) (name : Option String)
  | esp_transport_ssl_init
  | esp_transport_ssl_set_cert_data (pem : String) (len : Nat)
  | esp_transport_ssl_enable_global_ca_store
  | esp_transport_ssl_set_client_cert_data (pem : String) (len : Nat)
  | esp_transport_ssl_set_client_key_data (pem : String) (len : Nat)
  | esp_transport_ssl_skip_common_name_check
  | esp_transport_tcp_init
  | esp_transport_ws_init
  | esp_transport_ws_set_config (ws_path sub_protocol user_agent headers : Option String)
      (propagate_control_frames : Bool)
  | aos_task_handler_set (evt : Nat)
  | esp_transport_destroy (live : Bool)
  | free (live : Bool)
  | aos_task_free (live : Bool)
  deriving DecidableEq, Repr

/-- Task event `AOS_WS_CLIENT_TASKEVT_CONNECT` (enumerator 0). -/
def AOS_WS_CLIENT_TASKEVT_CONNECT : Nat := 0
/-- Task event `AOS_WS_CLIENT_TASKEVT_DISCONNECT` (enumerator 1). -/
def AOS_WS_CLIENT_TASKEVT_DISCONNECT : Nat := 1
/-- Task event `AOS_WS_CLIENT_TASKEVT_SEND_TEXT` (enumerator 2). -/
def AOS_WS_CLIENT_TASKEVT_SEND_TEXT : Nat := 2
/-- Task event `AOS_WS_CLIENT_TASKEVT_SEND_BINARY` (enumerator 3). -/
def AOS_WS_CLIENT_TASKEVT_SEND_BINARY : Nat := 3

/-- The log tag `_tag`, which is also the default user agent. -/
def _tag : String := "AOS Websocket client"

/-- The `complete_config` that `aos_ws_client_alloc` builds: every optional
field that is zero or null takes its default. -/
def complete_config (k : sdkconfig) (config : aos_ws_client_config_t) : aos_ws_client_config_t :=
  { host := config.host
    event_handler := config.event_handler
    on_data := config.on_data
    path := if config.path.isSome then config.path else some "/"
    port := if config.port ≠ 0 then config.port else 443
    mode := if config.mode ≠ 0 then config.mode else AOS_WS_CLIENT_MODE_SECURE
    subprotocol := if config.subprotocol.isSome then config.subprotocol else none
    user_agent := if config.user_agent.isSome then config.user_agent else some _tag
    headers := if config.headers.isSome then config.headers else none
    server_cert_chain_pem :=
      if config.server_cert_chain_pem.isSome then config.server_cert_chain_pem else none
    client_cert_chain_pem :=
      if config.client_cert_chain_pem.isSome then config.client_cert_chain_pem else none
    client_key_pem := if config.client_key_pem.isSome then config.client_key_pem else none
    connection_attempts :=
      if config.connection_attempts ≠ 0 then config.connection_attempts
      else k.CONFIG_AOS_WS_CLIENT_CONNECTIONATTEMPTS_DEFAULT
    reconnection_attempts :=
      if config.reconnection_attempts ≠ 0 then config.reconnection_attempts
      else k.CONFIG_AOS_WS_CLIENT_RECONNECTIONATTEMPTS_DEFAULT
    retry_interval_ms :=
      if config.retry_interval_ms ≠ 0 then config.retry_interval_ms
      else k.CONFIG_AOS_WS_CLIENT_RETRYINTERVALMS_DEFAULT
    send_timeout_ms :=
      if config.send_timeout_ms ≠ 0 then config.send_timeout_ms
      else k.CONFIG_AOS_WS_CLIENT_SENDTIMEOUTMS_DEFAULT
    poll_timeout_ms :=
      if config.poll_timeout_ms ≠ 0 then config.poll_timeout_ms
      else k.CONFIG_AOS_WS_CLIENT_POLLINGTIMEOUTMS_DEFAULT
    buffer_size :=
      if config.buffer_size ≠ 0 then config.buffer_size
      else k.CONFIG_AOS_WS_CLIENT_BUFFERSIZE_DEFAULT
    stacksize :=
      if config.stacksize ≠ 0 then config.stacksize
      else k.CONFIG_AOS_WS_CLIENT_TASK_STACKSIZE_DEFAULT
    queuesize :=
      if config.queuesize ≠ 0 then config.queuesize
      else k.CONFIG_AOS_WS_CLIENT_TASK_QUEUESIZE_DEFAULT
    priority :=
      if config.priority ≠ 0 then config.priority
      else k.CONFIG_AOS_WS_CLIENT_TASK_PRIORITY_DEFAULT
    name := if config.name.isSome then config.name else none }

/-- The exit `aos_ws_client_alloc_err` of `aos_ws_client_alloc`: every pointer,
live or `NULL`, is passed to its release function and `NULL` is returned. -/
def aos_ws_client_alloc_err (ctx buffer task parent_transport transport : Bool)
    (log : List AllocAction) : Option _aos_ws_client_ctx_t × List AllocAction :=
  (none, log ++ [AllocAction.esp_transport_destroy transport,
    AllocAction.esp_transport_destroy parent_transport,
    AllocAction.free ctx, AllocAction.free buffer, AllocAction.aos_task_free task])

/-- The part of `aos_ws_client_alloc` after the transport switch, entered with
the context, the buffer, the task and the parent transport allocated: websocket
transport, its configuration, the four handlers, and the context. -/
def aos_ws_client_alloc_ws (env : alloc_outcomes) (complete : aos_ws_client_config_t)
    (log : List AllocAction) : Option _aos_ws_client_ctx_t × List AllocAction :=
  let log := log ++ [AllocAction.esp_transport_ws_init]
  if env.esp_transport_ws_init = false then
    aos_ws_client_alloc_err true true true true false log
  else
    let log := log ++ [AllocAction.esp_transport_ws_set_config complete.path complete.subprotocol
      complete.user_agent complete.headers true]
    if env.esp_transport_ws_set_config = false then
      aos_ws_client_alloc_err true true true true true log
    else
      let log := log ++ [AllocAction.aos_task_handler_set AOS_WS_CLIENT_TASKEVT_CONNECT]
      if env.aos_task_handler_set AOS_WS_CLIENT_TASKEVT_CONNECT = false then
        aos_ws_client_alloc_err true true true true true log
      else
        let log := log ++ [AllocAction.aos_task_handler_set AOS_WS_CLIENT_TASKEVT_DISCONNECT]
        if env.aos_task_handler_set AOS_WS_CLIENT_TASKEVT_DISCONNECT = false then
          aos_ws_client_alloc_err true true true true true log
        else
          let log := log ++ [AllocAction.aos_task_handler_set AOS_WS_CLIENT_TASKEVT_SEND_TEXT]
          if env.aos_task_handler_set AOS_WS_CLIENT_TASKEVT_SEND_TEXT = false then
            aos_ws_client_alloc_err true true true true true log
          else
            let log := log ++ [AllocAction.aos_task_handler_set AOS_WS_CLIENT_TASKEVT_SEND_BINARY]
            if env.aos_task_handler_set AOS_WS_CLIENT_TASKEVT_SEND_BINARY = false then
              aos_ws_client_alloc_err true true true true true log
            else
              (some (initial_ctx complete), log)

/-- Constructor `aos_ws_client_alloc`. The result is the context carried by
the task returned (`none` when the source returns `NULL`) and the external calls
made, in order. -/
def aos_ws_client_alloc (k : sdkconfig) (env : alloc_outcomes) (config : aos_ws_client_config_t) :
    Option _aos_ws_client_ctx_t × List AllocAction :=
  if config.host.isNone ∨ config.event_handler.isNone ∨ config.on_data.isNone then
    aos_ws_client_alloc_err false false false false false []
  else
    let complete := complete_config k config
    let ctx := env.calloc_ctx
    let buffer := env.calloc_buffer
    let task := env.aos_task_alloc
    let log := [AllocAction.calloc_ctx, AllocAction.calloc_buffer complete.buffer_size,
      AllocAction.aos_task_alloc complete.stacksize complete.queuesize complete.priority
        complete.name]
    if ctx = false ∨ buffer = false ∨ task = false then
      aos_ws_client_alloc_err ctx buffer task false false log
    else if complete.mode = AOS_WS_CLIENT_MODE_SECURE
        ∨ complete.mode = AOS_WS_CLIENT_MODE_SECURE_TEST then
      let log := log ++ [AllocAction.esp_transport_ssl_init]
      if env.esp_transport_ssl_init = false then
        aos_ws_client_alloc_err ctx buffer task false false log
      else
        let log := log ++ [match complete.server_cert_chain_pem with
          | some pem => AllocAction.esp_transport_ssl_set_cert_data pem pem.length
          | none => AllocAction.esp_transport_ssl_enable_global_ca_store]
        let log := log ++ (match complete.client_cert_chain_pem, complete.client_key_pem with
          | some cert, some key =>
            [AllocAction.esp_transport_ssl_set_client_cert_data cert cert.length,
             AllocAction.esp_transport_ssl_set_client_key_data key key.length]
          | _, _ => [])
        let log := log ++ (if complete.mode = AOS_WS_CLIENT_MODE_SECURE_TEST then
          [AllocAction.esp_transport_ssl_skip_common_name_check] else [])
        aos_ws_client_alloc_ws env complete log
    else if complete.mode = AOS_WS_CLIENT_MODE_INSECURE then
      let log := log ++ [AllocAction.esp_transport_tcp_init]
      if env.esp_transport_tcp_init = false then
        aos_ws_client_alloc_err ctx buffer task false false log
      else
        aos_ws_client_alloc_ws env complete log
    else
      aos_ws_client_alloc_err ctx buffer task false false log

/-- Build-time defaults equal to the values the header documents. -/
def example_sdkconfig : sdkconfig :=
  { CONFIG_AOS_WS_CLIENT_CONNECTIONATTEMPTS_DEFAULT := 3
    CONFIG_AOS_WS_CLIENT_RECONNECTIONATTEMPTS_DEFAULT := 4294967295
    CONFIG_AOS_WS_CLIENT_RETRYINTERVALMS_DEFAULT := 3000
    CONFIG_AOS_WS_CLIENT_SENDTIMEOUTMS_DEFAULT := 3000
    CONFIG_AOS_WS_CLIENT_POLLINGTIMEOUTMS_DEFAULT := 100
    CONFIG_AOS_WS_CLIENT_BUFFERSIZE_DEFAULT := 1024
    CONFIG_AOS_WS_CLIENT_TASK_STACKSIZE_DEFAULT := 3072
    CONFIG_AOS_WS_CLIENT_TASK_QUEUESIZE_DEFAULT := 3
    CONFIG_AOS_WS_CLIENT_TASK_PRIORITY_DEFAULT := 1 }

/-- Every allocation and registration succeeds. -/
def all_succeed : alloc_outcomes :=
  { calloc_ctx := true, calloc_buffer := true, aos_task_alloc := true,
    esp_transport_ssl_init := true, esp_transport_tcp_init := true,
    esp_transport_ws_init := true, esp_transport_ws_set_config := true,
    aos_task_handler_set := fun _ => true }

/-- The configuration of the test case "Alloc/dealloc": the three required
fields and nothing else. -/
def minimal_config : aos_ws_client_config_t :=
  { on_data := some 1, event_handler := some 2, host := some "ws.postman-echo.com",
    path := none, mode := 0, port := 0, subprotocol := none, user_agent := none,
    headers := none, server_cert_chain_pem := none, client_cert_chain_pem := none,
    client_key_pem := none, connection_attempts := 0, reconnection_attempts := 0,
    retry_interval_ms := 0, send_timeout_ms := 0, poll_timeout_ms := 0, buffer_size := 0,
    stacksize := 0, queuesize := 0, priority := 0, name := none }

/-- Byte counts of a frame that arrives in two chunks: the read made at connect
time returns nothing, the next two reads return 5 and 3 bytes, later reads
return nothing. -/
def two_chunks : Nat → Int :=
  fun n => if n = 1 then 5 else if n = 2 then 3 else 0

/-- A transport on which a PING frame with the 12-byte payload 1, 2, ..., 12
arrives after the connection: its first 8 bytes come in two chunks of 5 and 3
bytes. -/
def ping_transport : esp_transport_handle_t :=
  { quiet_transport with
    read_ret := two_chunks,
    read_data := fun n => if n = 1 then [1, 2, 3, 4, 5] else if n = 2 then [6, 7, 8] else [],
    read_opcode := fun n => if 2 ≤ n then WS_TRANSPORT_OPCODES_PING else WS_TRANSPORT_OPCODES_NONE,
    read_payload_len := fun n => if 2 ≤ n then 12 else 0 }

/-- The same arrival as `ping_transport`, the frame being a TEXT frame. -/
def oversize_text_transport : esp_transport_handle_t :=
  { ping_transport with
    read_opcode := fun n => if 2 ≤ n then WS_TRANSPORT_OPCODES_TEXT else WS_TRANSPORT_OPCODES_NONE }

/-- A transport whose second read (the first one after the connection) fails. -/
def read_error_transport : esp_transport_handle_t :=
  { quiet_transport with read_ret := fun n => if n = 1 then -1 else 0 }

/-- A transport whose second read returns no byte, the opcode then reported being
the reserved opcode 3. -/
def unknown_opcode_transport : esp_transport_handle_t :=
  { quiet_transport with
    read_opcode := fun n => if n = 2 then 3 else WS_TRANSPORT_OPCODES_NONE }

/-- Invariant of the counters in the reachable states: while a connect future
is pending the reconnection counter is 0; while the retry loop is armed the
counter of the current episode is at most its budget, and the reconnection
counter of a recovery is at least 1 (`reconnection_attempts` being a
`uint32_t`, the increment does not wrap). -/
def CountersInv (s : Sys) : Prop :=
  (s.ctx.connect_future ≠ none → s.ctx.reconnection_attempt = 0) ∧
  (s.ctx.retry_loop ≠ none → s.ctx.connect_future ≠ none →
    s.ctx.connection_attempt ≤ s.ctx.config.connection_attempts) ∧
  (s.ctx.retry_loop ≠ none → s.ctx.connect_future = none →
    s.ctx.reconnection_attempt ≤ s.ctx.config.reconnection_attempts ∧
    (s.ctx.config.reconnection_attempts < 2 ^ 32 → 1 ≤ s.ctx.reconnection_attempt))

/-- A transport that refuses the first connect and accepts the following ones;
nothing arrives on it. -/
def late_transport : esp_transport_handle_t :=
  { quiet_transport with connect_ret := fun n => if n = 0 then -1 else 0 }

/-- Modelled from the spec: the build-time defaults `CONFIG_AOS_WS_CLIENT_*`,
which the build generates from a Kconfig file that is not among the sources.
The spec gives connection_attempts=3, reconnection_attempts=UINT32_MAX,
retry_interval_ms=3000, send_timeout_ms=3000, poll_timeout_ms=100 and
buffer_size=1024; the task defaults (stack size 3072, queue size 3, priority 1)
are those the comments of `aos_ws_client_config_t` give. -/
def documented_sdkconfig : sdkconfig :=
  { CONFIG_AOS_WS_CLIENT_CONNECTIONATTEMPTS_DEFAULT := 3
    CONFIG_AOS_WS_CLIENT_RECONNECTIONATTEMPTS_DEFAULT := 2 ^ 32 - 1
    CONFIG_AOS_WS_CLIENT_RETRYINTERVALMS_DEFAULT := 3000
    CONFIG_AOS_WS_CLIENT_SENDTIMEOUTMS_DEFAULT := 3000
    CONFIG_AOS_WS_CLIENT_POLLINGTIMEOUTMS_DEFAULT := 100
    CONFIG_AOS_WS_CLIENT_BUFFERSIZE_DEFAULT := 1024
    CONFIG_AOS_WS_CLIENT_TASK_STACKSIZE_DEFAULT := 3072
    CONFIG_AOS_WS_CLIENT_TASK_QUEUESIZE_DEFAULT := 3
    CONFIG_AOS_WS_CLIENT_TASK_PRIORITY_DEFAULT := 1 }

/-- The pointers `aos_ws_client_free` releases. -/
inductive Resource where
  | transport
  | parent_transport
  | buffer
  | ctx
  | task
  deriving DecidableEq, Repr

/-- Release calls of `aos_ws_client_free`, each with the pointer it is given. -/
inductive ReleaseAction where
  | esp_transport_destroy (p : Resource)
  | free (p : Resource)
  | aos_task_free (p : Resource)
  deriving DecidableEq, Repr

/-- Destructor `aos_ws_client_free`: five release calls. It calls neither the
runtime nor a transport operation of the client, so the system state (context,
registered loops, log of the client's actions) is returned as it was given. -/
def aos_ws_client_free (s : Sys) : Sys × List ReleaseAction :=
  (s, [ReleaseAction.esp_transport_destroy Resource.transport,
       ReleaseAction.esp_transport_destroy Resource.parent_transport,
       ReleaseAction.free Resource.buffer,
       ReleaseAction.free Resource.ctx,
       ReleaseAction.aos_task_free Resource.task])

/-- Bound on the counters in the reachable states: neither counter exceeds its
budget. -/
def BoundInv (s : Sys) : Prop :=
  s.ctx.connection_attempt ≤ s.ctx.config.connection_attempts ∧
  s.ctx.reconnection_attempt ≤ s.ctx.config.reconnection_attempts

/-! ## Lemmas on the log and on the helpers -/

theorem events_append (l1 l2 : List Action) : events (l1 ++ l2) = events l1 ++ events l2 := by
  induction l1 with
  | nil => rfl
  | cons a l ih => cases a <;> simp [events, ih]

theorem resolutions_append (l1 l2 : List Action) :
    resolutions (l1 ++ l2) = resolutions l1 ++ resolutions l2 := by
  induction l1 with
  | nil => rfl
  | cons a l ih => cases a <;> simp [resolutions, ih]

theorem connect_calls_append (l1 l2 : List Action) :
    connect_calls (l1 ++ l2) = connect_calls l1 + connect_calls l2 := by
  induction l1 with
  | nil => simp [connect_calls]
  | cons a l ih => cases a <;> simp [connect_calls, ih]; omega

theorem frames_append (l1 l2 : List Action) : frames (l1 ++ l2) = frames l1 ++ frames l2 := by
  induction l1 with
  | nil => rfl
  | cons a l ih => cases a <;> simp [frames, ih]

/-- The read loop touches only the buffer, the transport and the log, and
logs nothing but reads. -/
theorem read_loop_inv (fuel : Nat) : ∀ (d : Nat) (s : Sys) (r : Option Nat) (s1 : Sys),
    read_loop fuel d s = some (r, s1) →
    (∃ b, s1.ctx = { s.ctx with buffer := b }) ∧ s1.loops = s.loops ∧
    ∃ l, s1.log = s.log ++ l ∧ ∀ a ∈ l, ∃ o n t, a = Action.esp_transport_read o n t := by
  induction fuel with
  | zero => intro d s r s1 h; simp [read_loop] at h
  | succ k ih =>
    intro d s r s1 h
    simp only [read_loop] at h
    split at h
    · simp at h
      obtain ⟨-, rfl⟩ := h
      simp [esp_transport_read]
    · split at h
      · obtain ⟨⟨b, h1⟩, h2, l, h3, h4⟩ := ih _ _ _ _ h
        refine ⟨⟨b, ?_⟩, ?_, ?_⟩
        · rw [h1]; simp [esp_transport_read]
        · rw [h2]; simp [esp_transport_read]
        · refine ⟨Action.esp_transport_read d (u32 (s.ctx.config.buffer_size + 2 ^ 32 - d))
            s.ctx.config.poll_timeout_ms :: l, ?_, ?_⟩
          · rw [h3]; simp [esp_transport_read]
          · intro a ha
            simp at ha
            rcases ha with rfl | ha
            · exact ⟨_, _, _, rfl⟩
            · exact h4 a ha
      · simp at h
        obtain ⟨-, rfl⟩ := h
        simp [esp_transport_read]

/-- A list of read actions carries no event, no resolution, no connect and no frame. -/
theorem reads_silent (l : List Action)
    (h : ∀ a ∈ l, ∃ o n t, a = Action.esp_transport_read o n t) :
    events l = [] ∧ resolutions l = [] ∧ connect_calls l = 0 ∧ frames l = [] := by
  induction l with
  | nil => simp [events, resolutions, connect_calls, frames]
  | cons a l ih =>
    obtain ⟨o, n, t, rfl⟩ := h _ (List.mem_cons_self _ _)
    simpa [events, resolutions, connect_calls, frames] using
      ih (fun a ha => h a (List.mem_cons_of_mem _ ha))

/-- What close-clean appends to the log. -/
theorem disconnect_log (s : Sys) :
    ∃ l, (_aos_ws_client_disconnect s).log = s.log ++ l ∧
      (∀ x ∈ frames l, x = (WS_TRANSPORT_OPCODES_CLOSE ||| WS_TRANSPORT_OPCODES_FIN, 0)) ∧
      events l = [] ∧ resolutions l = [] ∧ connect_calls l = 0 := by
  cases hst : s.ctx.state <;>
    simp [_aos_ws_client_disconnect, aos_task_loop_unset, hst, esp_transport_ws_send_raw, Sys.emit,
      frames, events, resolutions, connect_calls]

/-- What the error handler appends to the log: the only frames are CLOSE
frames, and no connect is attempted. -/
theorem onerror_log (s : Sys) :
    ∃ l, (_aos_ws_client_onerror s).log = s.log ++ l ∧
      (∀ x ∈ frames l, x = (WS_TRANSPORT_OPCODES_CLOSE ||| WS_TRANSPORT_OPCODES_FIN, 0)) ∧
      connect_calls l = 0 := by
  cases hst : s.ctx.state <;> cases hf : s.ctx.connect_future <;>
    simp [_aos_ws_client_onerror, _aos_ws_client_disconnect, aos_task_loop_unset, aos_task_loop_set,
      hst, hf, esp_transport_ws_send_raw, Sys.emit] <;>
    split <;> (try split) <;>
    simp [frames, events, resolutions, connect_calls, hst]

/-! ## Server CLOSE -/

/-- On a server CLOSE the poll tick runs close-clean and emits DISCONNECTED,
and the state field keeps the value CONNECTED: `_aos_ws_client_disconnect`
does not assign it and the CLOSE case does not either. -/
theorem poll_close (fuel : Nat) (s s1 : Sys) (data_len : Nat)
    (hstate : s.ctx.state = CONNECTED)
    (hread : read_loop fuel 0 s = some (some data_len, s1))
    (hop : esp_transport_ws_get_read_opcode s1 = WS_TRANSPORT_OPCODES_CLOSE) :
    ∃ s2 reads, _aos_ws_client_poll_loop fuel s = some s2 ∧
      (∀ a ∈ reads, ∃ o n t, a = Action.esp_transport_read o n t) ∧
      s2.log = s.log ++ reads ++
        [Action.aos_task_loop_unset s.ctx.poll_loop,
         Action.aos_task_loop_unset s.ctx.retry_loop,
         Action.esp_transport_ws_send_raw (WS_TRANSPORT_OPCODES_CLOSE ||| WS_TRANSPORT_OPCODES_FIN)
           [] 0 s.ctx.config.send_timeout_ms,
         Action.esp_transport_ws_poll_connection_closed s.ctx.config.send_timeout_ms,
         Action.esp_transport_close,
         Action.event_handler AOS_WS_CLIENT_EVENT_DISCONNECTED] ∧
      events s2.log = events s.log ++ [AOS_WS_CLIENT_EVENT_DISCONNECTED] ∧
      s2.ctx.poll_loop = none ∧ s2.ctx.retry_loop = none ∧ s2.ctx.state = CONNECTED ∧
      s2.ctx.connection_attempt = s.ctx.connection_attempt ∧
      s2.ctx.reconnection_attempt = s.ctx.reconnection_attempt ∧
      (s.loops = s.ctx.poll_loop.toList ++ s.ctx.retry_loop.toList → s2.loops = []) := by
  obtain ⟨⟨b, hctx⟩, hloops, reads, hlog, hreads⟩ := read_loop_inv fuel 0 s _ s1 hread
  have hev := (reads_silent reads hreads).1
  refine ⟨poll_dispatch data_len s1, reads, ?_, hreads, ?_⟩
  · simp only [_aos_ws_client_poll_loop, hread]
  · simp [poll_dispatch, hop, WS_TRANSPORT_OPCODES_CLOSE, WS_TRANSPORT_OPCODES_CONT,
      WS_TRANSPORT_OPCODES_TEXT, WS_TRANSPORT_OPCODES_BINARY, WS_TRANSPORT_OPCODES_PING,
      WS_TRANSPORT_OPCODES_PONG, _aos_ws_client_disconnect, aos_task_loop_unset, hctx, hstate,
      esp_transport_ws_send_raw, Sys.emit, hlog, events_append, hev, events, hloops]
    intro hl
    rw [hl]
    cases s.ctx.poll_loop <;> cases s.ctx.retry_loop <;> simp

/-- C1 (code defect): a client connected by a CONNECT whose next poll tick
reads a CLOSE frame (the read returns 0 bytes, the opcode is CLOSE) emits
DISCONNECTED and disarms both timers, and its state is still CONNECTED
afterwards, not DISCONNECTED. A CONNECT issued next is answered with err=0
without any call of the transport. -/
theorem server_close_leaves_state_connected :
    (run 1 (initial example_config closing_transport)
        [Input.AOS_WS_CLIENT_TASKEVT_CONNECT 0, Input.poll_tick]).map
        (fun s => (s.ctx.state, events s.log, s.ctx.poll_loop, s.ctx.retry_loop, s.loops,
          s.ctx.connection_attempt, s.ctx.reconnection_attempt))
      = some (CONNECTED, [AOS_WS_CLIENT_EVENT_DISCONNECTED], none, none, [], 0, 0) ∧
    (run 1 (initial example_config closing_transport)
        [Input.AOS_WS_CLIENT_TASKEVT_CONNECT 0, Input.poll_tick,
         Input.AOS_WS_CLIENT_TASKEVT_CONNECT 1]).map
        (fun s => (s.ctx.state, resolutions s.log, connect_calls s.log, s.loops))
      = some (CONNECTED, [(0, some 0), (1, some 0)], 1, []) := by
  constructor <;> rfl

/-- C9: a poll tick in state CONNECTED whose reads do not fail and whose
opcode is CLOSE, whatever the reconnection budget, logs after its reads exactly:
the disarming of both timers, one CLOSE|FIN frame of length 0, the wait for the
peer and the close of the transport, then the DISCONNECTED event. The events it
emits are exactly [DISCONNECTED], no loop is set, and both loop handles are null. -/
theorem poll_close_emits_only_disconnected (fuel : Nat) (s s1 : Sys) (data_len : Nat)
    (hstate : s.ctx.state = CONNECTED)
    (hread : read_loop fuel 0 s = some (some data_len, s1))
    (hop : esp_transport_ws_get_read_opcode s1 = WS_TRANSPORT_OPCODES_CLOSE) :
    ∃ s2 reads, _aos_ws_client_poll_loop fuel s = some s2 ∧
      (∀ a ∈ reads, ∃ o n t, a = Action.esp_transport_read o n t) ∧
      s2.log = s.log ++ reads ++
        [Action.aos_task_loop_unset s.ctx.poll_loop,
         Action.aos_task_loop_unset s.ctx.retry_loop,
         Action.esp_transport_ws_send_raw (WS_TRANSPORT_OPCODES_CLOSE ||| WS_TRANSPORT_OPCODES_FIN)
           [] 0 s.ctx.config.send_timeout_ms,
         Action.esp_transport_ws_poll_connection_closed s.ctx.config.send_timeout_ms,
         Action.esp_transport_close,
         Action.event_handler AOS_WS_CLIENT_EVENT_DISCONNECTED] ∧
      events s2.log = events s.log ++ [AOS_WS_CLIENT_EVENT_DISCONNECTED] ∧
      s2.ctx.poll_loop = none ∧ s2.ctx.retry_loop = none ∧
      (s.loops = s.ctx.poll_loop.toList ++ s.ctx.retry_loop.toList → s2.loops = []) := by
  obtain ⟨s2, reads, h1, h2, h3, h4, h5, h6, -, -, -, h7⟩ :=
    poll_close fuel s s1 data_len hstate hread hop
  exact ⟨s2, reads, h1, h2, h3, h4, h5, h6, h7⟩

/-- C9, witness: budget 0; the client was connected by a CONNECT and its
next poll tick makes one read of 0 bytes with opcode CLOSE. -/
theorem poll_close_emits_only_disconnected_witness :
    (after_connect (reconnect_budget 0) closing_transport).ctx.state
      = CONNECTED ∧
    esp_transport_ws_get_read_opcode (esp_transport_read 0 8 100
      (after_connect (reconnect_budget 0) closing_transport)).2
      = WS_TRANSPORT_OPCODES_CLOSE ∧
    ∃ s2 reads,
      _aos_ws_client_poll_loop 1
        (after_connect (reconnect_budget 0) closing_transport)
        = some s2 ∧
      (∀ a ∈ reads, ∃ o n t, a = Action.esp_transport_read o n t) ∧
      s2.log =
        (after_connect (reconnect_budget 0) closing_transport).log
        ++ reads ++
        [Action.aos_task_loop_unset (some ⟨LoopFn._aos_ws_client_poll_loop, 1⟩),
         Action.aos_task_loop_unset none,
         Action.esp_transport_ws_send_raw (WS_TRANSPORT_OPCODES_CLOSE ||| WS_TRANSPORT_OPCODES_FIN)
           [] 0 3000,
         Action.esp_transport_ws_poll_connection_closed 3000,
         Action.esp_transport_close,
         Action.event_handler AOS_WS_CLIENT_EVENT_DISCONNECTED] ∧
      events s2.log = [AOS_WS_CLIENT_EVENT_DISCONNECTED] ∧
      s2.ctx.poll_loop = none ∧ s2.ctx.retry_loop = none :=
  ⟨by rfl, by rfl,
   (poll_close_emits_only_disconnected 1
    (after_connect (reconnect_budget 0) closing_transport)
    (esp_transport_read 0 8 100
      (after_connect (reconnect_budget 0) closing_transport)).2
    0 (by rfl) (by rfl) (by rfl)).imp (fun _ h => h.imp (fun _ h =>
      ⟨h.1, h.2.1, h.2.2.1, h.2.2.2.1, h.2.2.2.2.1, h.2.2.2.2.2.1⟩))⟩

/-! ## Connection budget -/

/-- C2 (code defect): with `connection_attempts = 1` and a transport whose
connects all fail, the CONNECT handler makes one connect call and leaves the
promise pending in state CONNECTING; the promise is resolved with err=1 by the
first retry tick, after a second connect call. -/
theorem connect_budget_one_makes_two_attempts :
    (run 1 (initial { example_config with connection_attempts := 1 } refusing_transport)
        [Input.AOS_WS_CLIENT_TASKEVT_CONNECT 0]).map
        (fun s => (s.ctx.state, resolutions s.log, connect_calls s.log, s.ctx.connect_future))
      = some (CONNECTING, [], 1, some 0) ∧
    (run 1 (initial { example_config with connection_attempts := 1 } refusing_transport)
        [Input.AOS_WS_CLIENT_TASKEVT_CONNECT 0, Input.retry_tick]).map
        (fun s => (s.ctx.state, resolutions s.log, connect_calls s.log, s.ctx.connect_future))
      = some (DISCONNECTED, [(0, some 1)], 2, none) := by
  constructor <;> rfl

/-! ## SEND in state CONNECTED -/

/-- C10: in state CONNECTED, SEND_TEXT passes to the transport one frame
TEXT|FIN of length strlen(data) and SEND_BINARY one frame BINARY|FIN of the
given length. If the send returns a non-negative value, the handler appends to
the log exactly that frame and the resolution with err=0, and leaves the context
and the registered loops unchanged. If it returns a negative value, the handler
runs the error handler on the state after the send and then resolves with err=1:
the log is the frame, what the error handler logs (its frames are CLOSE frames
only), then the resolution. -/
theorem send_in_connected (future : Nat) (in_data : List Nat) (in_data_len : Nat) (s : Sys)
    (hstate : s.ctx.state = CONNECTED) :
    (0 ≤ s.transport.send_ret s.transport.sends →
      (_aos_ws_client_handler_send_text future in_data s).ctx = s.ctx ∧
      (_aos_ws_client_handler_send_text future in_data s).loops = s.loops ∧
      (_aos_ws_client_handler_send_text future in_data s).log = s.log ++
        [Action.esp_transport_ws_send_raw (WS_TRANSPORT_OPCODES_TEXT ||| WS_TRANSPORT_OPCODES_FIN)
           in_data (strlen in_data) s.ctx.config.send_timeout_ms,
         Action.aos_resolve future (some 0)] ∧
      (_aos_ws_client_handler_send_binary future in_data in_data_len s).ctx = s.ctx ∧
      (_aos_ws_client_handler_send_binary future in_data in_data_len s).loops = s.loops ∧
      (_aos_ws_client_handler_send_binary future in_data in_data_len s).log = s.log ++
        [Action.esp_transport_ws_send_raw (WS_TRANSPORT_OPCODES_BINARY ||| WS_TRANSPORT_OPCODES_FIN)
           in_data in_data_len s.ctx.config.send_timeout_ms,
         Action.aos_resolve future (some 0)]) ∧
    (s.transport.send_ret s.transport.sends < 0 →
      (_aos_ws_client_handler_send_text future in_data s =
        (_aos_ws_client_onerror (esp_transport_ws_send_raw
          (WS_TRANSPORT_OPCODES_TEXT ||| WS_TRANSPORT_OPCODES_FIN)
          in_data (strlen in_data) s.ctx.config.send_timeout_ms s).2).emit
          (Action.aos_resolve future (some 1)) ∧
       ∃ l, (_aos_ws_client_handler_send_text future in_data s).log = s.log ++
          [Action.esp_transport_ws_send_raw (WS_TRANSPORT_OPCODES_TEXT ||| WS_TRANSPORT_OPCODES_FIN)
             in_data (strlen in_data) s.ctx.config.send_timeout_ms] ++ l ++
          [Action.aos_resolve future (some 1)] ∧
          ∀ x ∈ frames l, x = (WS_TRANSPORT_OPCODES_CLOSE ||| WS_TRANSPORT_OPCODES_FIN, 0)) ∧
      (_aos_ws_client_handler_send_binary future in_data in_data_len s =
        (_aos_ws_client_onerror (esp_transport_ws_send_raw
          (WS_TRANSPORT_OPCODES_BINARY ||| WS_TRANSPORT_OPCODES_FIN)
          in_data in_data_len s.ctx.config.send_timeout_ms s).2).emit
          (Action.aos_resolve future (some 1)) ∧
       ∃ l, (_aos_ws_client_handler_send_binary future in_data in_data_len s).log = s.log ++
          [Action.esp_transport_ws_send_raw (WS_TRANSPORT_OPCODES_BINARY ||| WS_TRANSPORT_OPCODES_FIN)
             in_data in_data_len s.ctx.config.send_timeout_ms] ++ l ++
          [Action.aos_resolve future (some 1)] ∧
          ∀ x ∈ frames l, x = (WS_TRANSPORT_OPCODES_CLOSE ||| WS_TRANSPORT_OPCODES_FIN, 0))) := by
  constructor
  · intro hok
    have hnot : ¬ s.transport.send_ret s.transport.sends < 0 := not_lt.mpr hok
    simp [_aos_ws_client_handler_send_text, _aos_ws_client_handler_send_binary, hstate,
      esp_transport_ws_send_raw, hnot, Sys.emit]
  · intro hneg
    refine ⟨⟨?_, ?_⟩, ⟨?_, ?_⟩⟩
    · simp [_aos_ws_client_handler_send_text, hstate, esp_transport_ws_send_raw, hneg]
    · obtain ⟨l, hl, hfr, -⟩ := onerror_log (esp_transport_ws_send_raw
        (WS_TRANSPORT_OPCODES_TEXT ||| WS_TRANSPORT_OPCODES_FIN)
        in_data (strlen in_data) s.ctx.config.send_timeout_ms s).2
      refine ⟨l, ?_, hfr⟩
      simp only [_aos_ws_client_handler_send_text, hstate, esp_transport_ws_send_raw, hneg,
        if_true, Sys.emit]
      simp only [esp_transport_ws_send_raw] at hl
      rw [hl]
    · simp [_aos_ws_client_handler_send_binary, hstate, esp_transport_ws_send_raw, hneg]
    · obtain ⟨l, hl, hfr, -⟩ := onerror_log (esp_transport_ws_send_raw
        (WS_TRANSPORT_OPCODES_BINARY ||| WS_TRANSPORT_OPCODES_FIN)
        in_data in_data_len s.ctx.config.send_timeout_ms s).2
      refine ⟨l, ?_, hfr⟩
      simp only [_aos_ws_client_handler_send_binary, hstate, esp_transport_ws_send_raw, hneg,
        if_true, Sys.emit]
      simp only [esp_transport_ws_send_raw] at hl
      rw [hl]

/-! ## CONNECT while a CONNECT is pending -/

/-- C6: a CONNECT handled in state CONNECTING with promise `pending` stored
first disarms both loops (the retry loop of the earlier attempt included),
resolves `pending` with err=1, and only then calls the transport connect; at that
point `connect_future` holds the new promise. If the connect fails, the error
handler decides on the new promise: with a zero budget it resolves it with err=1,
otherwise it keeps it pending and arms a new retry loop. If the connect
succeeds, the new promise is resolved with err=0, the poll loop is armed and one
poll tick runs. -/
theorem connect_preempts_pending (fuel future pending : Nat) (s : Sys)
    (hstate : s.ctx.state = CONNECTING) (hpending : s.ctx.connect_future = some pending) :
    ∃ mid : Sys,
      mid.log = s.log ++
        [Action.aos_task_loop_unset s.ctx.poll_loop,
         Action.aos_task_loop_unset s.ctx.retry_loop,
         Action.aos_resolve pending (some 1),
         Action.esp_transport_connect s.ctx.config.host s.ctx.config.port
           s.ctx.config.send_timeout_ms] ∧
      mid.ctx.connect_future = some future ∧ mid.ctx.poll_loop = none ∧
      mid.ctx.retry_loop = none ∧ mid.ctx.connection_attempt = 0 ∧
      mid.ctx.state = CONNECTING ∧
      (∀ h, s.ctx.poll_loop = none → s.ctx.retry_loop = some h → mid.loops = s.loops.erase h) ∧
      (s.transport.connect_ret s.transport.connects < 0 →
        _aos_ws_client_handler_connect fuel future s = some (_aos_ws_client_onerror mid) ∧
        (s.ctx.config.connection_attempts = 0 →
          (_aos_ws_client_onerror mid).log = mid.log ++
            [Action.aos_task_loop_unset none, Action.aos_task_loop_unset none,
             Action.aos_task_loop_unset none, Action.aos_task_loop_unset none,
             Action.aos_resolve future (some 1)] ∧
          (_aos_ws_client_onerror mid).ctx.state = DISCONNECTED ∧
          (_aos_ws_client_onerror mid).ctx.connect_future = none) ∧
        (0 < s.ctx.config.connection_attempts →
          (_aos_ws_client_onerror mid).log = mid.log ++
            [Action.aos_task_loop_unset none, Action.aos_task_loop_unset none,
             Action.aos_task_loop_set
               ⟨LoopFn._aos_ws_client_retry_loop, s.ctx.config.retry_interval_ms⟩] ∧
          (_aos_ws_client_onerror mid).ctx.state = CONNECTING ∧
          (_aos_ws_client_onerror mid).ctx.connect_future = some future ∧
          (_aos_ws_client_onerror mid).ctx.connection_attempt = 1 ∧
          (_aos_ws_client_onerror mid).ctx.retry_loop =
            some ⟨LoopFn._aos_ws_client_retry_loop, s.ctx.config.retry_interval_ms⟩)) ∧
      (0 ≤ s.transport.connect_ret s.transport.connects →
        ∃ mid2 : Sys,
          _aos_ws_client_handler_connect fuel future s = _aos_ws_client_poll_loop fuel mid2 ∧
          mid2.log = mid.log ++
            [Action.aos_resolve future (some 0),
             Action.aos_task_loop_set ⟨LoopFn._aos_ws_client_poll_loop, 1⟩] ∧
          mid2.ctx.connect_future = none ∧ mid2.ctx.state = CONNECTED ∧
          mid2.ctx.poll_loop = some ⟨LoopFn._aos_ws_client_poll_loop, 1⟩ ∧
          mid2.ctx.retry_loop = none) := by
  refine ⟨(esp_transport_connect s.ctx.config.host s.ctx.config.port s.ctx.config.send_timeout_ms
    { ctx := { s.ctx with poll_loop := none, retry_loop := none, connect_future := some future,
                          connection_attempt := 0, reconnection_attempt := 0 },
      transport := s.transport,
      loops := (aos_task_loop_unset s.ctx.retry_loop (aos_task_loop_unset s.ctx.poll_loop s)).loops,
      log := s.log ++ [Action.aos_task_loop_unset s.ctx.poll_loop,
         Action.aos_task_loop_unset s.ctx.retry_loop, Action.aos_resolve pending (some 1)] }).2,
    ?_, ?_, ?_, ?_, ?_, ?_, ?_, ?_, ?_⟩
  · simp [esp_transport_connect]
  · simp [esp_transport_connect]
  · simp [esp_transport_connect]
  · simp [esp_transport_connect]
  · simp [esp_transport_connect]
  · simp [esp_transport_connect, hstate]
  · intro h hp hr
    simp [esp_transport_connect, aos_task_loop_unset, hp, hr]
  · intro hneg
    refine ⟨?_, ?_, ?_⟩
    · simp [_aos_ws_client_handler_connect, handler_connect_prepare, hstate, hpending,
        _aos_ws_client_disconnect, resolve_connect_future, aos_task_loop_unset,
        esp_transport_connect, hneg, Sys.emit]
    · intro h0
      simp [_aos_ws_client_onerror, _aos_ws_client_disconnect, aos_task_loop_unset,
        esp_transport_connect, hstate, h0, Sys.emit]
    · intro hpos
      have hnot : ¬ s.ctx.config.connection_attempts = 0 := by omega
      simp [_aos_ws_client_onerror, _aos_ws_client_disconnect, aos_task_loop_unset,
        aos_task_loop_set, esp_transport_connect, hstate, hnot, Sys.emit, u32]
  · intro hok
    have hnot : ¬ s.transport.connect_ret s.transport.connects < 0 := not_lt.mpr hok
    simp only [_aos_ws_client_handler_connect, handler_connect_prepare, hstate, hpending,
      _aos_ws_client_disconnect, resolve_connect_future, aos_task_loop_unset,
      esp_transport_connect, hnot, Sys.emit, if_false]
    refine ⟨_, rfl, ?_⟩
    simp [handler_connect_connected, aos_task_loop_set, Sys.emit]

theorem disconnect_effect (s : Sys) (h : s.loops = s.ctx.poll_loop.toList ++ s.ctx.retry_loop.toList) :
    (_aos_ws_client_disconnect s).loops = [] ∧
    (_aos_ws_client_disconnect s).ctx = { s.ctx with poll_loop := none, retry_loop := none } := by
  cases hst : s.ctx.state <;> cases hp : s.ctx.poll_loop <;> cases hr : s.ctx.retry_loop <;>
    simp [_aos_ws_client_disconnect, aos_task_loop_unset, hst, hp, hr, h, esp_transport_ws_send_raw,
      Sys.emit]

theorem onerror_inv (s : Sys) (h : s.loops = s.ctx.poll_loop.toList ++ s.ctx.retry_loop.toList) :
    Inv (_aos_ws_client_onerror s) := by
  cases hst : s.ctx.state <;> cases hp : s.ctx.poll_loop <;> cases hr : s.ctx.retry_loop <;>
    cases hf : s.ctx.connect_future <;>
    simp [Inv, _aos_ws_client_onerror, _aos_ws_client_disconnect, aos_task_loop_unset,
      aos_task_loop_set, hst, hp, hr, hf, h, esp_transport_ws_send_raw, Sys.emit] <;>
    split <;> (try split) <;> simp [hst, hp, hr, hf]

theorem inv_of_ctx_loops {s s1 : Sys} (h : Inv s) (hloops : s1.loops = s.loops)
    (hctx : ∃ b, s1.ctx = { s.ctx with buffer := b }) : Inv s1 := by
  obtain ⟨b, hb⟩ := hctx
  simpa [Inv, hb, hloops] using h

theorem read_loop_keeps_inv {fuel d : Nat} {s s1 : Sys} {r : Option Nat} (h : Inv s)
    (hr : read_loop fuel d s = some (r, s1)) : Inv s1 := by
  obtain ⟨hctx, hloops, -⟩ := read_loop_inv fuel d s r s1 hr
  exact inv_of_ctx_loops h hloops hctx

theorem disconnect_inv (s : Sys) (h : Inv s) (hst : s.ctx.state = CONNECTED) :
    Inv (_aos_ws_client_disconnect s) := by
  obtain ⟨h1, h2, h3, h4, h5, h6, h7, h8, h9⟩ := h
  obtain ⟨hl, hc⟩ := disconnect_effect s h1
  have := h3 hst
  simp [Inv, hl, hc, hst, this]

theorem poll_dispatch_inv (d : Nat) (s : Sys) (h : Inv s) (hst : s.ctx.state = CONNECTED) :
    Inv (poll_dispatch d s) := by
  simp only [poll_dispatch]
  split_ifs
  · exact inv_of_ctx_loops h rfl ⟨s.ctx.buffer, rfl⟩
  · exact onerror_inv _ h.1
  · exact inv_of_ctx_loops h rfl ⟨s.ctx.buffer, rfl⟩
  · exact h
  · exact inv_of_ctx_loops (disconnect_inv s h hst) rfl ⟨_, rfl⟩
  · exact h
  · exact onerror_inv _ h.1

theorem poll_loop_inv {fuel : Nat} {s s1 : Sys} (h : Inv s) (hst : s.ctx.state = CONNECTED)
    (hp : _aos_ws_client_poll_loop fuel s = some s1) : Inv s1 := by
  simp only [_aos_ws_client_poll_loop] at hp
  split at hp
  · simp at hp
  · rename_i s2 hr
    simp at hp
    subst hp
    exact onerror_inv _ (read_loop_keeps_inv h hr).1
  · rename_i d s2 hr
    simp at hp
    subst hp
    refine poll_dispatch_inv _ _ (read_loop_keeps_inv h hr) ?_
    obtain ⟨⟨b, hb⟩, -, -⟩ := read_loop_inv _ _ _ _ _ hr
    simp [hb, hst]

theorem retry_loop_connected_inv (s : Sys) (h : Inv s) (harmed : s.ctx.retry_loop ≠ none) :
    Inv (retry_loop_connected s) := by
  obtain ⟨h1, h2, h3, h4, h5, h6, h7, h8, h9⟩ := h
  have hpn := h4 harmed
  cases hr : s.ctx.retry_loop <;> cases hf : s.ctx.connect_future <;>
    by_cases hra : s.ctx.reconnection_attempt = 0 <;>
    simp [Inv, retry_loop_connected, aos_task_loop_unset, aos_task_loop_set, Sys.emit, hpn, hr,
      hf, h1, hra]

theorem retry_loop_inv {fuel : Nat} {s s1 : Sys} (h : Inv s)
    (harmed : s.ctx.retry_loop ≠ none)
    (hp : _aos_ws_client_retry_loop fuel s = some s1) : Inv s1 := by
  simp only [_aos_ws_client_retry_loop] at hp
  split at hp
  · simp at hp
    subst hp
    exact onerror_inv _ h.1
  · refine poll_loop_inv (retry_loop_connected_inv _ ?_ ?_) ?_ hp
    · exact inv_of_ctx_loops h rfl ⟨_, rfl⟩
    · simpa [esp_transport_connect] using harmed
    · simp only [retry_loop_connected, aos_task_loop_set, Sys.emit]
      split <;> split <;> rfl

theorem handler_connect_prepare_effect (future : Nat) (s : Sys)
    (h : s.loops = s.ctx.poll_loop.toList ++ s.ctx.retry_loop.toList) :
    (handler_connect_prepare future s).loops = [] ∧
    (handler_connect_prepare future s).ctx =
      { s.ctx with poll_loop := none, retry_loop := none, connect_future := some future,
                   connection_attempt := 0, reconnection_attempt := 0 } := by
  have hd := disconnect_effect s h
  simp only [handler_connect_prepare, resolve_connect_future]
  split <;> simp [Sys.emit, hd]

theorem handler_connect_inv {fuel future : Nat} {s s1 : Sys} (h : Inv s)
    (hp : _aos_ws_client_handler_connect fuel future s = some s1) : Inv s1 := by
  obtain ⟨h1, h2, h3, h4, h5, h6, h7, h8, h9⟩ := h
  have hd := handler_connect_prepare_effect future s h1
  simp only [_aos_ws_client_handler_connect] at hp
  split at hp
  · rename_i hst
    simp at hp
    subst hp
    have := h3 hst
    simp [Inv, Sys.emit, h1, hst, this]
    simp [hst] at h8
    exact ⟨h4, h5, h6, h8⟩
  · split at hp
    · simp at hp
      subst hp
      refine onerror_inv _ ?_
      simp [esp_transport_connect, hd]
    · refine poll_loop_inv ?_ ?_ hp
      · simp [Inv, esp_transport_connect, handler_connect_connected, hd, aos_task_loop_set,
          Sys.emit]
      · simp [handler_connect_connected, aos_task_loop_set, Sys.emit]

theorem handler_disconnect_inv (future : Nat) (s : Sys) (h : Inv s) :
    Inv (_aos_ws_client_handler_disconnect future s) := by
  have hd := disconnect_effect s h.1
  simp only [_aos_ws_client_handler_disconnect]
  split
  · exact inv_of_ctx_loops h rfl ⟨_, rfl⟩
  · cases hf : s.ctx.connect_future <;> simp [Inv, resolve_connect_future, Sys.emit, hd, hf]

theorem handler_send_text_inv (future : Nat) (in_data : List Nat) (s : Sys) (h : Inv s) :
    Inv (_aos_ws_client_handler_send_text future in_data s) := by
  simp only [_aos_ws_client_handler_send_text]
  split
  · split
    · exact inv_of_ctx_loops (onerror_inv (esp_transport_ws_send_raw _ _ _ _ s).2 h.1) rfl
        ⟨_, rfl⟩
    · exact inv_of_ctx_loops h rfl ⟨_, rfl⟩
  · exact inv_of_ctx_loops h rfl ⟨_, rfl⟩

theorem handler_send_binary_inv (future : Nat) (in_data : List Nat) (n : Nat) (s : Sys)
    (h : Inv s) : Inv (_aos_ws_client_handler_send_binary future in_data n s) := by
  simp only [_aos_ws_client_handler_send_binary]
  split
  · split
    · exact inv_of_ctx_loops (onerror_inv (esp_transport_ws_send_raw _ _ _ _ s).2 h.1) rfl
        ⟨_, rfl⟩
    · exact inv_of_ctx_loops h rfl ⟨_, rfl⟩
  · exact inv_of_ctx_loops h rfl ⟨_, rfl⟩

theorem armed_iff {s : Sys} (h : Inv s) :
    (armed LoopFn._aos_ws_client_poll_loop s = true ↔ s.ctx.poll_loop ≠ none) ∧
    (armed LoopFn._aos_ws_client_retry_loop s = true ↔ s.ctx.retry_loop ≠ none) := by
  obtain ⟨h1, h2, h3, h4, h5, h6, -, -, -⟩ := h
  cases hp : s.ctx.poll_loop <;> cases hr : s.ctx.retry_loop <;>
    simp [armed, h1, hp, hr] <;> simp [hp, hr] at h4 h5 h6 <;> simp [h5, h6]

theorem step_inv {fuel : Nat} {s s1 : Sys} {i : Input} (h : Inv s)
    (hs : step fuel s i = some s1) : Inv s1 := by
  cases i with
  | AOS_WS_CLIENT_TASKEVT_CONNECT f => exact handler_connect_inv h hs
  | AOS_WS_CLIENT_TASKEVT_DISCONNECT f =>
    simp [step] at hs; subst hs; exact handler_disconnect_inv _ _ h
  | AOS_WS_CLIENT_TASKEVT_SEND_TEXT f d =>
    simp [step] at hs; subst hs; exact handler_send_text_inv _ _ _ h
  | AOS_WS_CLIENT_TASKEVT_SEND_BINARY f d n =>
    simp [step] at hs; subst hs; exact handler_send_binary_inv _ _ _ _ h
  | poll_tick =>
    simp only [step] at hs
    split at hs
    · rename_i ha
      exact poll_loop_inv h (h.2.2.2.2.2.2.1 ((armed_iff h).1.1 ha)) hs
    · simp at hs; subst hs; exact h
  | retry_tick =>
    simp only [step] at hs
    split at hs
    · rename_i ha
      exact retry_loop_inv h ((armed_iff h).2.1 ha) hs
    · simp at hs; subst hs; exact h

theorem initial_inv (config : aos_ws_client_config_t) (transport : esp_transport_handle_t) :
    Inv (initial config transport) := by
  simp [Inv, initial, initial_ctx]

theorem reachable_inv {s : Sys} (h : Reachable s) : Inv s := by
  induction h with
  | init config transport => exact initial_inv config transport
  | step fuel i _ hs ih => exact step_inv ih hs

theorem onerror_starts_recovery (s : Sys) (h : Inv s) (hst : s.ctx.state = CONNECTED)
    (hb : 1 ≤ s.ctx.config.reconnection_attempts) : Recovering s 0 (_aos_ws_client_onerror s) := by
  obtain ⟨h1, h2, h3, h4, h5, h6, h7, h8, h9⟩ := h
  obtain ⟨hra, hcf⟩ := h3 hst
  have hnot : ¬ s.ctx.config.reconnection_attempts = 0 := by omega
  cases hp : s.ctx.poll_loop <;> cases hr : s.ctx.retry_loop <;>
    simp [Recovering, _aos_ws_client_onerror, _aos_ws_client_disconnect, aos_task_loop_unset,
      aos_task_loop_set, hst, hp, hr, hcf, hra, h1, esp_transport_ws_send_raw, Sys.emit, hnot, u32,
      events_append, events, connect_calls_append, connect_calls]

theorem armed_of_recovering {s0 s : Sys} {j : Nat} (h : Recovering s0 j s) :
    armed LoopFn._aos_ws_client_retry_loop s = true := by
  obtain ⟨-, -, -, -, -, -, hl, -⟩ := h
  simp [armed, hl]

theorem retry_fail_recovering {s0 s : Sys} {j : Nat} (fuel : Nat) (h : Recovering s0 j s)
    (hj : j + 1 < s0.ctx.config.reconnection_attempts)
    (h32 : s0.ctx.config.reconnection_attempts < 2 ^ 32)
    (hneg : s0.transport.connect_ret (s0.transport.connects + j) < 0) :
    ∃ s1, step fuel s Input.retry_tick = some s1 ∧ Recovering s0 (j + 1) s1 := by
  have ha := armed_of_recovering h
  obtain ⟨hst, hcf, hra, hcfg, hp, hr, hl, hev, hcc, hc, hcr, hrd, hrr, hro⟩ := h
  have hneg1 : s.transport.connect_ret s.transport.connects < 0 := by rw [hcr, hc]; exact hneg
  have hnot : ¬ s0.ctx.config.reconnection_attempts ≤ j + 1 := by omega
  have hmod : (j + 1 + 1) % 4294967296 = j + 1 + 1 := Nat.mod_eq_of_lt (by omega)
  have hstep : step fuel s Input.retry_tick = some (_aos_ws_client_onerror
      (esp_transport_connect s.ctx.config.host s.ctx.config.port s.ctx.config.send_timeout_ms s).2) := by
    simp [step, ha, _aos_ws_client_retry_loop, esp_transport_connect, hneg1]
  refine ⟨_, hstep, ?_⟩
  simp [Recovering, _aos_ws_client_onerror, _aos_ws_client_disconnect, aos_task_loop_unset,
    aos_task_loop_set, hst, hp, hr, hcf, hra, hl, hcfg, Sys.emit, hnot, u32, hmod,
    events_append, events, connect_calls_append, connect_calls, hev, hcc, hc, hcr, hrd, hrr, hro,
    esp_transport_connect]
  omega

theorem retry_fail_gives_up {s0 s : Sys} {j : Nat} (fuel : Nat) (h : Recovering s0 j s)
    (hj : j + 1 = s0.ctx.config.reconnection_attempts)
    (hneg : s0.transport.connect_ret (s0.transport.connects + j) < 0) :
    ∃ s1, step fuel s Input.retry_tick = some s1 ∧
      s1.ctx.state = DISCONNECTED ∧ s1.ctx.poll_loop = none ∧ s1.ctx.retry_loop = none ∧
      s1.loops = [] ∧
      events s1.log = events s0.log ++
        [AOS_WS_CLIENT_EVENT_RECONNECTING, AOS_WS_CLIENT_EVENT_DISCONNECTED] ∧
      connect_calls s1.log = connect_calls s0.log + (j + 1) := by
  have ha := armed_of_recovering h
  obtain ⟨hst, hcf, hra, hcfg, hp, hr, hl, hev, hcc, hc, hcr, hrd, hrr, hro⟩ := h
  have hneg1 : s.transport.connect_ret s.transport.connects < 0 := by rw [hcr, hc]; exact hneg
  have hstep : step fuel s Input.retry_tick = some (_aos_ws_client_onerror
      (esp_transport_connect s.ctx.config.host s.ctx.config.port s.ctx.config.send_timeout_ms s).2) := by
    simp [step, ha, _aos_ws_client_retry_loop, esp_transport_connect, hneg1]
  refine ⟨_, hstep, ?_⟩
  simp [_aos_ws_client_onerror, _aos_ws_client_disconnect, aos_task_loop_unset,
    aos_task_loop_set, hst, hp, hr, hcf, hra, hl, hcfg, Sys.emit, ← hj,
    events_append, events, connect_calls_append, connect_calls, hev, hcc,
    esp_transport_connect]
  omega

theorem retry_succeeds {s0 s : Sys} {j : Nat} (fuel : Nat) (h : Recovering s0 j s)
    (hok : 0 ≤ s0.transport.connect_ret (s0.transport.connects + j))
    (hread : s0.transport.read_ret s0.transport.reads = 0)
    (hop : s0.transport.read_opcode (s0.transport.reads + 1) = WS_TRANSPORT_OPCODES_NONE)
    (hfuel : 1 ≤ fuel) :
    ∃ s1, step fuel s Input.retry_tick = some s1 ∧
      s1.ctx.state = CONNECTED ∧ s1.ctx.reconnection_attempt = 0 ∧
      s1.ctx.poll_loop = some ⟨LoopFn._aos_ws_client_poll_loop, 1⟩ ∧ s1.ctx.retry_loop = none ∧
      s1.loops = [⟨LoopFn._aos_ws_client_poll_loop, 1⟩] ∧
      events s1.log = events s0.log ++
        [AOS_WS_CLIENT_EVENT_RECONNECTING, AOS_WS_CLIENT_EVENT_RECONNECTED] := by
  have ha := armed_of_recovering h
  obtain ⟨hst, hcf, hra, hcfg, hp, hr, hl, hev, hcc, hc, hcr, hrd, hrr, hro⟩ := h
  have hok1 : ¬ s.transport.connect_ret s.transport.connects < 0 := by
    rw [hcr, hc]; exact not_lt.mpr hok
  obtain ⟨k, rfl⟩ : ∃ k, fuel = k + 1 := ⟨fuel - 1, by omega⟩
  have hread1 : s.transport.read_ret s.transport.reads = 0 := by rw [hrr, hrd]; exact hread
  have hop1 : s.transport.read_opcode (s.transport.reads + 1) = 256 := by
    rw [hro, hrd]; exact hop
  simp [step, ha, _aos_ws_client_retry_loop, esp_transport_connect, hok1, retry_loop_connected,
    aos_task_loop_unset, aos_task_loop_set, hst, hp, hr, hcf, hra, hl, Sys.emit,
    _aos_ws_client_poll_loop, read_loop, esp_transport_read, hread1, poll_dispatch,
    esp_transport_ws_get_read_opcode, hop1, WS_TRANSPORT_OPCODES_NONE, WS_TRANSPORT_OPCODES_CLOSE,
    WS_TRANSPORT_OPCODES_CONT, WS_TRANSPORT_OPCODES_TEXT, WS_TRANSPORT_OPCODES_BINARY,
    WS_TRANSPORT_OPCODES_PING, WS_TRANSPORT_OPCODES_PONG, events_append, events, hev, u32]

theorem run_append (fuel : Nat) (l1 l2 : List Input) : ∀ (s s1 : Sys),
    run fuel s l1 = some s1 → run fuel s (l1 ++ l2) = run fuel s1 l2 := by
  induction l1 with
  | nil => intro s s1 h; simp [run] at h; subst h; rfl
  | cons i rest ih =>
    intro s s1 h
    simp only [run, List.cons_append] at h ⊢
    split at h
    · simp at h
    · exact ih _ _ h

theorem run_failing_ticks (fuel : Nat) (s0 : Sys)
    (h32 : s0.ctx.config.reconnection_attempts < 2 ^ 32) : ∀ (m j : Nat) (s : Sys),
    Recovering s0 j s → j + m < s0.ctx.config.reconnection_attempts →
    (∀ n, s0.transport.connects + j ≤ n → n < s0.transport.connects + j + m →
      s0.transport.connect_ret n < 0) →
    ∃ s1, run fuel s (List.replicate m Input.retry_tick) = some s1 ∧ Recovering s0 (j + m) s1 := by
  intro m
  induction m with
  | zero => intro j s h _ _; exact ⟨s, rfl, h⟩
  | succ m ih =>
    intro j s h hj hfail
    obtain ⟨s1, hs1, hr1⟩ := retry_fail_recovering fuel h (by omega) h32
      (hfail _ (le_refl _) (by omega))
    obtain ⟨s2, hs2, hr2⟩ := ih (j + 1) s1 hr1 (by omega)
      (fun n h1 h2 => hfail n (by omega) (by omega))
    refine ⟨s2, ?_, ?_⟩
    · simp only [List.replicate_succ, run, hs1]
      exact hs2
    · have : j + (m + 1) = j + 1 + m := by omega
      rw [this]; exact hr2

theorem reachable_run {fuel : Nat} : ∀ (inputs : List Input) {s s1 : Sys},
    Reachable s → run fuel s inputs = some s1 → Reachable s1 := by
  intro inputs
  induction inputs with
  | nil => intro s s1 h hr; simp [run] at hr; subst hr; exact h
  | cons i rest ih =>
    intro s s1 h hr
    simp only [run] at hr
    split at hr
    · simp at hr
    · rename_i s2 hs
      exact ih (Reachable.step fuel i h hs) hr

theorem reachable_after (fuel : Nat) (config : aos_ws_client_config_t)
    (transport : esp_transport_handle_t) (inputs : List Input) :
    Reachable (after fuel config transport inputs) := by
  unfold after
  cases h : run fuel (initial config transport) inputs with
  | none => exact Reachable.init config transport
  | some s1 => exact reachable_run inputs (Reachable.init config transport) h

/-- C7: for every budget N with 1 <= N (N a 32-bit value). Let the error
handler be entered in state CONNECTED on a transport error: in a state `s` that
has the context (up to the buffer) and the registered loops of a reachable state
`s0`, the failing transport call having changed only the buffer, the transport
and the log. In such a state no connect future is pending. If every later connect
fails: after k < N retry ticks the events emitted since the error are
[RECONNECTING], the state is RECONNECTING and the retry loop is armed; after the
N-th retry tick the events are [RECONNECTING, DISCONNECTED], the state is
DISCONNECTED and no loop is armed or registered. Each tick made one connect call. -/
theorem reconnect_exhausts_budget (N fuel : Nat) (s0 s : Sys) (hN : 1 ≤ N) (h32 : N < 2 ^ 32)
    (hreach : Reachable s0) (hctx : ∃ b, s.ctx = { s0.ctx with buffer := b })
    (hloops : s.loops = s0.loops) (hstate : s.ctx.state = CONNECTED)
    (hbudget : s.ctx.config.reconnection_attempts = N)
    (hfail : ∀ n, s.transport.connects ≤ n → s.transport.connect_ret n < 0) :
    s.ctx.connect_future = none ∧
    (∀ k, k < N → ∃ sk,
      run fuel (_aos_ws_client_onerror s) (List.replicate k Input.retry_tick) = some sk ∧
      events sk.log = events s.log ++ [AOS_WS_CLIENT_EVENT_RECONNECTING] ∧
      sk.ctx.state = RECONNECTING ∧
      sk.ctx.retry_loop = some ⟨LoopFn._aos_ws_client_retry_loop, s.ctx.config.retry_interval_ms⟩ ∧
      connect_calls sk.log = connect_calls s.log + k) ∧
    ∃ sN, run fuel (_aos_ws_client_onerror s) (List.replicate N Input.retry_tick) = some sN ∧
      events sN.log = events s.log ++
        [AOS_WS_CLIENT_EVENT_RECONNECTING, AOS_WS_CLIENT_EVENT_DISCONNECTED] ∧
      sN.ctx.state = DISCONNECTED ∧ sN.ctx.poll_loop = none ∧ sN.ctx.retry_loop = none ∧
      sN.loops = [] ∧ connect_calls sN.log = connect_calls s.log + N := by
  have hinv : Inv s := inv_of_ctx_loops (reachable_inv hreach) hloops hctx
  have h0 : Recovering s 0 (_aos_ws_client_onerror s) :=
    onerror_starts_recovery s hinv hstate (by omega)
  have h32b : s.ctx.config.reconnection_attempts < 2 ^ 32 := by rw [hbudget]; exact h32
  refine ⟨(hinv.2.2.1 hstate).2, ?_, ?_⟩
  · intro k hk
    obtain ⟨sk, hrun, hrec⟩ := run_failing_ticks fuel s h32b k 0 _ h0 (by omega)
      (fun n h1 _ => hfail n (by omega))
    obtain ⟨hst, -, -, -, -, hr, -, hev, hcc, -⟩ := hrec
    exact ⟨sk, hrun, hev, hst, hr, by simpa using hcc⟩
  · obtain ⟨M, rfl⟩ : ∃ M, N = M + 1 := ⟨N - 1, by omega⟩
    obtain ⟨sM, hrun, hrec⟩ := run_failing_ticks fuel s h32b M 0 _ h0 (by omega)
      (fun n h1 _ => hfail n (by omega))
    obtain ⟨sN, hstep, hst, hp, hr, hl, hev, hcc⟩ := retry_fail_gives_up fuel hrec (by omega)
      (hfail _ (by omega))
    refine ⟨sN, ?_, hev, hst, hp, hr, hl, by simpa using hcc⟩
    rw [List.replicate_succ', run_append fuel _ _ _ _ hrun]
    simp [run, hstep]

/-- C8: for every k with 1 <= k <= reconnection_attempts (a 32-bit value). Let
the error handler be entered in state CONNECTED on a transport error: in a state
`s` that has the context (up to the buffer) and the registered loops of a
reachable state `s0`. If the next k-1 connects fail, the k-th succeeds and the
poll tick run at once reads 0 bytes with no frame header received: after k retry
ticks the events emitted since the error are [RECONNECTING, RECONNECTED], the
state is CONNECTED, the reconnection counter is 0 and the poll loop alone is
armed. -/
theorem reconnect_succeeds (k fuel : Nat) (s0 s : Sys) (hk : 1 ≤ k)
    (hkN : k ≤ s.ctx.config.reconnection_attempts)
    (h32 : s.ctx.config.reconnection_attempts < 2 ^ 32)
    (hreach : Reachable s0) (hctx : ∃ b, s.ctx = { s0.ctx with buffer := b })
    (hloops : s.loops = s0.loops) (hstate : s.ctx.state = CONNECTED)
    (hfail : ∀ n, s.transport.connects ≤ n → n < s.transport.connects + (k - 1) →
      s.transport.connect_ret n < 0)
    (hok : 0 ≤ s.transport.connect_ret (s.transport.connects + (k - 1)))
    (hread : s.transport.read_ret s.transport.reads = 0)
    (hop : s.transport.read_opcode (s.transport.reads + 1) = WS_TRANSPORT_OPCODES_NONE)
    (hfuel : 1 ≤ fuel) :
    ∃ s1, run fuel (_aos_ws_client_onerror s) (List.replicate k Input.retry_tick) = some s1 ∧
      events s1.log = events s.log ++
        [AOS_WS_CLIENT_EVENT_RECONNECTING, AOS_WS_CLIENT_EVENT_RECONNECTED] ∧
      s1.ctx.state = CONNECTED ∧ s1.ctx.reconnection_attempt = 0 ∧
      s1.ctx.poll_loop = some ⟨LoopFn._aos_ws_client_poll_loop, 1⟩ ∧ s1.ctx.retry_loop = none ∧
      s1.loops = [⟨LoopFn._aos_ws_client_poll_loop, 1⟩] := by
  have hinv : Inv s := inv_of_ctx_loops (reachable_inv hreach) hloops hctx
  have h0 : Recovering s 0 (_aos_ws_client_onerror s) :=
    onerror_starts_recovery s hinv hstate (by omega)
  obtain ⟨M, rfl⟩ : ∃ M, k = M + 1 := ⟨k - 1, by omega⟩
  obtain ⟨sM, hrun, hrec⟩ := run_failing_ticks fuel s h32 M 0 _ h0 (by omega)
    (fun n h1 h2 => hfail n (by omega) (by omega))
  obtain ⟨s1, hstep, hst, hra, hp, hr, hl, hev⟩ := retry_succeeds fuel hrec
    (by simpa using hok) hread hop hfuel
  refine ⟨s1, ?_, hev, hst, hra, hp, hr, hl⟩
  rw [List.replicate_succ', run_append fuel _ _ _ _ hrun]
  simp [run, hstep]

/-- C7, witness: budget 2; the client was connected by a CONNECT, then the
read of a poll tick fails (the tick enters the error handler in the state after
that read) and every later connect fails. -/
theorem reconnect_exhausts_budget_witness :
    Reachable (after_connect (reconnect_budget 2) dropping_transport) ∧
    step 1 (after_connect (reconnect_budget 2) dropping_transport) Input.poll_tick
      = some (_aos_ws_client_onerror (esp_transport_read 0 8 100
        (after_connect (reconnect_budget 2) dropping_transport)).2) ∧
    ∃ sN, run 1 (_aos_ws_client_onerror (esp_transport_read 0 8 100
        (after_connect (reconnect_budget 2) dropping_transport)).2)
        (List.replicate 2 Input.retry_tick) = some sN ∧
      events sN.log = events (esp_transport_read 0 8 100
        (after_connect (reconnect_budget 2) dropping_transport)).2.log ++
        [AOS_WS_CLIENT_EVENT_RECONNECTING, AOS_WS_CLIENT_EVENT_DISCONNECTED] ∧
      sN.ctx.state = DISCONNECTED ∧ sN.ctx.poll_loop = none ∧ sN.ctx.retry_loop = none ∧
      sN.loops = [] ∧ connect_calls sN.log = connect_calls (esp_transport_read 0 8 100
        (after_connect (reconnect_budget 2) dropping_transport)).2.log + 2 :=
  ⟨reachable_after _ _ _ _, by rfl,
   (reconnect_exhausts_budget 2 1
      (after_connect (reconnect_budget 2) dropping_transport)
      (esp_transport_read 0 8 100
        (after_connect (reconnect_budget 2) dropping_transport)).2
      (by decide) (by decide) (reachable_after _ _ _ _) ⟨_, rfl⟩ rfl (by rfl)
      (by rfl) (fun n hn => by
        have h1 : 1 ≤ n := hn
        show (if n = 0 then (0 : Int) else -1) < 0
        rw [if_neg (by omega)]; decide)).2.2⟩

/-- C8, witness: budget 5; the read of a poll tick fails and the transport
accepts again at the third retry. -/
theorem reconnect_succeeds_witness :
    Reachable (after_connect (reconnect_budget 5) recovering_transport) ∧
    step 1 (after_connect (reconnect_budget 5) recovering_transport) Input.poll_tick
      = some (_aos_ws_client_onerror (esp_transport_read 0 8 100
        (after_connect (reconnect_budget 5) recovering_transport)).2) ∧
    ∃ s1, run 1 (_aos_ws_client_onerror (esp_transport_read 0 8 100
        (after_connect (reconnect_budget 5) recovering_transport)).2)
        (List.replicate 3 Input.retry_tick) = some s1 ∧
      events s1.log = events (esp_transport_read 0 8 100
        (after_connect (reconnect_budget 5) recovering_transport)).2.log ++
        [AOS_WS_CLIENT_EVENT_RECONNECTING, AOS_WS_CLIENT_EVENT_RECONNECTED] ∧
      s1.ctx.state = CONNECTED ∧ s1.ctx.reconnection_attempt = 0 ∧
      s1.ctx.poll_loop = some ⟨LoopFn._aos_ws_client_poll_loop, 1⟩ ∧ s1.ctx.retry_loop = none ∧
      s1.loops = [⟨LoopFn._aos_ws_client_poll_loop, 1⟩] :=
  ⟨reachable_after _ _ _ _, by rfl,
   reconnect_succeeds 3 1
      (after_connect (reconnect_budget 5) recovering_transport)
      (esp_transport_read 0 8 100
        (after_connect (reconnect_budget 5) recovering_transport)).2
      (by decide) (by decide) (by decide) (reachable_after _ _ _ _) ⟨_, rfl⟩ rfl (by rfl)
      (fun n hn hn2 => by
        have h1 : 1 ≤ n := hn
        have h2 : n < 1 + (3 - 1) := hn2
        show (if n = 0 ∨ n = 3 then (0 : Int) else -1) < 0
        rw [if_neg (by omega)]; decide)
      (by decide) (by rfl) (by rfl) (by decide)⟩

/-- C5: from every reachable state, the DISCONNECT handler ends in state
DISCONNECTED with both loop handles null, no loop registered and no connect
future stored; what it resolves is the pending connect future, if any, with
err=1, and then its own future. -/
theorem disconnect_forces_disconnected (future : Nat) (s : Sys) (hreach : Reachable s) :
    (_aos_ws_client_handler_disconnect future s).ctx.state = DISCONNECTED ∧
    (_aos_ws_client_handler_disconnect future s).ctx.poll_loop = none ∧
    (_aos_ws_client_handler_disconnect future s).ctx.retry_loop = none ∧
    (_aos_ws_client_handler_disconnect future s).loops = [] ∧
    (_aos_ws_client_handler_disconnect future s).ctx.connect_future = none ∧
    resolutions (_aos_ws_client_handler_disconnect future s).log =
      resolutions s.log ++
        (match s.ctx.connect_future with
          | some pending => [(pending, some 1)]
          | none => []) ++ [(future, none)] := by
  obtain ⟨h1, h2, h3, h4, h5, h6, h7, h8, h9⟩ := reachable_inv hreach
  obtain ⟨hl, hc⟩ := disconnect_effect s h1
  obtain ⟨l, hlog, -, -, hres, -⟩ := disconnect_log s
  cases hst : s.ctx.state <;> cases hf : s.ctx.connect_future <;> simp [hst, hf] at h2 <;>
    simp [_aos_ws_client_handler_disconnect, resolve_connect_future, hst, hf, Sys.emit, hl, hc,
      hlog, resolutions_append, hres, resolutions, h1, *]

theorem resolved_append (l1 l2 : List Action) : resolved (l1 ++ l2) = resolved l1 ++ resolved l2 := by
  simp [resolved, resolutions_append]

theorem settles_refl (s : Sys) : Settles s s := Or.inl ⟨rfl, rfl⟩

theorem settles_trans {s s1 s2 : Sys} (h1 : Settles s s1) (h2 : Settles s1 s2) : Settles s s2 := by
  rcases h1 with ⟨hr1, hc1⟩ | ⟨f, hf, hr1, hc1⟩
  · rcases h2 with ⟨hr2, hc2⟩ | ⟨g, hg, hr2, hc2⟩
    · exact Or.inl ⟨hr2.trans hr1, hc2.trans hc1⟩
    · exact Or.inr ⟨g, hc1 ▸ hg, hr1 ▸ hr2, hc2⟩
  · rcases h2 with ⟨hr2, hc2⟩ | ⟨g, hg, hr2, hc2⟩
    · exact Or.inr ⟨f, hf, hr2.trans hr1, hc2.trans hc1⟩
    · rw [hc1] at hg; cases hg

theorem disconnect_settles (s : Sys) : Settles s (_aos_ws_client_disconnect s) := by
  obtain ⟨l, hlog, -, -, hres, -⟩ := disconnect_log s
  refine Or.inl ⟨?_, ?_⟩
  · simp [resolved, hlog, resolutions_append, hres]
  · simp only [_aos_ws_client_disconnect, aos_task_loop_unset, esp_transport_ws_send_raw, Sys.emit]
    split <;> rfl

theorem onerror_settles (s : Sys) : Settles s (_aos_ws_client_onerror s) := by
  cases hst : s.ctx.state <;> cases hf : s.ctx.connect_future <;>
    simp [Settles, resolved, _aos_ws_client_onerror, _aos_ws_client_disconnect,
      aos_task_loop_unset, aos_task_loop_set, hst, hf, esp_transport_ws_send_raw, Sys.emit] <;>
    split <;> (try split) <;>
    simp [resolutions_append, resolutions, hst]

theorem resolve_connect_future_settles (s : Sys) : Settles s (resolve_connect_future s) := by
  cases hf : s.ctx.connect_future <;>
    simp [Settles, resolved, resolve_connect_future, hf, Sys.emit, resolutions_append, resolutions]

theorem read_loop_settles {fuel d : Nat} {s s1 : Sys} {r : Option Nat}
    (h : read_loop fuel d s = some (r, s1)) : Settles s s1 := by
  obtain ⟨⟨b, hb⟩, -, l, hl, hreads⟩ := read_loop_inv fuel d s r s1 h
  refine Or.inl ⟨?_, ?_⟩
  · simp [resolved, hl, resolutions_append, (reads_silent l hreads).2.1]
  · simp [hb]

theorem emit_settles (s : Sys) (a : Action) (h : resolutions [a] = []) : Settles s (s.emit a) := by
  refine Or.inl ⟨?_, rfl⟩
  simp [resolved, Sys.emit, resolutions_append, h]

theorem send_raw_settles (opcode : Nat) (data : List Nat) (len timeout_ms : Nat) (s : Sys) :
    Settles s (esp_transport_ws_send_raw opcode data len timeout_ms s).2 := by
  refine Or.inl ⟨?_, rfl⟩
  simp [resolved, esp_transport_ws_send_raw, resolutions_append, resolutions]

theorem poll_dispatch_settles (d : Nat) (s : Sys) : Settles s (poll_dispatch d s) := by
  simp only [poll_dispatch]
  split_ifs
  · exact emit_settles _ _ rfl
  · exact settles_trans (send_raw_settles _ _ _ _ s) (onerror_settles _)
  · exact send_raw_settles _ _ _ _ s
  · exact settles_refl s
  · exact settles_trans (disconnect_settles s) (emit_settles _ _ rfl)
  · exact settles_refl s
  · exact onerror_settles s

theorem poll_loop_settles {fuel : Nat} {s s1 : Sys}
    (hp : _aos_ws_client_poll_loop fuel s = some s1) : Settles s s1 := by
  simp only [_aos_ws_client_poll_loop] at hp
  split at hp
  · simp at hp
  · rename_i s2 hr
    simp at hp
    subst hp
    exact settles_trans (read_loop_settles hr) (onerror_settles s2)
  · rename_i d s2 hr
    simp at hp
    subst hp
    exact settles_trans (read_loop_settles hr) (poll_dispatch_settles d s2)

theorem retry_loop_connected_settles (s : Sys) : Settles s (retry_loop_connected s) := by
  cases hf : s.ctx.connect_future <;> by_cases hra : s.ctx.reconnection_attempt = 0 <;>
    simp [Settles, resolved, retry_loop_connected, aos_task_loop_unset, aos_task_loop_set,
      Sys.emit, hf, hra, resolutions_append, resolutions]

theorem connect_call_settles (host : Option String) (port timeout_ms : Nat) (s : Sys) :
    Settles s (esp_transport_connect host port timeout_ms s).2 := by
  refine Or.inl ⟨?_, rfl⟩
  simp [resolved, esp_transport_connect, resolutions_append, resolutions]

theorem retry_loop_settles {fuel : Nat} {s s1 : Sys}
    (hp : _aos_ws_client_retry_loop fuel s = some s1) : Settles s s1 := by
  simp only [_aos_ws_client_retry_loop] at hp
  split at hp
  · simp at hp
    subst hp
    exact settles_trans (connect_call_settles _ _ _ s) (onerror_settles _)
  · exact settles_trans (connect_call_settles _ _ _ s)
      (settles_trans (retry_loop_connected_settles _) (poll_loop_settles hp))

theorem settles_count {s s1 : Sys} (h : Settles s s1) (future : Nat)
    (hfresh : s.ctx.connect_future ≠ some future) :
    (resolved s1.log).count future = (resolved s.log).count future ∧
    s1.ctx.connect_future ≠ some future := by
  rcases h with ⟨hr, hc⟩ | ⟨f, hf, hr, hc⟩
  · rw [hr, hc]; exact ⟨rfl, hfresh⟩
  · have hne : f ≠ future := fun h => hfresh (h ▸ hf)
    have h0 : List.count future [f] = 0 :=
      List.count_eq_zero.mpr (by simp; exact fun h => hne h.symm)
    rw [hr, hc]
    simp [List.count_append, h0]

theorem emit_resolve_count {s s1 : Sys} (h : Settles s s1) (future : Nat) (e : Option Nat)
    (hfresh : s.ctx.connect_future ≠ some future) :
    (resolved (s1.emit (Action.aos_resolve future e)).log).count future
      = (resolved s.log).count future + 1 ∧
    (s1.emit (Action.aos_resolve future e)).log.getLast? = some (Action.aos_resolve future e) := by
  obtain ⟨hc, -⟩ := settles_count h future hfresh
  constructor
  · simp only [Sys.emit, resolved_append, List.count_append, hc]
    simp [resolved, resolutions]
  · simp [Sys.emit]

theorem send_text_shape (future : Nat) (in_data : List Nat) (s : Sys) :
    ∃ s1 e, Settles s s1 ∧
      _aos_ws_client_handler_send_text future in_data s = s1.emit (Action.aos_resolve future e) := by
  simp only [_aos_ws_client_handler_send_text]
  split
  · split
    · exact ⟨_, _, settles_trans (send_raw_settles _ _ _ _ s) (onerror_settles _), rfl⟩
    · exact ⟨_, _, send_raw_settles _ _ _ _ s, rfl⟩
  · exact ⟨_, _, settles_refl s, rfl⟩

theorem send_binary_shape (future : Nat) (in_data : List Nat) (n : Nat) (s : Sys) :
    ∃ s1 e, Settles s s1 ∧
      _aos_ws_client_handler_send_binary future in_data n s
        = s1.emit (Action.aos_resolve future e) := by
  simp only [_aos_ws_client_handler_send_binary]
  split
  · split
    · exact ⟨_, _, settles_trans (send_raw_settles _ _ _ _ s) (onerror_settles _), rfl⟩
    · exact ⟨_, _, send_raw_settles _ _ _ _ s, rfl⟩
  · exact ⟨_, _, settles_refl s, rfl⟩

theorem disconnect_shape (future : Nat) (s : Sys) :
    ∃ s1 e, Settles s s1 ∧
      _aos_ws_client_handler_disconnect future s = s1.emit (Action.aos_resolve future e) := by
  simp only [_aos_ws_client_handler_disconnect]
  split
  · exact ⟨_, _, settles_refl s, rfl⟩
  · refine ⟨_, _, ?_, rfl⟩
    have h := settles_trans (disconnect_settles s)
      (resolve_connect_future_settles (_aos_ws_client_disconnect s))
    rcases h with ⟨hr, hc⟩ | ⟨f, hf, hr, hc⟩
    · exact Or.inl ⟨hr, hc⟩
    · exact Or.inr ⟨f, hf, hr, hc⟩

/-- C4: in every state and whatever the transport answers, each of the
SEND_TEXT, SEND_BINARY and DISCONNECT handlers resolves the future it is given
exactly once (the number of its resolutions in the log grows by one), and that
resolution is the last action of the handler, also when the error handler ran.
The future given is a new one: it is not the connect future the context stores. -/
theorem handlers_resolve_exactly_once (future : Nat) (in_data : List Nat) (in_data_len : Nat)
    (s : Sys) (hfresh : s.ctx.connect_future ≠ some future) :
    ((resolved (_aos_ws_client_handler_send_text future in_data s).log).count future
        = (resolved s.log).count future + 1 ∧
      ∃ e, (_aos_ws_client_handler_send_text future in_data s).log.getLast?
        = some (Action.aos_resolve future e)) ∧
    ((resolved (_aos_ws_client_handler_send_binary future in_data in_data_len s).log).count future
        = (resolved s.log).count future + 1 ∧
      ∃ e, (_aos_ws_client_handler_send_binary future in_data in_data_len s).log.getLast?
        = some (Action.aos_resolve future e)) ∧
    ((resolved (_aos_ws_client_handler_disconnect future s).log).count future
        = (resolved s.log).count future + 1 ∧
      ∃ e, (_aos_ws_client_handler_disconnect future s).log.getLast?
        = some (Action.aos_resolve future e)) := by
  refine ⟨?_, ?_, ?_⟩
  · obtain ⟨s1, e, hs, heq⟩ := send_text_shape future in_data s
    rw [heq]
    exact ⟨(emit_resolve_count hs future e hfresh).1, e, (emit_resolve_count hs future e hfresh).2⟩
  · obtain ⟨s1, e, hs, heq⟩ := send_binary_shape future in_data in_data_len s
    rw [heq]
    exact ⟨(emit_resolve_count hs future e hfresh).1, e, (emit_resolve_count hs future e hfresh).2⟩
  · obtain ⟨s1, e, hs, heq⟩ := disconnect_shape future s
    rw [heq]
    exact ⟨(emit_resolve_count hs future e hfresh).1, e, (emit_resolve_count hs future e hfresh).2⟩

theorem pinv_settles {U C : Nat → Prop} {s s1 : Sys} (h : PInv U C s) (hs : Settles s s1) :
    PInv U C s1 := by
  obtain ⟨h1, h2, h3, h4, h5⟩ := h
  rcases hs with ⟨hr, hc⟩ | ⟨f, hf, hr, hc⟩
  · simpa [PInv, hr, hc] using ⟨h1, h2, h3, h4, h5⟩
  · obtain ⟨hCf, hnot⟩ := h4 f hf
    refine ⟨?_, ?_, h3, ?_, ?_⟩
    · rw [hr]
      exact List.Nodup.append h1 (List.nodup_singleton f) (by simpa using hnot)
    · intro g hg
      rw [hr] at hg
      simp at hg
      rcases hg with hg | rfl
      · exact h2 g hg
      · exact h3 g hCf
    · intro g hg
      rw [hc] at hg
      cases hg
    · intro g hg
      left
      rw [hr]
      rcases h5 g hg with hg1 | hg2
      · simp [hg1]
      · rw [hf] at hg2
        cases hg2
        simp

theorem pinv_emit {U C : Nat → Prop} {s : Sys} (h : PInv U C s) (f : Nat) (e : Option Nat)
    (hU : ¬ U f) :
    PInv (fun g => U g ∨ g = f) C (s.emit (Action.aos_resolve f e)) ∧
    PInv (fun g => U g ∨ g = f) (fun g => C g ∨ g = f) (s.emit (Action.aos_resolve f e)) := by
  obtain ⟨h1, h2, h3, h4, h5⟩ := h
  have hnot : f ∉ resolved s.log := fun hf => hU (h2 f hf)
  have hres : resolved (s.emit (Action.aos_resolve f e)).log = resolved s.log ++ [f] := by
    simp [Sys.emit, resolved, resolutions_append, resolutions]
  have hcf : (s.emit (Action.aos_resolve f e)).ctx.connect_future = s.ctx.connect_future := rfl
  have hnd : (resolved s.log ++ [f]).Nodup :=
    List.Nodup.append h1 (List.nodup_singleton f) (by simpa using hnot)
  have hstored : ∀ g, s.ctx.connect_future = some g → g ≠ f := by
    intro g hg hgf
    exact hU (h3 f (hgf ▸ (h4 g hg).1))
  refine ⟨⟨?_, ?_, ?_, ?_, ?_⟩, ⟨?_, ?_, ?_, ?_, ?_⟩⟩
  · rw [hres]; exact hnd
  · intro g hg
    rw [hres] at hg
    simp at hg
    rcases hg with hg | rfl
    · exact Or.inl (h2 g hg)
    · exact Or.inr rfl
  · intro g hg; exact Or.inl (h3 g hg)
  · intro g hg
    rw [hcf] at hg
    rw [hres]
    refine ⟨(h4 g hg).1, ?_⟩
    simp
    exact ⟨(h4 g hg).2, hstored g hg⟩
  · intro g hg
    rw [hres, hcf]
    rcases h5 g hg with h | h
    · left; simp [h]
    · right; exact h
  · rw [hres]; exact hnd
  · intro g hg
    rw [hres] at hg
    simp at hg
    rcases hg with hg | rfl
    · exact Or.inl (h2 g hg)
    · exact Or.inr rfl
  · intro g hg
    rcases hg with hg | rfl
    · exact Or.inl (h3 g hg)
    · exact Or.inr rfl
  · intro g hg
    rw [hcf] at hg
    rw [hres]
    refine ⟨Or.inl (h4 g hg).1, ?_⟩
    simp
    exact ⟨(h4 g hg).2, hstored g hg⟩
  · intro g hg
    rw [hres, hcf]
    rcases hg with hg | rfl
    · rcases h5 g hg with h | h
      · left; simp [h]
      · right; exact h
    · left; simp

theorem pinv_store {U C : Nat → Prop} {s s2 : Sys} (h : PInv U C s) (f : Nat) (hU : ¬ U f)
    (hnone : s.ctx.connect_future = none) (hres : resolved s2.log = resolved s.log)
    (hcf : s2.ctx.connect_future = some f) :
    PInv (fun g => U g ∨ g = f) (fun g => C g ∨ g = f) s2 := by
  obtain ⟨h1, h2, h3, h4, h5⟩ := h
  refine ⟨?_, ?_, ?_, ?_, ?_⟩
  · rw [hres]; exact h1
  · intro g hg
    rw [hres] at hg
    exact Or.inl (h2 g hg)
  · intro g hg
    rcases hg with hg | rfl
    · exact Or.inl (h3 g hg)
    · exact Or.inr rfl
  · intro g hg
    rw [hcf] at hg
    cases hg
    rw [hres]
    exact ⟨Or.inr rfl, fun hf => hU (h2 _ hf)⟩
  · intro g hg
    rw [hres, hcf]
    rcases hg with hg | rfl
    · rcases h5 g hg with h | h
      · exact Or.inl h
      · rw [hnone] at h; cases h
    · exact Or.inr rfl

theorem pinv_congr {U C U1 C1 : Nat → Prop} {s : Sys} (h : PInv U C s)
    (hU : ∀ f, U f ↔ U1 f) (hC : ∀ f, C f ↔ C1 f) : PInv U1 C1 s := by
  have e1 : U = U1 := funext (fun f => propext (hU f))
  have e2 : C = C1 := funext (fun f => propext (hC f))
  rw [← e1, ← e2]; exact h

theorem resolve_connect_future_clears (s : Sys) :
    (resolve_connect_future s).ctx.connect_future = none := by
  cases hf : s.ctx.connect_future <;> simp [resolve_connect_future, hf, Sys.emit]

theorem handler_connect_connected_settles (future : Nat) (s : Sys)
    (h : s.ctx.connect_future = some future) :
    Settles s (handler_connect_connected future s) := by
  refine Or.inr ⟨future, h, ?_, ?_⟩
  · simp [handler_connect_connected, aos_task_loop_set, Sys.emit, resolved, resolutions_append,
      resolutions]
  · simp [handler_connect_connected, aos_task_loop_set, Sys.emit]

theorem connect_shape {fuel future : Nat} {s s1 : Sys}
    (h : _aos_ws_client_handler_connect fuel future s = some s1) :
    (∃ s2 e, Settles s s2 ∧ s1 = s2.emit (Action.aos_resolve future e)) ∨
    (∃ s2 s3, Settles s s2 ∧ s2.ctx.connect_future = none ∧ resolved s3.log = resolved s2.log ∧
      s3.ctx.connect_future = some future ∧ Settles s3 s1) := by
  simp only [_aos_ws_client_handler_connect] at h
  split at h
  · left
    simp at h
    subst h
    refine ⟨_, _, ?_, rfl⟩
    exact Or.inl ⟨rfl, rfl⟩
  · right
    refine ⟨resolve_connect_future (_aos_ws_client_disconnect s), handler_connect_prepare future s,
      settles_trans (disconnect_settles s) (resolve_connect_future_settles _),
      resolve_connect_future_clears _, rfl, rfl, ?_⟩
    split at h
    · simp at h
      subst h
      exact settles_trans (connect_call_settles _ _ _ _) (onerror_settles _)
    · exact settles_trans (connect_call_settles _ _ _ _)
        (settles_trans (handler_connect_connected_settles future _ rfl) (poll_loop_settles h))

theorem step_pinv {fuel : Nat} {U C : Nat → Prop} {s s1 : Sys} {i : Input} (h : PInv U C s)
    (hU : ∀ f, i.future_of = some f → ¬ U f) (hs : step fuel s i = some s1) :
    PInv (fun f => U f ∨ i.future_of = some f)
      (fun f => C f ∨ i = Input.AOS_WS_CLIENT_TASKEVT_CONNECT f) s1 := by
  cases i with
  | AOS_WS_CLIENT_TASKEVT_CONNECT f =>
    have hUf : ¬ U f := hU f rfl
    rcases connect_shape hs with ⟨s2, e, hs2, rfl⟩ | ⟨s2, s3, hs2, hnone, hres, hcf, hs3⟩
    · refine pinv_congr (pinv_emit (pinv_settles h hs2) f e hUf).2 ?_ ?_
      · intro g; simp [Input.future_of, eq_comm]
      · intro g; simp [eq_comm]
    · refine pinv_congr (pinv_settles (pinv_store (pinv_settles h hs2) f hUf hnone hres hcf) hs3)
        ?_ ?_
      · intro g; simp [Input.future_of, eq_comm]
      · intro g; simp [eq_comm]
  | AOS_WS_CLIENT_TASKEVT_DISCONNECT f =>
    simp only [step, Option.some.injEq] at hs
    obtain ⟨s2, e, hs2, heq⟩ := disconnect_shape f s
    rw [← hs, heq]
    refine pinv_congr (pinv_emit (pinv_settles h hs2) f e (hU f rfl)).1 ?_ ?_
    · intro g; simp [Input.future_of, eq_comm]
    · intro g; simp
  | AOS_WS_CLIENT_TASKEVT_SEND_TEXT f d =>
    simp only [step, Option.some.injEq] at hs
    obtain ⟨s2, e, hs2, heq⟩ := send_text_shape f d s
    rw [← hs, heq]
    refine pinv_congr (pinv_emit (pinv_settles h hs2) f e (hU f rfl)).1 ?_ ?_
    · intro g; simp [Input.future_of, eq_comm]
    · intro g; simp
  | AOS_WS_CLIENT_TASKEVT_SEND_BINARY f d n =>
    simp only [step, Option.some.injEq] at hs
    obtain ⟨s2, e, hs2, heq⟩ := send_binary_shape f d n s
    rw [← hs, heq]
    refine pinv_congr (pinv_emit (pinv_settles h hs2) f e (hU f rfl)).1 ?_ ?_
    · intro g; simp [Input.future_of, eq_comm]
    · intro g; simp
  | poll_tick =>
    refine pinv_congr (s := s1) ?_ (U := U) (C := C) ?_ ?_
    · simp only [step] at hs
      split at hs
      · exact pinv_settles h (poll_loop_settles hs)
      · simp at hs; subst hs; exact h
    · intro g; simp [Input.future_of]
    · intro g; simp
  | retry_tick =>
    refine pinv_congr (s := s1) ?_ (U := U) (C := C) ?_ ?_
    · simp only [step] at hs
      split at hs
      · exact pinv_settles h (retry_loop_settles hs)
      · simp at hs; subst hs; exact h
    · intro g; simp [Input.future_of]
    · intro g; simp

theorem run_pinv (fuel : Nat) : ∀ (inputs : List Input) (U C : Nat → Prop) (s s1 : Sys),
    PInv U C s → (inputs.filterMap Input.future_of).Nodup →
    (∀ f ∈ inputs.filterMap Input.future_of, ¬ U f) →
    run fuel s inputs = some s1 →
    PInv (fun f => U f ∨ f ∈ inputs.filterMap Input.future_of)
      (fun f => C f ∨ Input.AOS_WS_CLIENT_TASKEVT_CONNECT f ∈ inputs) s1 := by
  intro inputs
  induction inputs with
  | nil =>
    intro U C s s1 h _ _ hr
    simp [run] at hr
    subst hr
    exact pinv_congr h (by intro f; simp) (by intro f; simp)
  | cons i rest ih =>
    intro U C s s1 h hnd hU hr
    simp only [run] at hr
    split at hr
    · simp at hr
    · rename_i s2 hs
      have hU1 : ∀ f, i.future_of = some f → ¬ U f := by
        intro f hf
        exact hU f (by simp [List.filterMap_cons, hf])
      have h2 := step_pinv h hU1 hs
      have hnd2 : (rest.filterMap Input.future_of).Nodup := by
        cases hf : i.future_of with
        | none => simpa [List.filterMap_cons, hf] using hnd
        | some f =>
          simp [List.filterMap_cons, hf] at hnd
          exact hnd.2
      have hU2 : ∀ f ∈ rest.filterMap Input.future_of, ¬ (U f ∨ i.future_of = some f) := by
        intro f hf hor
        rcases hor with hor | hor
        · exact hU f (by
            cases hi : i.future_of <;> simp [List.filterMap_cons, hi] <;> simp at hf <;> simp [hf]) hor
        · rw [List.filterMap_cons, hor, List.nodup_cons] at hnd
          exact hnd.1 hf
      refine pinv_congr (ih _ _ _ _ h2 hnd2 hU2 hr) ?_ ?_
      · intro f
        cases hi : i.future_of <;> simp [List.filterMap_cons, hi, or_assoc, eq_comm]
      · intro f
        simp [or_assoc, eq_comm]

/-- C3: in every run from the freshly allocated client, by any sequence of
commands (carrying pairwise distinct futures), poll ticks and retry ticks and
with any transport script, no future is resolved twice, only issued futures are
resolved, and every CONNECT future issued is either resolved exactly once and
not stored, or not resolved and stored in `connect_future`. Every prefix of a
sequence being a sequence, this holds at every handler return. -/
theorem connect_promises_resolved_once (fuel : Nat) (config : aos_ws_client_config_t)
    (transport : esp_transport_handle_t) (inputs : List Input) (s : Sys)
    (hfresh : (inputs.filterMap Input.future_of).Nodup)
    (hrun : run fuel (initial config transport) inputs = some s) :
    (resolved s.log).Nodup ∧
    (∀ f ∈ resolved s.log, f ∈ inputs.filterMap Input.future_of) ∧
    ∀ f, Input.AOS_WS_CLIENT_TASKEVT_CONNECT f ∈ inputs →
      ((resolved s.log).count f = 1 ∧ s.ctx.connect_future ≠ some f) ∨
      ((resolved s.log).count f = 0 ∧ s.ctx.connect_future = some f) := by
  have h0 : PInv (fun _ => False) (fun _ => False) (initial config transport) := by
    simp [PInv, initial, initial_ctx, resolved, resolutions]
  obtain ⟨h1, h2, -, h4, h5⟩ := run_pinv fuel inputs _ _ _ _ h0 hfresh (fun _ _ h => h) hrun
  refine ⟨h1, ?_, ?_⟩
  · intro f hf
    rcases h2 f hf with h | h
    · exact h.elim
    · exact h
  · intro f hf
    rcases h5 f (Or.inr hf) with h | h
    · left
      refine ⟨List.count_eq_one_of_mem h1 h, ?_⟩
      intro hcf
      exact (h4 f hcf).2 h
    · right
      exact ⟨List.count_eq_zero.mpr (h4 f h).2, h⟩

/-! ## Witnesses -/

/-- C3, witness: two CONNECTs, a retry tick, a SEND_TEXT and a DISCONNECT on a
transport that refuses connections. -/
theorem connect_promises_resolved_once_witness :
    ([Input.AOS_WS_CLIENT_TASKEVT_CONNECT 0, Input.AOS_WS_CLIENT_TASKEVT_CONNECT 1,
      Input.retry_tick, Input.AOS_WS_CLIENT_TASKEVT_SEND_TEXT 2 [104, 105, 0],
      Input.AOS_WS_CLIENT_TASKEVT_DISCONNECT 3].filterMap Input.future_of).Nodup ∧
    run 1 (initial example_config refusing_transport)
      [Input.AOS_WS_CLIENT_TASKEVT_CONNECT 0, Input.AOS_WS_CLIENT_TASKEVT_CONNECT 1,
       Input.retry_tick, Input.AOS_WS_CLIENT_TASKEVT_SEND_TEXT 2 [104, 105, 0],
       Input.AOS_WS_CLIENT_TASKEVT_DISCONNECT 3]
      = some (after 1 example_config refusing_transport
        [Input.AOS_WS_CLIENT_TASKEVT_CONNECT 0, Input.AOS_WS_CLIENT_TASKEVT_CONNECT 1,
         Input.retry_tick, Input.AOS_WS_CLIENT_TASKEVT_SEND_TEXT 2 [104, 105, 0],
         Input.AOS_WS_CLIENT_TASKEVT_DISCONNECT 3]) ∧
    (resolved (after 1 example_config refusing_transport
        [Input.AOS_WS_CLIENT_TASKEVT_CONNECT 0, Input.AOS_WS_CLIENT_TASKEVT_CONNECT 1,
         Input.retry_tick, Input.AOS_WS_CLIENT_TASKEVT_SEND_TEXT 2 [104, 105, 0],
         Input.AOS_WS_CLIENT_TASKEVT_DISCONNECT 3]).log).Nodup :=
  ⟨by decide, by rfl,
   (connect_promises_resolved_once 1 example_config refusing_transport
      [Input.AOS_WS_CLIENT_TASKEVT_CONNECT 0, Input.AOS_WS_CLIENT_TASKEVT_CONNECT 1,
       Input.retry_tick, Input.AOS_WS_CLIENT_TASKEVT_SEND_TEXT 2 [104, 105, 0],
       Input.AOS_WS_CLIENT_TASKEVT_DISCONNECT 3] _ (by decide) (by rfl)).1⟩

/-- C4, witness: a connected client whose send fails, future 7. -/
theorem handlers_resolve_exactly_once_witness :
    (after_connect example_config failing_send_transport).ctx.connect_future ≠ some 7 ∧
    (resolved (_aos_ws_client_handler_send_text 7 [104, 105, 0]
        (after_connect example_config failing_send_transport)).log).count 7
      = (resolved (after_connect example_config failing_send_transport).log).count 7 + 1 :=
  ⟨by decide,
   (handlers_resolve_exactly_once 7 [104, 105, 0] 2
      (after_connect example_config failing_send_transport) (by decide)).1.1⟩

/-- C5, witness: DISCONNECT (future 9) while the CONNECT with future 0 is
waiting for its first retry. -/
theorem disconnect_forces_disconnected_witness :
    Reachable (after_connect example_config refusing_transport) ∧
    (_aos_ws_client_handler_disconnect 9
      (after_connect example_config refusing_transport)).ctx.state = DISCONNECTED ∧
    resolutions (_aos_ws_client_handler_disconnect 9
      (after_connect example_config refusing_transport)).log = [] ++ [(0, some 1)] ++ [(9, none)] :=
  ⟨reachable_after _ _ _ _,
   (disconnect_forces_disconnected 9 _ (reachable_after _ _ _ _)).1,
   (disconnect_forces_disconnected 9 (after_connect example_config refusing_transport)
      (reachable_after _ _ _ _)).2.2.2.2.2⟩

/-- C6, witness: CONNECT with future 1 while the CONNECT with future 0 waits for
its retry. -/
theorem connect_preempts_pending_witness :
    (after_connect example_config refusing_transport).ctx.state = CONNECTING ∧
    (after_connect example_config refusing_transport).ctx.connect_future = some 0 ∧
    ∃ mid : Sys,
      mid.log = (after_connect example_config refusing_transport).log ++
        [Action.aos_task_loop_unset none,
         Action.aos_task_loop_unset (some ⟨LoopFn._aos_ws_client_retry_loop, 3000⟩),
         Action.aos_resolve 0 (some 1),
         Action.esp_transport_connect (some "ws.postman-echo.com") 443 3000] ∧
      mid.ctx.connect_future = some 1 :=
  ⟨by rfl, by rfl,
   (connect_preempts_pending 1 1 0 (after_connect example_config refusing_transport)
      (by rfl) (by rfl)).imp (fun _ h => ⟨h.1, h.2.1⟩)⟩

/-- C10, witness: "hi" sent by a connected client, once on a transport that
accepts the frame and once on one that fails. -/
theorem send_in_connected_witness :
    (after_connect example_config quiet_transport).ctx.state = CONNECTED ∧
    (_aos_ws_client_handler_send_text 7 [104, 105, 0]
        (after_connect example_config quiet_transport)).log =
      (after_connect example_config quiet_transport).log ++
      [Action.esp_transport_ws_send_raw (WS_TRANSPORT_OPCODES_TEXT ||| WS_TRANSPORT_OPCODES_FIN)
         [104, 105, 0] 2 3000,
       Action.aos_resolve 7 (some 0)] ∧
    (after_connect example_config failing_send_transport).ctx.state = CONNECTED ∧
    _aos_ws_client_handler_send_binary 7 [104, 105, 0] 3
        (after_connect example_config failing_send_transport) =
      (_aos_ws_client_onerror (esp_transport_ws_send_raw
        (WS_TRANSPORT_OPCODES_BINARY ||| WS_TRANSPORT_OPCODES_FIN) [104, 105, 0] 3 3000
        (after_connect example_config failing_send_transport)).2).emit
        (Action.aos_resolve 7 (some 1)) :=
  ⟨by rfl,
   ((send_in_connected 7 [104, 105, 0] 3 (after_connect example_config quiet_transport)
      (by rfl)).1 (by decide)).2.2.1,
   by rfl,
   ((send_in_connected 7 [104, 105, 0] 3 (after_connect example_config failing_send_transport)
      (by rfl)).2 (by decide)).2.1⟩

/-! ## Commands that change nothing -/

/-- C11: in every state other than CONNECTED, SEND_TEXT and SEND_BINARY do
nothing but append the resolution of their future with err=1 to the log: no
transport call, no event, and the context (state, counters, loop handles,
connect future), the registered loops and the transport are unchanged. -/
theorem send_when_not_connected (future : Nat) (in_data : List Nat) (in_data_len : Nat) (s : Sys)
    (hstate : s.ctx.state ≠ CONNECTED) :
    _aos_ws_client_handler_send_text future in_data s
      = s.emit (Action.aos_resolve future (some 1)) ∧
    _aos_ws_client_handler_send_binary future in_data in_data_len s
      = s.emit (Action.aos_resolve future (some 1)) ∧
    (s.emit (Action.aos_resolve future (some 1))).log
      = s.log ++ [Action.aos_resolve future (some 1)] ∧
    (s.emit (Action.aos_resolve future (some 1))).ctx = s.ctx ∧
    (s.emit (Action.aos_resolve future (some 1))).loops = s.loops ∧
    (s.emit (Action.aos_resolve future (some 1))).transport.connects = s.transport.connects ∧
    (s.emit (Action.aos_resolve future (some 1))).transport.reads = s.transport.reads ∧
    (s.emit (Action.aos_resolve future (some 1))).transport.sends = s.transport.sends := by
  cases hst : s.ctx.state <;>
    simp [_aos_ws_client_handler_send_text, _aos_ws_client_handler_send_binary, hst, Sys.emit]
      at hstate ⊢

/-- C13: a CONNECT handled in state CONNECTED resets the two counters and
appends the resolution of its future with err=0 to the log, and does nothing
else: no transport call, no event, state CONNECTED, loop handles, registered
loops and connect future unchanged. -/
theorem connect_when_connected (fuel future : Nat) (s : Sys) (hstate : s.ctx.state = CONNECTED) :
    ∃ s1, _aos_ws_client_handler_connect fuel future s = some s1 ∧
      s1.log = s.log ++ [Action.aos_resolve future (some 0)] ∧
      s1.ctx = { s.ctx with connection_attempt := 0, reconnection_attempt := 0 } ∧
      s1.ctx.state = CONNECTED ∧ s1.ctx.poll_loop = s.ctx.poll_loop ∧
      s1.ctx.retry_loop = s.ctx.retry_loop ∧ s1.loops = s.loops ∧
      s1.transport.connects = s.transport.connects ∧ s1.transport.reads = s.transport.reads ∧
      s1.transport.sends = s.transport.sends := by
  simp only [_aos_ws_client_handler_connect, hstate]
  refine ⟨_, rfl, ?_⟩
  simp [Sys.emit, hstate]

/-- C14: a DISCONNECT handled in state DISCONNECTED does nothing but append the
resolution of its future to the log (context, registered loops and transport
unchanged, no event). And in every state a second DISCONNECT handled right after
a first one leaves the context and the registered loops as the first left them,
logging only the resolution of its own future. -/
theorem disconnect_when_disconnected (f g : Nat) (s : Sys) :
    (s.ctx.state = DISCONNECTED →
      _aos_ws_client_handler_disconnect f s = s.emit (Action.aos_resolve f none) ∧
      (_aos_ws_client_handler_disconnect f s).ctx = s.ctx ∧
      (_aos_ws_client_handler_disconnect f s).loops = s.loops ∧
      (_aos_ws_client_handler_disconnect f s).log = s.log ++ [Action.aos_resolve f none] ∧
      (_aos_ws_client_handler_disconnect f s).transport.sends = s.transport.sends) ∧
    (_aos_ws_client_handler_disconnect g (_aos_ws_client_handler_disconnect f s)).ctx
      = (_aos_ws_client_handler_disconnect f s).ctx ∧
    (_aos_ws_client_handler_disconnect g (_aos_ws_client_handler_disconnect f s)).loops
      = (_aos_ws_client_handler_disconnect f s).loops ∧
    (_aos_ws_client_handler_disconnect g (_aos_ws_client_handler_disconnect f s)).log
      = (_aos_ws_client_handler_disconnect f s).log ++ [Action.aos_resolve g none] := by
  have hd : (_aos_ws_client_handler_disconnect f s).ctx.state = DISCONNECTED := by
    cases hst : s.ctx.state <;> simp [_aos_ws_client_handler_disconnect, hst, Sys.emit]
  refine ⟨?_, ?_, ?_, ?_⟩
  · intro hst
    simp [_aos_ws_client_handler_disconnect, hst, Sys.emit]
  · rw [_aos_ws_client_handler_disconnect, hd]; rfl
  · rw [_aos_ws_client_handler_disconnect, hd]; rfl
  · rw [_aos_ws_client_handler_disconnect, hd]; rfl

/-! ## CONNECT from DISCONNECTED, and CONNECT followed by DISCONNECT -/

/-- C12: a CONNECT handled in state DISCONNECTED whose transport connect succeeds
reaches, right before it resolves its future, a state `x` with state CONNECTED,
both counters 0, no connect future stored and both loop handles null (close-clean
ran first, then a stored future, if any, was resolved with err=1, then the
connect was made). From `x` the handler resolves its future with err=0, registers
the poll loop with interval 1, stores its handle, and runs one poll tick. -/
theorem connect_from_disconnected (fuel future : Nat) (s : Sys)
    (hstate : s.ctx.state = DISCONNECTED)
    (hok : 0 ≤ s.transport.connect_ret s.transport.connects) :
    ∃ x : Sys,
      x.log = s.log ++
        [Action.aos_task_loop_unset s.ctx.poll_loop, Action.aos_task_loop_unset s.ctx.retry_loop] ++
        (match s.ctx.connect_future with
          | some pending => [Action.aos_resolve pending (some 1)]
          | none => []) ++
        [Action.esp_transport_connect s.ctx.config.host s.ctx.config.port
          s.ctx.config.send_timeout_ms] ∧
      x.ctx.state = CONNECTED ∧ x.ctx.connection_attempt = 0 ∧ x.ctx.reconnection_attempt = 0 ∧
      x.ctx.connect_future = none ∧ x.ctx.poll_loop = none ∧ x.ctx.retry_loop = none ∧
      _aos_ws_client_handler_connect fuel future s = _aos_ws_client_poll_loop fuel
        { x with
          ctx := { x.ctx with poll_loop := some ⟨LoopFn._aos_ws_client_poll_loop, 1⟩ },
          loops := x.loops ++ [⟨LoopFn._aos_ws_client_poll_loop, 1⟩],
          log := x.log ++ [Action.aos_resolve future (some 0),
            Action.aos_task_loop_set ⟨LoopFn._aos_ws_client_poll_loop, 1⟩] } := by
  have hnot : ¬ s.transport.connect_ret s.transport.connects < 0 := not_lt.mpr hok
  cases hf : s.ctx.connect_future with
  | none =>
    refine ⟨{ ctx := { s.ctx with
                state := CONNECTED, connection_attempt := 0, reconnection_attempt := 0,
                connect_future := none, poll_loop := none, retry_loop := none },
              transport := { s.transport with connects := s.transport.connects + 1 },
              loops := (aos_task_loop_unset s.ctx.retry_loop
                (aos_task_loop_unset s.ctx.poll_loop s)).loops,
              log := s.log ++ [Action.aos_task_loop_unset s.ctx.poll_loop,
                Action.aos_task_loop_unset s.ctx.retry_loop,
                Action.esp_transport_connect s.ctx.config.host s.ctx.config.port
                  s.ctx.config.send_timeout_ms] }, ?_⟩
    simp [_aos_ws_client_handler_connect, handler_connect_prepare, handler_connect_connected,
      _aos_ws_client_disconnect, resolve_connect_future, aos_task_loop_unset, aos_task_loop_set,
      esp_transport_connect, hstate, hf, hnot, Sys.emit]
  | some pending =>
    refine ⟨{ ctx := { s.ctx with
                state := CONNECTED, connection_attempt := 0, reconnection_attempt := 0,
                connect_future := none, poll_loop := none, retry_loop := none },
              transport := { s.transport with connects := s.transport.connects + 1 },
              loops := (aos_task_loop_unset s.ctx.retry_loop
                (aos_task_loop_unset s.ctx.poll_loop s)).loops,
              log := s.log ++ [Action.aos_task_loop_unset s.ctx.poll_loop,
                Action.aos_task_loop_unset s.ctx.retry_loop,
                Action.aos_resolve pending (some 1),
                Action.esp_transport_connect s.ctx.config.host s.ctx.config.port
                  s.ctx.config.send_timeout_ms] }, ?_⟩
    simp [_aos_ws_client_handler_connect, handler_connect_prepare, handler_connect_connected,
      _aos_ws_client_disconnect, resolve_connect_future, aos_task_loop_unset, aos_task_loop_set,
      esp_transport_connect, hstate, hf, hnot, Sys.emit]

/-- The error handler never leaves the client in state CONNECTED. -/
theorem onerror_not_connected (s : Sys) : (_aos_ws_client_onerror s).ctx.state ≠ CONNECTED := by
  cases hst : s.ctx.state <;> cases hf : s.ctx.connect_future <;>
    simp [_aos_ws_client_onerror, _aos_ws_client_disconnect, aos_task_loop_unset,
      aos_task_loop_set, hst, hf, esp_transport_ws_send_raw, Sys.emit] <;>
    split <;> (try split) <;> simp

/-- Close-clean changes no field of the context but the two loop handles. -/
theorem disconnect_ctx (s : Sys) :
    (_aos_ws_client_disconnect s).ctx = { s.ctx with poll_loop := none, retry_loop := none } := by
  cases hst : s.ctx.state <;>
    simp [_aos_ws_client_disconnect, aos_task_loop_unset, hst, esp_transport_ws_send_raw, Sys.emit]

/-- A poll tick that ends in state CONNECTED has only appended to the log,
without any resolution, and has kept the counters. -/
theorem poll_loop_stays_connected {fuel : Nat} {s s1 : Sys}
    (hp : _aos_ws_client_poll_loop fuel s = some s1) (hst : s1.ctx.state = CONNECTED) :
    s1.ctx.connection_attempt = s.ctx.connection_attempt ∧
    s1.ctx.reconnection_attempt = s.ctx.reconnection_attempt ∧
    resolutions s1.log = resolutions s.log := by
  simp only [_aos_ws_client_poll_loop] at hp
  split at hp
  · simp at hp
  · simp at hp
    subst hp
    exact absurd hst (onerror_not_connected _)
  · rename_i d s2 hr
    simp at hp
    subst hp
    obtain ⟨⟨b, hb⟩, -, l, hl, hreads⟩ := read_loop_inv _ _ _ _ _ hr
    have hsil := (reads_silent l hreads).2.1
    simp only [poll_dispatch] at hst ⊢
    split_ifs at hst ⊢
    · simp [Sys.emit, hb, hl, resolutions_append, hsil, resolutions]
    · exact absurd hst (onerror_not_connected _)
    · simp [esp_transport_ws_send_raw, hb, hl, resolutions_append, hsil, resolutions]
    · simp [hb, hl, resolutions_append, hsil]
    · obtain ⟨l2, hl2, -, -, hres2, -⟩ := disconnect_log s2
      simp [Sys.emit, disconnect_ctx, hb, hl, hl2, resolutions_append, hsil, hres2, resolutions]
    · simp [hb, hl, resolutions_append, hsil]
    · exact absurd hst (onerror_not_connected _)

/-- C15 (refuted as stated): a CONNECT whose three retries fail is resolved
with err=1 and the following DISCONNECT leaves connection_attempt = 3; a CONNECT
that succeeds and whose immediate poll tick fails is resolved with err=0 and the
following DISCONNECT leaves reconnection_attempt = 1. -/
theorem connect_disconnect_counters_not_zero :
    (run 1 (initial example_config refusing_transport)
        [Input.AOS_WS_CLIENT_TASKEVT_CONNECT 0, Input.retry_tick, Input.retry_tick,
         Input.retry_tick, Input.AOS_WS_CLIENT_TASKEVT_DISCONNECT 1]).map
        (fun s => (s.ctx.state, resolutions s.log, s.ctx.connection_attempt,
          s.ctx.reconnection_attempt))
      = some (DISCONNECTED, [(0, some 1), (1, none)], 3, 0) ∧
    (run 1 (initial example_config failing_read_transport)
        [Input.AOS_WS_CLIENT_TASKEVT_CONNECT 0, Input.AOS_WS_CLIENT_TASKEVT_DISCONNECT 1]).map
        (fun s => (s.ctx.state, resolutions s.log, s.ctx.connection_attempt,
          s.ctx.reconnection_attempt))
      = some (DISCONNECTED, [(0, some 0), (1, none)], 0, 1) := by
  constructor <;> rfl

/-- C15 (amended): when a CONNECT is handled and a DISCONNECT is handled next,
the client ends in state DISCONNECTED and the DISCONNECT leaves both counters as
the CONNECT handler left them. If the CONNECT handler returned in state CONNECTED
(the client was connected already, or the handler's own connect succeeded and its
poll tick met no error), the CONNECT future was resolved with err=0 and both
counters are 0 after the DISCONNECT. -/
theorem connect_then_disconnect (fuel f g : Nat) (s s1 : Sys)
    (hconnect : _aos_ws_client_handler_connect fuel f s = some s1) :
    (_aos_ws_client_handler_disconnect g s1).ctx.state = DISCONNECTED ∧
    (_aos_ws_client_handler_disconnect g s1).ctx.connection_attempt
      = s1.ctx.connection_attempt ∧
    (_aos_ws_client_handler_disconnect g s1).ctx.reconnection_attempt
      = s1.ctx.reconnection_attempt ∧
    (s1.ctx.state = CONNECTED →
      (f, some 0) ∈ resolutions s1.log ∧
      (_aos_ws_client_handler_disconnect g s1).ctx.connection_attempt = 0 ∧
      (_aos_ws_client_handler_disconnect g s1).ctx.reconnection_attempt = 0) := by
  have hd : (_aos_ws_client_handler_disconnect g s1).ctx.state = DISCONNECTED ∧
      (_aos_ws_client_handler_disconnect g s1).ctx.connection_attempt
        = s1.ctx.connection_attempt ∧
      (_aos_ws_client_handler_disconnect g s1).ctx.reconnection_attempt
        = s1.ctx.reconnection_attempt := by
    cases hst : s1.ctx.state <;> cases hf : s1.ctx.connect_future <;>
      simp [_aos_ws_client_handler_disconnect, resolve_connect_future, disconnect_ctx, hst, hf,
        Sys.emit]
  refine ⟨hd.1, hd.2.1, hd.2.2, ?_⟩
  intro hst1
  rw [hd.2.1, hd.2.2]
  simp only [_aos_ws_client_handler_connect] at hconnect
  split at hconnect
  · simp at hconnect
    subst hconnect
    simp [Sys.emit, resolutions_append, resolutions]
  · split at hconnect
    · simp at hconnect
      subst hconnect
      exact absurd hst1 (onerror_not_connected _)
    · obtain ⟨h1, h2, h3⟩ := poll_loop_stays_connected hconnect hst1
      rw [h1, h2, h3]
      simp [handler_connect_connected, handler_connect_prepare, aos_task_loop_set, Sys.emit,
        esp_transport_connect, resolutions_append, resolutions]

/-! ## The read loop -/

/-- Storing the next chunk of `P` after a prefix of `P` gives a longer prefix,
and keeps the length of the buffer when the chunk fits. -/
theorem store_chunk (P b : List Nat) (d n : Nat) (hpre : b.take d = P.take d)
    (hdb : d + n ≤ b.length) (hdP : d + n ≤ P.length) :
    (store b d ((P.drop d).take n)).take (d + n) = P.take (d + n) ∧
    (store b d ((P.drop d).take n)).length = b.length := by
  have hlen : ((P.drop d).take n).length = n := by
    rw [List.length_take, List.length_drop]; omega
  have hbd : (b.take d).length = d := by rw [List.length_take]; omega
  constructor
  · unfold store
    rw [hlen, List.append_assoc, List.take_append_eq_append_take, hbd]
    have h1 : (b.take d).take (d + n) = b.take d := by
      rw [List.take_take]; congr 1; omega
    have h2 : d + n - d = n := by omega
    rw [h1, h2, List.take_append_eq_append_take, hlen, Nat.sub_self, List.take_zero,
      List.append_nil, List.take_take, Nat.min_self, hpre, List.take_add]
  · unfold store
    rw [hlen, List.length_append, List.length_append, hbd, hlen, List.length_drop]
    omega

/-- With reads that bring `data_len` to the target `T` (at most buffer_size)
without overshooting, that are positive below the target, and with a loop
condition that holds exactly below the target, the read loop returns with
`data_len = T` as soon as the fuel exceeds the bytes still to read. When `C`
holds the reads store the bytes of `P` in order, and the buffer then starts with
the first `T` bytes of `P`. -/
theorem read_loop_reaches (C : Prop) (P : List Nat) (T : Nat) : ∀ (fuel d : Nat) (s : Sys),
    T - d < fuel → d ≤ T → T ≤ s.ctx.config.buffer_size → s.ctx.config.buffer_size < 2 ^ 32 →
    (∀ i, (i = 0 ∨ data_len_before s.transport.read_ret s.transport.reads d i < T) →
      0 ≤ s.transport.read_ret (s.transport.reads + i) ∧
      (s.transport.read_ret (s.transport.reads + i)).toNat
        ≤ T - data_len_before s.transport.read_ret s.transport.reads d i ∧
      (data_len_before s.transport.read_ret s.transport.reads d i < T →
        1 ≤ s.transport.read_ret (s.transport.reads + i)) ∧
      (∀ x, x ≤ T → ((x < s.ctx.config.buffer_size ∧
          x < (s.transport.read_payload_len (s.transport.reads + i + 1) % 2 ^ 32).toNat)
            ↔ x < T)) ∧
      (C → T ≤ P.length ∧ s.transport.read_data (s.transport.reads + i)
          = (P.drop (data_len_before s.transport.read_ret s.transport.reads d i)).take
              (s.transport.read_ret (s.transport.reads + i)).toNat)) →
    (C → s.ctx.buffer.take d = P.take d ∧ s.ctx.buffer.length = s.ctx.config.buffer_size) →
    ∃ s1, read_loop fuel d s = some (some T, s1) ∧
      (C → s1.ctx.buffer.take T = P.take T ∧
        s1.ctx.buffer.length = s.ctx.config.buffer_size) := by
  intro fuel
  induction fuel with
  | zero => intro d s h; omega
  | succ f ih =>
    intro d s hf hd hT hB H hC
    obtain ⟨h0, hle, hpos, hcont, hdata⟩ := H 0 (Or.inl rfl)
    simp only [data_len_before, Nat.add_zero] at h0 hle hpos hcont hdata
    have hnot : ¬ s.transport.read_ret s.transport.reads < 0 := not_lt.mpr h0
    have hd1 : u32 (d + (s.transport.read_ret s.transport.reads).toNat)
        = d + (s.transport.read_ret s.transport.reads).toNat := by
      unfold u32; exact Nat.mod_eq_of_lt (by omega)
    have hbuf : C → (store s.ctx.buffer d (s.transport.read_data s.transport.reads)).take
          (d + (s.transport.read_ret s.transport.reads).toNat)
          = P.take (d + (s.transport.read_ret s.transport.reads).toNat) ∧
        (store s.ctx.buffer d (s.transport.read_data s.transport.reads)).length
          = s.ctx.config.buffer_size := by
      intro hc
      obtain ⟨hTP, hrd⟩ := hdata hc
      obtain ⟨hpre, hlen⟩ := hC hc
      rw [hrd, ← hlen]
      exact store_chunk P s.ctx.buffer d _ hpre (by omega) (by omega)
    rw [read_loop]
    simp only [esp_transport_read, hnot, if_false, esp_transport_ws_get_read_payload_len, hd1]
    by_cases hc : d + (s.transport.read_ret s.transport.reads).toNat < T
    · have hn0 : s.transport.read_ret s.transport.reads ≠ 0 := by
        intro h0'
        rw [h0'] at hc
        have := hpos (by simpa using hc)
        omega
      have hn1 : 1 ≤ (s.transport.read_ret s.transport.reads).toNat := by omega
      rw [if_pos ⟨hn0, (hcont _ (by omega)).2 hc⟩]
      obtain ⟨s1, hs1, hb1⟩ := ih (d + (s.transport.read_ret s.transport.reads).toNat)
        (esp_transport_read d (u32 (s.ctx.config.buffer_size + 2 ^ 32 - d))
          s.ctx.config.poll_timeout_ms s).2
        (by omega) (by omega) hT hB (by
          intro i hi
          have hi' : i + 1 = 0 ∨ data_len_before s.transport.read_ret s.transport.reads d (i + 1)
              < T := by
            right
            rcases hi with rfl | hi
            · simpa [data_len_before, hd1] using hc
            · simpa [data_len_before, hd1] using hi
          have := H (i + 1) hi'
          simp only [data_len_before, hd1] at this
          have e : s.transport.reads + (i + 1) = s.transport.reads + 1 + i := by omega
          rw [e] at this
          exact this) hbuf
      exact ⟨s1, hs1, hb1⟩
    · have heq : d + (s.transport.read_ret s.transport.reads).toNat = T := by omega
      have hstop : ¬ (s.transport.read_ret s.transport.reads ≠ 0 ∧
          d + (s.transport.read_ret s.transport.reads).toNat < s.ctx.config.buffer_size ∧
          d + (s.transport.read_ret s.transport.reads).toNat
            < (s.transport.read_payload_len (s.transport.reads + 1) % 2 ^ 32).toNat) := by
        intro h
        exact hc ((hcont _ (by omega)).1 h.2)
      rw [if_neg hstop, heq]
      refine ⟨_, rfl, ?_⟩
      intro hc'
      have := hbuf hc'
      rw [heq] at this
      exact this

theorem data_calls_append (l1 l2 : List Action) :
    data_calls (l1 ++ l2) = data_calls l1 ++ data_calls l2 := by
  induction l1 with
  | nil => rfl
  | cons a l ih => cases a <;> simp [data_calls, ih]

/-- A list of read actions holds no call of `on_data`. -/
theorem reads_no_data (l : List Action)
    (h : ∀ a ∈ l, ∃ o n t, a = Action.esp_transport_read o n t) : data_calls l = [] := by
  induction l with
  | nil => rfl
  | cons a l ih =>
    obtain ⟨o, n, t, rfl⟩ := h _ (List.mem_cons_self _ _)
    simpa [data_calls] using ih (fun a ha => h a (List.mem_cons_of_mem _ ha))

/-- The read loop changes nothing of the transport but the number of reads made. -/
theorem read_loop_transport (fuel : Nat) : ∀ (d : Nat) (s : Sys) (r : Option Nat) (s1 : Sys),
    read_loop fuel d s = some (r, s1) →
    s1.transport = { s.transport with reads := s1.transport.reads } ∧
    s.transport.reads < s1.transport.reads := by
  induction fuel with
  | zero => intro d s r s1 h; simp [read_loop] at h
  | succ k ih =>
    intro d s r s1 h
    simp only [read_loop] at h
    split at h
    · simp at h
      obtain ⟨-, rfl⟩ := h
      simp [esp_transport_read]
    · split at h
      · obtain ⟨h1, h2⟩ := ih _ _ _ _ h
        simp only [esp_transport_read] at h1 h2
        exact ⟨h1, by omega⟩
      · simp at h
        obtain ⟨-, rfl⟩ := h
        simp [esp_transport_read]

/-- C16: in a poll tick in state CONNECTED whose reads deliver the payload `P`
of the current frame in order, the read loop returns (the fuel exceeding
min(|P|, buffer_size)) with data_len = min(|P|, buffer_size) and the buffer
starting with `P` truncated to buffer_size bytes; the reads send no frame. If the
opcode then reported is PING, the tick sends one frame PONG|FIN with the buffer
and that length, so its payload is `P` truncated to buffer_size; any further
frame is a CLOSE frame of the error handler, which runs only when the send
fails. If the send succeeds nothing else is logged, the state stays CONNECTED
and the loop handles and registered loops are unchanged, so the poll loop is
armed after the tick as it was before. -/
theorem ping_answered_with_truncated_pong (fuel : Nat) (P : List Nat) (s : Sys)
    (hstate : s.ctx.state = CONNECTED)
    (hB : s.ctx.config.buffer_size < 2 ^ 32) (hP : P.length < 2 ^ 32)
    (hbuf : s.ctx.buffer.length = s.ctx.config.buffer_size)
    (hdel : delivers_payload P s)
    (hfuel : min P.length s.ctx.config.buffer_size < fuel) :
    ∃ s1, read_loop fuel 0 s = some (some (min P.length s.ctx.config.buffer_size), s1) ∧
      s1.ctx.buffer.take (min P.length s.ctx.config.buffer_size)
        = P.take s.ctx.config.buffer_size ∧
      frames s1.log = frames s.log ∧
      (esp_transport_ws_get_read_opcode s1 = WS_TRANSPORT_OPCODES_PING →
        ∃ s2 l, _aos_ws_client_poll_loop fuel s = some s2 ∧
          s2.log = s1.log ++
            [Action.esp_transport_ws_send_raw
              (WS_TRANSPORT_OPCODES_PONG ||| WS_TRANSPORT_OPCODES_FIN) s1.ctx.buffer
              (min P.length s.ctx.config.buffer_size) s.ctx.config.send_timeout_ms] ++ l ∧
          (∀ x ∈ frames l, x = (WS_TRANSPORT_OPCODES_CLOSE ||| WS_TRANSPORT_OPCODES_FIN, 0)) ∧
          (0 ≤ s.transport.send_ret s.transport.sends →
            l = [] ∧ s2.ctx.state = CONNECTED ∧ s2.ctx.poll_loop = s.ctx.poll_loop ∧
            s2.ctx.retry_loop = s.ctx.retry_loop ∧ s2.loops = s.loops ∧
            armed LoopFn._aos_ws_client_poll_loop s2
              = armed LoopFn._aos_ws_client_poll_loop s)) := by
  have hpl : ((P.length : Int) % 2 ^ 32).toNat = P.length := by
    rw [Int.emod_eq_of_lt (by omega) (by exact_mod_cast hP)]
    simp
  obtain ⟨s1, hs1, hb1⟩ := read_loop_reaches True P (min P.length s.ctx.config.buffer_size)
    fuel 0 s (by omega) (Nat.zero_le _) (Nat.min_le_right _ _) hB
    (by
      intro i hi
      obtain ⟨h1, h2, h3, h4, h5⟩ := hdel i hi
      refine ⟨h1, h2, h3, ?_, fun _ => ⟨Nat.min_le_left _ _, h4⟩⟩
      intro x _
      rw [h5, hpl]
      omega)
    (fun _ => ⟨by simp, hbuf⟩)
  obtain ⟨⟨b, hctx⟩, hloops, reads, hlog, hreads⟩ := read_loop_inv fuel 0 s _ s1 hs1
  obtain ⟨htr, -⟩ := read_loop_transport fuel 0 s _ s1 hs1
  have hfr := (reads_silent reads hreads).2.2.2
  refine ⟨s1, hs1, ?_, ?_, ?_⟩
  · rw [(hb1 trivial).1]
    rcases Nat.le_total P.length s.ctx.config.buffer_size with h | h
    · rw [Nat.min_eq_left h, List.take_of_length_le (le_refl _), List.take_of_length_le h]
    · rw [Nat.min_eq_right h]
  · rw [hlog, frames_append, hfr, List.append_nil]
  · intro hop
    have hcfg : s1.ctx.config = s.ctx.config := by rw [hctx]
    have hsend : s1.transport.send_ret s1.transport.sends
        = s.transport.send_ret s.transport.sends := by rw [htr]
    have hpoll : _aos_ws_client_poll_loop fuel s
        = some (poll_dispatch (min P.length s.ctx.config.buffer_size) s1) := by
      simp only [_aos_ws_client_poll_loop, hs1]
    by_cases hneg : s.transport.send_ret s.transport.sends < 0
    · obtain ⟨l, hl, hfl, -⟩ := onerror_log (esp_transport_ws_send_raw
        (WS_TRANSPORT_OPCODES_PONG ||| WS_TRANSPORT_OPCODES_FIN) s1.ctx.buffer
        (min P.length s.ctx.config.buffer_size) s.ctx.config.send_timeout_ms s1).2
      refine ⟨_, l, hpoll, ?_, hfl, fun h => absurd hneg (not_lt.mpr h)⟩
      simp only [poll_dispatch, hop, hcfg, esp_transport_ws_send_raw, hsend, hneg]
      simp only [esp_transport_ws_send_raw] at hl
      simp [WS_TRANSPORT_OPCODES_PING, WS_TRANSPORT_OPCODES_CONT, WS_TRANSPORT_OPCODES_TEXT,
        WS_TRANSPORT_OPCODES_BINARY, hl]
    · refine ⟨_, [], hpoll, ?_, by simp [frames], fun _ => ?_⟩
      · simp [poll_dispatch, hop, hcfg, esp_transport_ws_send_raw, hsend, hneg,
          WS_TRANSPORT_OPCODES_PING, WS_TRANSPORT_OPCODES_CONT, WS_TRANSPORT_OPCODES_TEXT,
          WS_TRANSPORT_OPCODES_BINARY]
      · simp [poll_dispatch, hop, hcfg, esp_transport_ws_send_raw, hsend, hneg,
          WS_TRANSPORT_OPCODES_PING, WS_TRANSPORT_OPCODES_CONT, WS_TRANSPORT_OPCODES_TEXT,
          WS_TRANSPORT_OPCODES_BINARY, hctx, hstate, hloops, armed]

/-- The reads of a read loop that returns: it makes `k + 1` reads, none of the
first `k` returns a negative value, the loop reports an error exactly when the
last one does, and otherwise `data_len` has grown by the sum of the byte counts
returned, modulo `2 ^ 32`. -/
theorem read_loop_total (fuel : Nat) : ∀ (d : Nat) (s : Sys) (res : Option Nat) (s1 : Sys),
    read_loop fuel d s = some (res, s1) →
    ∃ k, s1.transport.reads = s.transport.reads + (k + 1) ∧
      (∀ i, i < k → 0 ≤ s.transport.read_ret (s.transport.reads + i)) ∧
      (res = none → s.transport.read_ret (s.transport.reads + k) < 0) ∧
      (∀ d1, res = some d1 → 0 ≤ s.transport.read_ret (s.transport.reads + k) ∧
        d1 = u32 (d + bytes_returned s.transport.read_ret s.transport.reads (k + 1))) := by
  induction fuel with
  | zero => intro d s res s1 h; simp [read_loop] at h
  | succ n ih =>
    intro d s res s1 h
    simp only [read_loop] at h
    split at h
    · rename_i hneg
      simp at h
      obtain ⟨rfl, rfl⟩ := h
      refine ⟨0, by simp [esp_transport_read], by simp, fun _ => ?_, by simp⟩
      simpa [esp_transport_read] using hneg
    · rename_i hneg
      simp only [esp_transport_read] at hneg
      have hpos : 0 ≤ s.transport.read_ret s.transport.reads := not_lt.mp hneg
      split at h
      · obtain ⟨k, h1, h2, h3, h4⟩ := ih _ _ _ _ h
        simp only [esp_transport_read] at h1 h2 h3 h4
        refine ⟨k + 1, by omega, ?_, ?_, ?_⟩
        · intro i hi
          cases i with
          | zero => simpa using hpos
          | succ j =>
            have := h2 j (by omega)
            rwa [Nat.add_assoc, Nat.add_comm 1 j] at this
        · intro hres
          have := h3 hres
          rwa [Nat.add_assoc, Nat.add_comm 1 k] at this
        · intro d1 hres
          obtain ⟨h5, h6⟩ := h4 d1 hres
          rw [Nat.add_assoc, Nat.add_comm 1 k] at h5
          refine ⟨h5, ?_⟩
          rw [h6]
          simp only [u32, bytes_returned, Nat.mod_add_mod, Nat.add_assoc]
      · simp at h
        obtain ⟨rfl, rfl⟩ := h
        refine ⟨0, by simp [esp_transport_read], by simp, by simp, ?_⟩
        intro d1 hd
        simp only [Option.some.injEq] at hd
        subst hd
        exact ⟨by simpa using hpos, by simp [esp_transport_read, bytes_returned]⟩

/-- Every read of a read loop but the first one is made with `data_len` below
`buffer_size`. -/
theorem read_loop_continues (fuel : Nat) : ∀ (d : Nat) (s : Sys) (res : Option Nat) (s1 : Sys),
    read_loop fuel d s = some (res, s1) →
    ∀ k, s1.transport.reads = s.transport.reads + (k + 1) →
    ∀ i, i ≤ k → (i = 0 ∨
      data_len_before s.transport.read_ret s.transport.reads d i < s.ctx.config.buffer_size) := by
  induction fuel with
  | zero => intro d s res s1 h; simp [read_loop] at h
  | succ n ih =>
    intro d s res s1 h k hk i hi
    simp only [read_loop] at h
    split at h
    · simp at h
      obtain ⟨-, rfl⟩ := h
      simp only [esp_transport_read] at hk
      left
      omega
    · split at h
      · rename_i hcont
        obtain ⟨-, hlt, -⟩ := hcont
        simp only [esp_transport_read] at hlt
        obtain ⟨-, hgrow⟩ := read_loop_transport n _ _ _ _ h
        simp only [esp_transport_read] at hgrow
        cases i with
        | zero => left; rfl
        | succ j =>
          right
          have := ih _ _ _ _ h (k - 1) (by simp only [esp_transport_read]; omega) j (by omega)
          simp only [esp_transport_read] at this
          rw [data_len_before]
          rcases this with rfl | this
          · exact hlt
          · exact this
      · simp at h
        obtain ⟨-, rfl⟩ := h
        simp only [esp_transport_read] at hk
        left
        omega

/-- C17: in a poll tick (buffer_size at least 1) whose reads, as long as the
buffer is not full, return a positive count that is at most the capacity offered
(buffer_size - data_len) while the declared payload length stays greater than
buffer_size, the read loop returns (the fuel exceeding buffer_size) with
data_len = buffer_size. It exits on the buffer-full predicate: of the three
conjuncts of the loop condition, the last byte count is not 0 and data_len is
below the declared payload length, and only data_len < buffer_size fails. If the opcode then
reported is CONT, TEXT or BINARY, the tick does nothing more than invoke on_data
once, with the internal buffer and len = buffer_size. -/
theorem oversize_frame_fills_buffer (fuel : Nat) (s : Sys)
    (hB1 : 1 ≤ s.ctx.config.buffer_size) (hB : s.ctx.config.buffer_size < 2 ^ 32)
    (hreads : ∀ i,
      data_len_before s.transport.read_ret s.transport.reads 0 i < s.ctx.config.buffer_size →
      1 ≤ s.transport.read_ret (s.transport.reads + i) ∧
      (s.transport.read_ret (s.transport.reads + i)).toNat
        ≤ s.ctx.config.buffer_size
          - data_len_before s.transport.read_ret s.transport.reads 0 i ∧
      s.ctx.config.buffer_size
        < (s.transport.read_payload_len (s.transport.reads + i + 1) % 2 ^ 32).toNat)
    (hfuel : s.ctx.config.buffer_size < fuel) :
    ∃ s1, read_loop fuel 0 s = some (some s.ctx.config.buffer_size, s1) ∧
      (∃ k, s1.transport.reads = s.transport.reads + (k + 1) ∧
        s.transport.read_ret (s.transport.reads + k) ≠ 0 ∧
        s.ctx.config.buffer_size < (esp_transport_ws_get_read_payload_len s1 % 2 ^ 32).toNat ∧
        ¬ (s.ctx.config.buffer_size < s1.ctx.config.buffer_size)) ∧
      ((esp_transport_ws_get_read_opcode s1 = WS_TRANSPORT_OPCODES_CONT ∨
        esp_transport_ws_get_read_opcode s1 = WS_TRANSPORT_OPCODES_TEXT ∨
        esp_transport_ws_get_read_opcode s1 = WS_TRANSPORT_OPCODES_BINARY) →
        _aos_ws_client_poll_loop fuel s
          = some (s1.emit (Action.on_data s1.ctx.buffer s.ctx.config.buffer_size)) ∧
        data_calls (s1.emit (Action.on_data s1.ctx.buffer s.ctx.config.buffer_size)).log
          = data_calls s.log ++ [(s1.ctx.buffer, s.ctx.config.buffer_size)]) := by
  have hi0 : ∀ i, (i = 0 ∨ data_len_before s.transport.read_ret s.transport.reads 0 i
      < s.ctx.config.buffer_size) →
      data_len_before s.transport.read_ret s.transport.reads 0 i < s.ctx.config.buffer_size := by
    intro i hi
    rcases hi with rfl | hi
    · simpa [data_len_before] using hB1
    · exact hi
  obtain ⟨s1, hs1, -⟩ := read_loop_reaches False [] s.ctx.config.buffer_size
    fuel 0 s (by omega) (Nat.zero_le _) (le_refl _) hB
    (by
      intro i hi
      obtain ⟨h1, h2, h3⟩ := hreads i (hi0 i hi)
      refine ⟨by omega, h2, fun _ => h1, ?_, fun h => h.elim⟩
      intro x _
      omega)
    (fun h => h.elim)
  obtain ⟨⟨b, hctx⟩, -, reads, hlog, hreads'⟩ := read_loop_inv fuel 0 s _ s1 hs1
  obtain ⟨k, hk, -⟩ := read_loop_total fuel 0 s _ s1 hs1
  obtain ⟨htr, -⟩ := read_loop_transport fuel 0 s _ s1 hs1
  have hlast := hreads k (hi0 k (read_loop_continues fuel 0 s _ s1 hs1 k hk k (le_refl _)))
  refine ⟨s1, hs1, ⟨k, hk, by omega, ?_, by simp [hctx]⟩, ?_⟩
  · have hpl : esp_transport_ws_get_read_payload_len s1
        = s.transport.read_payload_len (s.transport.reads + k + 1) := by
      rw [esp_transport_ws_get_read_payload_len, hk, htr]
      rfl
    rw [hpl]
    exact hlast.2.2
  intro hop
  constructor
  · simp only [_aos_ws_client_poll_loop, hs1, poll_dispatch, hop, if_true]
  · simp [Sys.emit, hlog, data_calls_append, reads_no_data reads hreads', data_calls]

/-- Close-clean invokes no `on_data`. -/
theorem disconnect_no_data (s : Sys) :
    data_calls (_aos_ws_client_disconnect s).log = data_calls s.log := by
  cases hst : s.ctx.state <;>
    simp [_aos_ws_client_disconnect, aos_task_loop_unset, hst, esp_transport_ws_send_raw, Sys.emit,
      data_calls_append, data_calls]

/-- The error handler invokes no `on_data`. -/
theorem onerror_no_data (s : Sys) :
    data_calls (_aos_ws_client_onerror s).log = data_calls s.log := by
  cases hst : s.ctx.state <;> cases hf : s.ctx.connect_future <;>
    simp [_aos_ws_client_onerror, _aos_ws_client_disconnect, aos_task_loop_unset, aos_task_loop_set,
      hst, hf, esp_transport_ws_send_raw, Sys.emit] <;>
    split <;> (try split) <;>
    simp [data_calls_append, data_calls, hst]

/-- Reads that return at most the capacity offered to them (`buffer_size`
minus `data_len`) never bring `data_len` above `buffer_size`. -/
theorem bytes_within (read_ret : Nat → Int) (B : Nat) (hB : B < 2 ^ 32) : ∀ (k r d : Nat),
    d ≤ B →
    (∀ i, i ≤ k → (read_ret (r + i)).toNat ≤ B - data_len_before read_ret r d i) →
    d + bytes_returned read_ret r (k + 1) ≤ B := by
  intro k
  induction k with
  | zero =>
    intro r d hd h
    have := h 0 (le_refl _)
    simp only [data_len_before, Nat.add_zero] at this
    simp only [bytes_returned]
    omega
  | succ k ih =>
    intro r d hd h
    have h0 := h 0 (Nat.zero_le _)
    simp only [data_len_before, Nat.add_zero] at h0
    have hu : u32 (d + (read_ret r).toNat) = d + (read_ret r).toNat :=
      Nat.mod_eq_of_lt (by omega)
    have := ih (r + 1) (d + (read_ret r).toNat) (by omega) (by
      intro i hi
      have := h (i + 1) (by omega)
      simp only [data_len_before, hu] at this
      rwa [Nat.add_assoc, Nat.add_comm 1 i])
    rw [bytes_returned]
    omega

/-- Outside the data opcodes the opcode switch invokes no `on_data`. -/
theorem poll_dispatch_no_data (d : Nat) (s : Sys)
    (h : ¬ (esp_transport_ws_get_read_opcode s = WS_TRANSPORT_OPCODES_CONT ∨
      esp_transport_ws_get_read_opcode s = WS_TRANSPORT_OPCODES_TEXT ∨
      esp_transport_ws_get_read_opcode s = WS_TRANSPORT_OPCODES_BINARY)) :
    data_calls (poll_dispatch d s).log = data_calls s.log := by
  simp only [poll_dispatch, h, if_false]
  split
  · split
    · rw [onerror_no_data]
      simp [esp_transport_ws_send_raw, data_calls_append, data_calls]
    · simp [esp_transport_ws_send_raw, data_calls_append, data_calls]
  · split
    · rfl
    · split
      · simp [Sys.emit, data_calls_append, data_calls, disconnect_no_data]
      · split
        · rfl
        · exact onerror_no_data s

/-- C18: a poll tick that returns makes `k + 1` reads, and it invokes on_data
(the list of on_data calls grows) if and only if none of them returned a
negative value and the opcode reported after the reads is CONT, TEXT or BINARY.
It is then invoked exactly once and the tick does nothing else: the call carries
the internal buffer and len = the sum of the byte counts returned by the reads of
the tick, as an unsigned 32-bit value, which is the sum itself when buffer_size
is below 2^32 and every read returns at most the capacity offered to it; the
context (up to the bytes the reads stored in the buffer) and the registered loops
are unchanged. For opcode PONG or NONE the tick ends where the reads left it: the
log has grown by reads only, so no callback is invoked and no frame is sent, and
the context (up to the bytes stored) and the registered loops are unchanged. -/
theorem on_data_iff_data_frame (fuel : Nat) (s s2 : Sys)
    (hpoll : _aos_ws_client_poll_loop fuel s = some s2) :
    ∃ k res s1, read_loop fuel 0 s = some (res, s1) ∧
      s1.transport.reads = s.transport.reads + (k + 1) ∧
      (data_calls s2.log ≠ data_calls s.log ↔
        (∀ i, i ≤ k → 0 ≤ s.transport.read_ret (s.transport.reads + i)) ∧
        (esp_transport_ws_get_read_opcode s1 = WS_TRANSPORT_OPCODES_CONT ∨
          esp_transport_ws_get_read_opcode s1 = WS_TRANSPORT_OPCODES_TEXT ∨
          esp_transport_ws_get_read_opcode s1 = WS_TRANSPORT_OPCODES_BINARY)) ∧
      ((∀ i, i ≤ k → 0 ≤ s.transport.read_ret (s.transport.reads + i)) →
        (esp_transport_ws_get_read_opcode s1 = WS_TRANSPORT_OPCODES_CONT ∨
          esp_transport_ws_get_read_opcode s1 = WS_TRANSPORT_OPCODES_TEXT ∨
          esp_transport_ws_get_read_opcode s1 = WS_TRANSPORT_OPCODES_BINARY) →
        s2 = s1.emit (Action.on_data s1.ctx.buffer
          (u32 (bytes_returned s.transport.read_ret s.transport.reads (k + 1)))) ∧
        data_calls s2.log = data_calls s.log ++
          [(s1.ctx.buffer, u32 (bytes_returned s.transport.read_ret s.transport.reads (k + 1)))] ∧
        (s.ctx.config.buffer_size < 2 ^ 32 →
          (∀ i, i ≤ k → (s.transport.read_ret (s.transport.reads + i)).toNat
            ≤ s.ctx.config.buffer_size
              - data_len_before s.transport.read_ret s.transport.reads 0 i) →
          data_calls s2.log = data_calls s.log ++
            [(s1.ctx.buffer, bytes_returned s.transport.read_ret s.transport.reads (k + 1))]) ∧
        s2.ctx = { s.ctx with buffer := s2.ctx.buffer } ∧ s2.loops = s.loops) ∧
      ((∀ i, i ≤ k → 0 ≤ s.transport.read_ret (s.transport.reads + i)) →
        (esp_transport_ws_get_read_opcode s1 = WS_TRANSPORT_OPCODES_PONG ∨
          esp_transport_ws_get_read_opcode s1 = WS_TRANSPORT_OPCODES_NONE) →
        s2 = s1 ∧
        (∃ l, s2.log = s.log ++ l ∧ ∀ a ∈ l, ∃ o n t, a = Action.esp_transport_read o n t) ∧
        events s2.log = events s.log ∧ data_calls s2.log = data_calls s.log ∧
        frames s2.log = frames s.log ∧
        s2.ctx = { s.ctx with buffer := s2.ctx.buffer } ∧ s2.loops = s.loops) := by
  simp only [_aos_ws_client_poll_loop] at hpoll
  split at hpoll
  · simp at hpoll
  · rename_i s1 hr
    simp only [Option.some.injEq] at hpoll
    subst hpoll
    obtain ⟨k, h1, -, h3, -⟩ := read_loop_total fuel 0 s _ s1 hr
    obtain ⟨-, -, reads, hlog, hreads⟩ := read_loop_inv fuel 0 s _ s1 hr
    have hneg := h3 rfl
    have hno : ¬ ∀ i, i ≤ k → 0 ≤ s.transport.read_ret (s.transport.reads + i) :=
      fun h => absurd (h k (le_refl _)) (not_le.mpr hneg)
    refine ⟨k, none, s1, hr, h1, ?_, fun h => absurd h hno, fun h => absurd h hno⟩
    rw [onerror_no_data, hlog, data_calls_append, reads_no_data reads hreads]
    simp [hno]
  · rename_i d1 s1 hr
    simp only [Option.some.injEq] at hpoll
    subst hpoll
    obtain ⟨k, h1, h2, -, h4⟩ := read_loop_total fuel 0 s _ s1 hr
    obtain ⟨⟨b, hctx⟩, hloops, reads, hlog, hreads⟩ := read_loop_inv fuel 0 s _ s1 hr
    obtain ⟨hk, hd1⟩ := h4 d1 rfl
    rw [Nat.zero_add] at hd1
    have hall : ∀ i, i ≤ k → 0 ≤ s.transport.read_ret (s.transport.reads + i) := by
      intro i hi
      rcases Nat.lt_or_eq_of_le hi with h | h
      · exact h2 i h
      · rw [h]; exact hk
    have hdata : data_calls s1.log = data_calls s.log := by
      rw [hlog, data_calls_append, reads_no_data reads hreads, List.append_nil]
    refine ⟨k, some d1, s1, hr, h1, ?_, ?_, ?_⟩
    · by_cases hop : esp_transport_ws_get_read_opcode s1 = WS_TRANSPORT_OPCODES_CONT ∨
          esp_transport_ws_get_read_opcode s1 = WS_TRANSPORT_OPCODES_TEXT ∨
          esp_transport_ws_get_read_opcode s1 = WS_TRANSPORT_OPCODES_BINARY
      · simp only [poll_dispatch, hop, if_true]
        simp [Sys.emit, data_calls_append, data_calls, hdata, hop]
        exact hall
      · rw [poll_dispatch_no_data d1 s1 hop, hdata]
        simp [hop]
    · intro _ hop
      simp only [poll_dispatch, hop, if_true]
      refine ⟨by rw [hd1], ?_, ?_, ?_, ?_⟩
      · simp [Sys.emit, data_calls_append, data_calls, hdata, hd1]
      · intro hB hcap
        have := bytes_within s.transport.read_ret s.ctx.config.buffer_size hB k
          s.transport.reads 0 (Nat.zero_le _) hcap
        have hu : u32 (bytes_returned s.transport.read_ret s.transport.reads (k + 1))
            = bytes_returned s.transport.read_ret s.transport.reads (k + 1) :=
          Nat.mod_eq_of_lt (by omega)
        simp [Sys.emit, data_calls_append, data_calls, hdata, hd1, hu]
      · simp [Sys.emit, hctx]
      · simp [Sys.emit, hloops]
    · intro _ hop
      have hs2 : poll_dispatch d1 s1 = s1 := by
        rcases hop with hop | hop <;>
          simp [poll_dispatch, hop, WS_TRANSPORT_OPCODES_PONG, WS_TRANSPORT_OPCODES_NONE,
            WS_TRANSPORT_OPCODES_CONT, WS_TRANSPORT_OPCODES_TEXT, WS_TRANSPORT_OPCODES_BINARY,
            WS_TRANSPORT_OPCODES_PING, WS_TRANSPORT_OPCODES_CLOSE]
      rw [hs2]
      refine ⟨rfl, ⟨reads, hlog, hreads⟩, ?_, hdata, ?_, by simp [hctx], hloops⟩
      · rw [hlog, events_append, (reads_silent reads hreads).1, List.append_nil]
      · rw [hlog, frames_append, (reads_silent reads hreads).2.2.2, List.append_nil]

/-- The error handler does not look at the buffer contents, the transport or
the log: from two states with the same context up to the buffer contents and the
same registered loops it performs the same actions and ends in the same context
(up to the buffer contents) with the same registered loops. -/
theorem onerror_same (y : Sys) (b : List Nat) (t : esp_transport_handle_t) (log : List Action) :
    ∃ l, (_aos_ws_client_onerror ⟨{ y.ctx with buffer := b }, t, y.loops, log⟩).log = log ++ l ∧
      (_aos_ws_client_onerror y).log = y.log ++ l ∧
      (_aos_ws_client_onerror ⟨{ y.ctx with buffer := b }, t, y.loops, log⟩).ctx
        = { (_aos_ws_client_onerror y).ctx with buffer := b } ∧
      (_aos_ws_client_onerror ⟨{ y.ctx with buffer := b }, t, y.loops, log⟩).loops
        = (_aos_ws_client_onerror y).loops := by
  cases hst : y.ctx.state <;> cases hf : y.ctx.connect_future <;>
    simp [_aos_ws_client_onerror, _aos_ws_client_disconnect, aos_task_loop_unset, aos_task_loop_set,
      hst, hf, esp_transport_ws_send_raw, Sys.emit] <;>
    split <;> (try split) <;>
    simp [hst]

/-- C19: take a poll tick whose read loop stops on a read that returned a
negative value, and a poll tick whose reads all succeed and after which the
opcode reported is none of CONT, TEXT, BINARY, PING, PONG, CLOSE, NONE. Each
tick returns and is one run of the error handler on the state the reads left;
the first one invokes no on_data and sends no frame but the CLOSE frames of the
error handler (no PONG). When the two ticks start from the same context and the
same registered loops, they perform the same actions after their reads, so they
emit the same events, and they end in the same context (up to the bytes the
reads stored in the buffer) with the same registered loops. -/
theorem read_error_like_unknown_opcode (fuelA fuelB d : Nat) (sA sB a b : Sys)
    (hA : read_loop fuelA 0 sA = some (none, a))
    (hB : read_loop fuelB 0 sB = some (some d, b))
    (hop : esp_transport_ws_get_read_opcode b ≠ WS_TRANSPORT_OPCODES_CONT ∧
      esp_transport_ws_get_read_opcode b ≠ WS_TRANSPORT_OPCODES_TEXT ∧
      esp_transport_ws_get_read_opcode b ≠ WS_TRANSPORT_OPCODES_BINARY ∧
      esp_transport_ws_get_read_opcode b ≠ WS_TRANSPORT_OPCODES_PING ∧
      esp_transport_ws_get_read_opcode b ≠ WS_TRANSPORT_OPCODES_PONG ∧
      esp_transport_ws_get_read_opcode b ≠ WS_TRANSPORT_OPCODES_CLOSE ∧
      esp_transport_ws_get_read_opcode b ≠ WS_TRANSPORT_OPCODES_NONE)
    (hctx : sA.ctx = sB.ctx) (hloops : sA.loops = sB.loops) :
    (∃ k, a.transport.reads = sA.transport.reads + (k + 1) ∧
      sA.transport.read_ret (sA.transport.reads + k) < 0) ∧
    (∃ k, b.transport.reads = sB.transport.reads + (k + 1) ∧
      ∀ i, i ≤ k → 0 ≤ sB.transport.read_ret (sB.transport.reads + i)) ∧
    _aos_ws_client_poll_loop fuelA sA = some (_aos_ws_client_onerror a) ∧
    _aos_ws_client_poll_loop fuelB sB = some (_aos_ws_client_onerror b) ∧
    data_calls (_aos_ws_client_onerror a).log = data_calls sA.log ∧
    (∃ l, (_aos_ws_client_onerror a).log = a.log ++ l ∧
      (_aos_ws_client_onerror b).log = b.log ++ l ∧
      (∀ x ∈ frames l, x = (WS_TRANSPORT_OPCODES_CLOSE ||| WS_TRANSPORT_OPCODES_FIN, 0)) ∧
      events (_aos_ws_client_onerror a).log = events sA.log ++ events l ∧
      events (_aos_ws_client_onerror b).log = events sB.log ++ events l) ∧
    (_aos_ws_client_onerror a).ctx
      = { (_aos_ws_client_onerror b).ctx with buffer := (_aos_ws_client_onerror a).ctx.buffer } ∧
    (_aos_ws_client_onerror a).loops = (_aos_ws_client_onerror b).loops := by
  obtain ⟨ka, ha1, -, ha3, -⟩ := read_loop_total fuelA 0 sA _ a hA
  obtain ⟨kb, hb1, hb2, -, hb4⟩ := read_loop_total fuelB 0 sB _ b hB
  obtain ⟨⟨ba, hca⟩, hla, ra, hloga, hra⟩ := read_loop_inv fuelA 0 sA _ a hA
  obtain ⟨⟨bb, hcb⟩, hlb, rb, hlogb, hrb⟩ := read_loop_inv fuelB 0 sB _ b hB
  obtain ⟨h1, h2, h3, h4, h5, h6, h7⟩ := hop
  have hshape : a = ⟨{ b.ctx with buffer := ba }, a.transport, b.loops, a.log⟩ := by
    cases a
    simp only [Sys.mk.injEq, and_true, true_and] at hca hla ⊢
    exact ⟨by rw [hca, hcb, hctx], by rw [hla, hlb, hloops]⟩
  obtain ⟨l, hl1, hl2, hl3, hl4⟩ := onerror_same b ba a.transport a.log
  rw [← hshape] at hl1 hl3 hl4
  obtain ⟨l2, hl5, hl6, -⟩ := onerror_log a
  have hll : l2 = l := List.append_cancel_left (hl5.symm.trans hl1)
  subst hll
  refine ⟨⟨ka, ha1, ha3 rfl⟩, ⟨kb, hb1, ?_⟩, ?_, ?_, ?_, ⟨l2, hl1, hl2, hl6, ?_, ?_⟩, ?_, hl4⟩
  · intro i hi
    rcases Nat.lt_or_eq_of_le hi with h | h
    · exact hb2 i h
    · rw [h]; exact (hb4 d rfl).1
  · simp only [_aos_ws_client_poll_loop, hA]
  · simp only [_aos_ws_client_poll_loop, hB, poll_dispatch]
    simp [h1, h2, h3, h4, h5, h6, h7]
  · rw [onerror_no_data, hloga, data_calls_append, reads_no_data ra hra, List.append_nil]
  · rw [hl1, hloga, events_append, events_append, (reads_silent ra hra).1, List.append_nil]
  · rw [hl2, hlogb, events_append, events_append, (reads_silent rb hrb).1, List.append_nil]
  · rw [hl3]

/-- The second part of the constructor only appends to the calls made so far. -/
theorem alloc_ws_log (env : alloc_outcomes) (complete : aos_ws_client_config_t)
    (log : List AllocAction) :
    ∃ rest, (aos_ws_client_alloc_ws env complete log).2 = log ++ rest := by
  simp only [aos_ws_client_alloc_ws, aos_ws_client_alloc_err]
  split_ifs <;> simp

/-- C20: when host, on_data or event_handler is missing from the
configuration, `aos_ws_client_alloc` returns NULL and its only external calls are
the five release calls of the error exit, each on a NULL pointer: nothing has
been allocated (no context, buffer, task or transport). When the three are
present the constructor goes on to allocate the context, the buffer and the
task, so validation did not reject the configuration; and when moreover the mode
is SECURE, SECURE_TEST or INSECURE and every allocation and registration
succeeds, it returns the task, whose context is the zero-filled context with the
completed configuration and a zero-filled buffer. -/
theorem alloc_rejects_incomplete_config (k : sdkconfig) (env : alloc_outcomes)
    (config : aos_ws_client_config_t) :
    ((config.host = none ∨ config.on_data = none ∨ config.event_handler = none) →
      aos_ws_client_alloc k env config
        = (none, [AllocAction.esp_transport_destroy false, AllocAction.esp_transport_destroy false,
            AllocAction.free false, AllocAction.free false, AllocAction.aos_task_free false])) ∧
    (config.host ≠ none → config.on_data ≠ none → config.event_handler ≠ none →
      (∃ rest, (aos_ws_client_alloc k env config).2
        = [AllocAction.calloc_ctx,
            AllocAction.calloc_buffer (complete_config k config).buffer_size,
            AllocAction.aos_task_alloc (complete_config k config).stacksize
              (complete_config k config).queuesize (complete_config k config).priority
              (complete_config k config).name] ++ rest) ∧
      ((config.mode = AOS_WS_CLIENT_MODE_SECURE ∨ config.mode = AOS_WS_CLIENT_MODE_SECURE_TEST ∨
          config.mode = AOS_WS_CLIENT_MODE_INSECURE) →
        env.calloc_ctx = true → env.calloc_buffer = true → env.aos_task_alloc = true →
        env.esp_transport_ssl_init = true → env.esp_transport_tcp_init = true →
        env.esp_transport_ws_init = true → env.esp_transport_ws_set_config = true →
        (∀ evt, env.aos_task_handler_set evt = true) →
        (aos_ws_client_alloc k env config).1 = some (initial_ctx (complete_config k config)))) := by
  constructor
  · intro h
    have : config.host.isNone = true ∨ config.event_handler.isNone = true
        ∨ config.on_data.isNone = true := by
      rcases h with h | h | h <;> simp [h]
    simp only [aos_ws_client_alloc, this, if_true, aos_ws_client_alloc_err, List.nil_append]
  · intro h1 h2 h3
    have hv : ¬ (config.host.isNone = true ∨ config.event_handler.isNone = true
        ∨ config.on_data.isNone = true) := by
      cases hh : config.host <;> cases he : config.event_handler <;> cases hd : config.on_data <;>
        simp_all
    constructor
    · simp only [aos_ws_client_alloc, hv, if_false]
      split_ifs <;> first
        | (simp [aos_ws_client_alloc_err]; done)
        | (obtain ⟨rest, hrest⟩ := alloc_ws_log env (complete_config k config) _
           rw [hrest]
           simp)
    · intro hm e1 e2 e3 e4 e5 e6 e7 e8
      have hmode : (complete_config k config).mode = config.mode := by
        rcases hm with hm | hm | hm <;>
          simp [complete_config, hm, AOS_WS_CLIENT_MODE_SECURE, AOS_WS_CLIENT_MODE_SECURE_TEST,
            AOS_WS_CLIENT_MODE_INSECURE]
      rcases hm with hm | hm | hm <;>
        simp [aos_ws_client_alloc, h1, h2, h3, aos_ws_client_alloc_ws, hmode, hm, e1, e2, e3, e4,
          e5, e6, e7, e8, AOS_WS_CLIENT_MODE_SECURE, AOS_WS_CLIENT_MODE_SECURE_TEST,
          AOS_WS_CLIENT_MODE_INSECURE]

/-! ## Instances -/

theorem send_when_not_connected_witness :
    (initial example_config quiet_transport).ctx.state ≠ CONNECTED ∧
    _aos_ws_client_handler_send_text 7 [104, 105, 0] (initial example_config quiet_transport)
      = (initial example_config quiet_transport).emit (Action.aos_resolve 7 (some 1)) ∧
    _aos_ws_client_handler_send_binary 7 [104, 105, 0] 3
        (after_connect example_config refusing_transport)
      = (after_connect example_config refusing_transport).emit (Action.aos_resolve 7 (some 1)) :=
  ⟨by decide,
   (send_when_not_connected 7 [104, 105, 0] 3 (initial example_config quiet_transport)
      (by decide)).1,
   (send_when_not_connected 7 [104, 105, 0] 3 (after_connect example_config refusing_transport)
      (by decide)).2.1⟩

theorem connect_from_disconnected_witness :
    (initial example_config quiet_transport).ctx.state = DISCONNECTED ∧
    0 ≤ (initial example_config quiet_transport).transport.connect_ret
      (initial example_config quiet_transport).transport.connects ∧
    ∃ x : Sys,
      x.log = [Action.aos_task_loop_unset none, Action.aos_task_loop_unset none,
        Action.esp_transport_connect (some "ws.postman-echo.com") 443 3000] ∧
      x.ctx.state = CONNECTED ∧ x.ctx.connection_attempt = 0 ∧ x.ctx.reconnection_attempt = 0 ∧
      x.ctx.connect_future = none ∧
      _aos_ws_client_handler_connect 1 0 (initial example_config quiet_transport)
        = _aos_ws_client_poll_loop 1
          { x with
            ctx := { x.ctx with poll_loop := some ⟨LoopFn._aos_ws_client_poll_loop, 1⟩ },
            loops := x.loops ++ [⟨LoopFn._aos_ws_client_poll_loop, 1⟩],
            log := x.log ++ [Action.aos_resolve 0 (some 0),
              Action.aos_task_loop_set ⟨LoopFn._aos_ws_client_poll_loop, 1⟩] } :=
  ⟨by rfl, by decide,
   (connect_from_disconnected 1 0 (initial example_config quiet_transport) (by rfl)
      (by decide)).imp
     (fun _ h => ⟨h.1, h.2.1, h.2.2.1, h.2.2.2.1, h.2.2.2.2.1, h.2.2.2.2.2.2.2⟩)⟩

theorem connect_when_connected_witness :
    (after_connect example_config quiet_transport).ctx.state = CONNECTED ∧
    ∃ s1, _aos_ws_client_handler_connect 1 5 (after_connect example_config quiet_transport)
        = some s1 ∧
      s1.log = (after_connect example_config quiet_transport).log
        ++ [Action.aos_resolve 5 (some 0)] ∧
      s1.ctx.state = CONNECTED ∧
      s1.loops = (after_connect example_config quiet_transport).loops :=
  ⟨by rfl,
   (connect_when_connected 1 5 (after_connect example_config quiet_transport) (by rfl)).imp
     (fun _ h => ⟨h.1, h.2.1, h.2.2.2.1, h.2.2.2.2.2.2.1⟩)⟩

theorem disconnect_when_disconnected_witness :
    (initial example_config quiet_transport).ctx.state = DISCONNECTED ∧
    _aos_ws_client_handler_disconnect 4 (initial example_config quiet_transport)
      = (initial example_config quiet_transport).emit (Action.aos_resolve 4 none) ∧
    (_aos_ws_client_handler_disconnect 5 (_aos_ws_client_handler_disconnect 4
        (after_connect example_config quiet_transport))).ctx
      = (_aos_ws_client_handler_disconnect 4
        (after_connect example_config quiet_transport)).ctx :=
  ⟨by rfl,
   ((disconnect_when_disconnected 4 5 (initial example_config quiet_transport)).1 (by rfl)).1,
   (disconnect_when_disconnected 4 5 (after_connect example_config quiet_transport)).2.1⟩

theorem connect_then_disconnect_witness :
    _aos_ws_client_handler_connect 1 0 (initial example_config quiet_transport)
      = some (after_connect example_config quiet_transport) ∧
    (after_connect example_config quiet_transport).ctx.state = CONNECTED ∧
    (_aos_ws_client_handler_disconnect 1
      (after_connect example_config quiet_transport)).ctx.state = DISCONNECTED ∧
    (_aos_ws_client_handler_disconnect 1
      (after_connect example_config quiet_transport)).ctx.connection_attempt = 0 ∧
    (_aos_ws_client_handler_disconnect 1
      (after_connect example_config quiet_transport)).ctx.reconnection_attempt = 0 :=
  ⟨by rfl, by rfl,
   (connect_then_disconnect 1 0 1 (initial example_config quiet_transport)
      (after_connect example_config quiet_transport) (by rfl)).1,
   ((connect_then_disconnect 1 0 1 (initial example_config quiet_transport)
      (after_connect example_config quiet_transport) (by rfl)).2.2.2 (by rfl)).2⟩

/-- Once the two chunks have arrived `data_len` stays at 8. -/
theorem two_chunks_settled : ∀ (j r : Nat), 3 ≤ r → data_len_before two_chunks r 8 j = 8 := by
  intro j
  induction j with
  | zero => intro r _; rfl
  | succ j ih =>
    intro r hr
    have h0 : two_chunks r = 0 := by
      simp only [two_chunks]
      rw [if_neg (by omega), if_neg (by omega)]
    rw [data_len_before, h0]
    exact ih (r + 1) (by omega)

/-- Value of `data_len` before each read of the tick in which the two chunks arrive. -/
theorem two_chunks_before (i : Nat) :
    data_len_before two_chunks 1 0 i = if i = 0 then 0 else if i = 1 then 5 else 8 := by
  rcases i with _ | _ | j
  · rfl
  · rfl
  · rw [if_neg (by omega), if_neg (by omega)]
    exact two_chunks_settled j 3 (le_refl _)

/-- The reads of the first poll tick on `ping_transport` deliver the PING payload. -/
theorem ping_delivers :
    delivers_payload [1, 2, 3, 4, 5, 6, 7, 8, 9, 10, 11, 12]
      (after_connect example_config ping_transport) := by
  unfold delivers_payload
  intro i hi
  have hr : (after_connect example_config ping_transport).transport.read_ret = two_chunks := rfl
  have hn : (after_connect example_config ping_transport).transport.reads = 1 := rfl
  have hb : (after_connect example_config ping_transport).ctx.config.buffer_size = 8 := rfl
  have hd : (after_connect example_config ping_transport).transport.read_data
      = fun n => if n = 1 then [1, 2, 3, 4, 5] else if n = 2 then [6, 7, 8] else [] := rfl
  have hp : (after_connect example_config ping_transport).transport.read_payload_len
      = fun n => if 2 ≤ n then 12 else 0 := rfl
  rw [hr, hn, hb] at hi
  rw [hr, hn, hb, hd, hp]
  rw [two_chunks_before] at hi ⊢
  rcases i with _ | _ | j
  · simp [two_chunks]
  · simp [two_chunks]
  · simp at hi

/-- The reads of the first poll tick on `oversize_text_transport` fill the buffer. -/
theorem oversize_text_reads (i : Nat)
    (hi : data_len_before (after_connect example_config oversize_text_transport).transport.read_ret
        (after_connect example_config oversize_text_transport).transport.reads 0 i
      < (after_connect example_config oversize_text_transport).ctx.config.buffer_size) :
    1 ≤ (after_connect example_config oversize_text_transport).transport.read_ret
        ((after_connect example_config oversize_text_transport).transport.reads + i) ∧
    ((after_connect example_config oversize_text_transport).transport.read_ret
        ((after_connect example_config oversize_text_transport).transport.reads + i)).toNat
      ≤ (after_connect example_config oversize_text_transport).ctx.config.buffer_size
        - data_len_before (after_connect example_config oversize_text_transport).transport.read_ret
            (after_connect example_config oversize_text_transport).transport.reads 0 i ∧
    (after_connect example_config oversize_text_transport).ctx.config.buffer_size
      < ((after_connect example_config oversize_text_transport).transport.read_payload_len
          ((after_connect example_config oversize_text_transport).transport.reads + i + 1)
          % 2 ^ 32).toNat := by
  have hr : (after_connect example_config oversize_text_transport).transport.read_ret
      = two_chunks := rfl
  have hn : (after_connect example_config oversize_text_transport).transport.reads = 1 := rfl
  have hb : (after_connect example_config oversize_text_transport).ctx.config.buffer_size
      = 8 := rfl
  have hp : (after_connect example_config oversize_text_transport).transport.read_payload_len
      = fun n => if 2 ≤ n then 12 else 0 := rfl
  rw [hr, hn, hb] at hi
  rw [hr, hn, hb, hp]
  rw [two_chunks_before] at hi ⊢
  rcases i with _ | _ | j
  · simp [two_chunks]
  · simp [two_chunks]
  · simp at hi

theorem ping_answered_with_truncated_pong_witness :
    (after_connect example_config ping_transport).ctx.state = CONNECTED ∧
    ∃ s1 s2, read_loop 9 0 (after_connect example_config ping_transport) = some (some 8, s1) ∧
      s1.ctx.buffer = [1, 2, 3, 4, 5, 6, 7, 8] ∧
      _aos_ws_client_poll_loop 9 (after_connect example_config ping_transport) = some s2 ∧
      s2.log = s1.log ++ [Action.esp_transport_ws_send_raw
        (WS_TRANSPORT_OPCODES_PONG ||| WS_TRANSPORT_OPCODES_FIN) [1, 2, 3, 4, 5, 6, 7, 8] 8 3000] ∧
      s2.ctx.state = CONNECTED := by
  refine ⟨rfl, ?_⟩
  obtain ⟨s1, h1, -, -, h4⟩ := ping_answered_with_truncated_pong 9
    [1, 2, 3, 4, 5, 6, 7, 8, 9, 10, 11, 12] (after_connect example_config ping_transport)
    (by rfl) (by decide) (by decide) (by rfl) ping_delivers (by decide)
  have e : read_loop 9 0 (after_connect example_config ping_transport)
      = some (some 8, ((read_loop 9 0 (after_connect example_config ping_transport)).getD
          (none, after_connect example_config ping_transport)).2) := by rfl
  have hs : ((read_loop 9 0 (after_connect example_config ping_transport)).getD
      (none, after_connect example_config ping_transport)).2 = s1 := by
    have := e.symm.trans h1
    simp only [Option.some.injEq, Prod.mk.injEq] at this
    exact this.2
  subst hs
  obtain ⟨s2, l, hp, hlog, -, hok⟩ := h4 (by rfl)
  obtain ⟨hl, hst, -⟩ := hok (by decide)
  refine ⟨_, s2, e, by rfl, hp, ?_, hst⟩
  rw [hlog, hl, List.append_nil]
  rfl

theorem oversize_frame_fills_buffer_witness :
    1 ≤ (after_connect example_config oversize_text_transport).ctx.config.buffer_size ∧
    ∃ s1, read_loop 9 0 (after_connect example_config oversize_text_transport)
        = some (some 8, s1) ∧
      s1.ctx.buffer = [1, 2, 3, 4, 5, 6, 7, 8] ∧
      _aos_ws_client_poll_loop 9 (after_connect example_config oversize_text_transport)
        = some (s1.emit (Action.on_data s1.ctx.buffer 8)) := by
  refine ⟨by decide, ?_⟩
  obtain ⟨s1, h1, -, h3⟩ := oversize_frame_fills_buffer 9
    (after_connect example_config oversize_text_transport) (by decide) (by decide)
    oversize_text_reads (by decide)
  have e : read_loop 9 0 (after_connect example_config oversize_text_transport)
      = some (some 8, ((read_loop 9 0 (after_connect example_config oversize_text_transport)).getD
          (none, after_connect example_config oversize_text_transport)).2) := by rfl
  have hs : ((read_loop 9 0 (after_connect example_config oversize_text_transport)).getD
      (none, after_connect example_config oversize_text_transport)).2 = s1 := by
    have := e.symm.trans h1
    simp only [Option.some.injEq, Prod.mk.injEq] at this
    exact this.2
  subst hs
  exact ⟨_, e, by rfl, (h3 (Or.inr (Or.inl (by rfl)))).1⟩

theorem on_data_iff_data_frame_witness :
    _aos_ws_client_poll_loop 9 (after_connect example_config oversize_text_transport)
      = some (after 9 example_config oversize_text_transport
          [Input.AOS_WS_CLIENT_TASKEVT_CONNECT 0, Input.poll_tick]) ∧
    data_calls (after 9 example_config oversize_text_transport
        [Input.AOS_WS_CLIENT_TASKEVT_CONNECT 0, Input.poll_tick]).log
      = [([1, 2, 3, 4, 5, 6, 7, 8], 8)] ∧
    ∃ k res s1, read_loop 9 0 (after_connect example_config oversize_text_transport)
        = some (res, s1) ∧
      s1.transport.reads
        = (after_connect example_config oversize_text_transport).transport.reads + (k + 1) ∧
      (data_calls (after 9 example_config oversize_text_transport
          [Input.AOS_WS_CLIENT_TASKEVT_CONNECT 0, Input.poll_tick]).log
        ≠ data_calls (after_connect example_config oversize_text_transport).log ↔
        (∀ i, i ≤ k →
          0 ≤ (after_connect example_config oversize_text_transport).transport.read_ret
            ((after_connect example_config oversize_text_transport).transport.reads + i)) ∧
        (esp_transport_ws_get_read_opcode s1 = WS_TRANSPORT_OPCODES_CONT ∨
          esp_transport_ws_get_read_opcode s1 = WS_TRANSPORT_OPCODES_TEXT ∨
          esp_transport_ws_get_read_opcode s1 = WS_TRANSPORT_OPCODES_BINARY)) := by
  refine ⟨by rfl, by rfl, ?_⟩
  obtain ⟨k, res, s1, h1, h2, h3, -⟩ := on_data_iff_data_frame 9
    (after_connect example_config oversize_text_transport)
    (after 9 example_config oversize_text_transport
      [Input.AOS_WS_CLIENT_TASKEVT_CONNECT 0, Input.poll_tick]) (by rfl)
  exact ⟨k, res, s1, h1, h2, h3⟩

theorem read_error_like_unknown_opcode_witness :
    read_loop 1 0 (after_connect example_config read_error_transport)
      = some (none, (esp_transport_read 0 8 100
          (after_connect example_config read_error_transport)).2) ∧
    read_loop 1 0 (after_connect example_config unknown_opcode_transport)
      = some (some 0, (esp_transport_read 0 8 100
          (after_connect example_config unknown_opcode_transport)).2) ∧
    (after_connect example_config read_error_transport).ctx
      = (after_connect example_config unknown_opcode_transport).ctx ∧
    _aos_ws_client_poll_loop 1 (after_connect example_config read_error_transport)
      = some (_aos_ws_client_onerror (esp_transport_read 0 8 100
          (after_connect example_config read_error_transport)).2) ∧
    _aos_ws_client_poll_loop 1 (after_connect example_config unknown_opcode_transport)
      = some (_aos_ws_client_onerror (esp_transport_read 0 8 100
          (after_connect example_config unknown_opcode_transport)).2) ∧
    (_aos_ws_client_onerror (esp_transport_read 0 8 100
        (after_connect example_config read_error_transport)).2).loops
      = (_aos_ws_client_onerror (esp_transport_read 0 8 100
        (after_connect example_config unknown_opcode_transport)).2).loops ∧
    events (_aos_ws_client_onerror (esp_transport_read 0 8 100
        (after_connect example_config read_error_transport)).2).log
      = [AOS_WS_CLIENT_EVENT_RECONNECTING] ∧
    events (_aos_ws_client_onerror (esp_transport_read 0 8 100
        (after_connect example_config unknown_opcode_transport)).2).log
      = [AOS_WS_CLIENT_EVENT_RECONNECTING] :=
  ⟨by rfl, by rfl, by rfl,
   (read_error_like_unknown_opcode 1 1 0
      (after_connect example_config read_error_transport)
      (after_connect example_config unknown_opcode_transport) _ _ (by rfl) (by rfl)
      (by decide) (by rfl) (by rfl)).2.2.1,
   (read_error_like_unknown_opcode 1 1 0
      (after_connect example_config read_error_transport)
      (after_connect example_config unknown_opcode_transport) _ _ (by rfl) (by rfl)
      (by decide) (by rfl) (by rfl)).2.2.2.1,
   (read_error_like_unknown_opcode 1 1 0
      (after_connect example_config read_error_transport)
      (after_connect example_config unknown_opcode_transport) _ _ (by rfl) (by rfl)
      (by decide) (by rfl) (by rfl)).2.2.2.2.2.2.2,
   by rfl, by rfl⟩

theorem alloc_rejects_incomplete_config_witness :
    aos_ws_client_alloc example_sdkconfig all_succeed { minimal_config with host := none }
      = (none, [AllocAction.esp_transport_destroy false, AllocAction.esp_transport_destroy false,
          AllocAction.free false, AllocAction.free false, AllocAction.aos_task_free false]) ∧
    (aos_ws_client_alloc example_sdkconfig all_succeed minimal_config).1
      = some (initial_ctx (complete_config example_sdkconfig minimal_config)) ∧
    (complete_config example_sdkconfig minimal_config).buffer_size = 1024 :=
  ⟨(alloc_rejects_incomplete_config example_sdkconfig all_succeed
      { minimal_config with host := none }).1 (Or.inl rfl),
   ((alloc_rejects_incomplete_config example_sdkconfig all_succeed minimal_config).2
      (by decide) (by decide) (by decide)).2 (Or.inl rfl) rfl rfl rfl rfl rfl rfl rfl (fun _ => rfl),
   by rfl⟩

/-! ## Invariants of the reachable states -/

/-- C25: in every state reachable from a freshly allocated client by commands,
poll ticks and retry ticks, whatever the transport answers, one of the two loop
handles of the context is null, and the runtime never has both the poll loop
and the retry loop registered. -/
theorem at_most_one_loop_armed (s : Sys) (h : Reachable s) :
    (s.ctx.poll_loop = none ∨ s.ctx.retry_loop = none) ∧
    ¬ (armed LoopFn._aos_ws_client_poll_loop s = true ∧
      armed LoopFn._aos_ws_client_retry_loop s = true) := by
  have hi := reachable_inv h
  obtain ⟨ha1, ha2⟩ := armed_iff hi
  obtain ⟨-, -, -, h4, -⟩ := hi
  constructor
  · by_cases hr : s.ctx.retry_loop = none
    · exact Or.inr hr
    · exact Or.inl (h4 hr)
  · rintro ⟨hp, hr⟩
    exact (ha1.mp hp) (h4 (ha2.mp hr))

theorem at_most_one_loop_armed_witness :
    Reachable (after_connect example_config refusing_transport) ∧
    (after_connect example_config refusing_transport).ctx.poll_loop = none ∧
    (after_connect example_config refusing_transport).ctx.retry_loop
      = some ⟨LoopFn._aos_ws_client_retry_loop, 3000⟩ ∧
    ¬ (armed LoopFn._aos_ws_client_poll_loop (after_connect example_config refusing_transport)
        = true ∧
      armed LoopFn._aos_ws_client_retry_loop (after_connect example_config refusing_transport)
        = true) :=
  ⟨reachable_after 1 example_config refusing_transport _, by rfl, by rfl,
   (at_most_one_loop_armed (after_connect example_config refusing_transport)
      (reachable_after 1 example_config refusing_transport _)).2⟩

/-- C26: in every reachable state (every handler has run to its end), a
non-null connect future implies that the state is CONNECTING or RECONNECTING;
it is in fact CONNECTING. -/
theorem connect_future_pending_state (s : Sys) (h : Reachable s)
    (hf : s.ctx.connect_future ≠ none) :
    (s.ctx.state = CONNECTING ∨ s.ctx.state = RECONNECTING) ∧ s.ctx.state = CONNECTING := by
  obtain ⟨-, -, -, -, -, -, -, -, h9⟩ := reachable_inv h
  exact ⟨Or.inl (h9.mpr hf), h9.mpr hf⟩

theorem connect_future_pending_state_witness :
    Reachable (after_connect example_config refusing_transport) ∧
    (after_connect example_config refusing_transport).ctx.connect_future = some 0 ∧
    (after_connect example_config refusing_transport).ctx.state = CONNECTING :=
  ⟨reachable_after 1 example_config refusing_transport _, by rfl,
   (connect_future_pending_state (after_connect example_config refusing_transport)
      (reachable_after 1 example_config refusing_transport _) (by decide)).2⟩

/-- C28: in every reachable state (every handler has run to its end), if the
poll loop is armed (its handle is stored in the context, or equivalently the
runtime has it registered) then the state is CONNECTED. -/
theorem poll_armed_only_connected (s : Sys) (h : Reachable s) :
    (s.ctx.poll_loop ≠ none → s.ctx.state = CONNECTED) ∧
    (armed LoopFn._aos_ws_client_poll_loop s = true → s.ctx.state = CONNECTED) := by
  have hi := reachable_inv h
  obtain ⟨ha1, -⟩ := armed_iff hi
  obtain ⟨-, -, -, -, -, -, h7, -⟩ := hi
  exact ⟨h7, fun hp => h7 (ha1.mp hp)⟩

theorem poll_armed_only_connected_witness :
    Reachable (after_connect example_config quiet_transport) ∧
    armed LoopFn._aos_ws_client_poll_loop (after_connect example_config quiet_transport) = true ∧
    (after_connect example_config quiet_transport).ctx.state = CONNECTED :=
  ⟨reachable_after 1 example_config quiet_transport _, by rfl,
   (poll_armed_only_connected (after_connect example_config quiet_transport)
      (reachable_after 1 example_config quiet_transport _)).2 (by rfl)⟩

/-! ## Counters and budgets -/

theorem u32_le (n : Nat) : u32 n ≤ n := Nat.mod_le _ _

/-- The error handler establishes the invariant of the counters, provided the
reconnection counter is 0 when a connect future is pending. -/
theorem onerror_counters (s : Sys)
    (h : s.ctx.connect_future ≠ none → s.ctx.reconnection_attempt = 0) :
    CountersInv (_aos_ws_client_onerror s) := by
  cases hst : s.ctx.state <;> cases hf : s.ctx.connect_future <;>
    simp [hf] at h <;>
    simp [CountersInv, _aos_ws_client_onerror, _aos_ws_client_disconnect, aos_task_loop_unset,
      aos_task_loop_set, hst, hf, esp_transport_ws_send_raw, Sys.emit] <;>
    split <;> (try split) <;>
    simp [hst, hf, h, u32] at * <;>
    omega

/-- The invariant of the counters only reads the context. -/
theorem counters_of_ctx {s s1 : Sys} (h : CountersInv s) (hc : s1.ctx = s.ctx) :
    CountersInv s1 := by
  simpa [CountersInv, hc] using h

/-- With no retry loop armed the invariant of the counters is its first part. -/
theorem counters_of_unarmed {s : Sys}
    (h : s.ctx.connect_future ≠ none → s.ctx.reconnection_attempt = 0)
    (hr : s.ctx.retry_loop = none) : CountersInv s :=
  ⟨h, fun h1 => absurd hr h1, fun h1 => absurd hr h1⟩

theorem poll_dispatch_counters (d : Nat) (s : Sys)
    (h : s.ctx.connect_future ≠ none → s.ctx.reconnection_attempt = 0)
    (hr : s.ctx.retry_loop = none) : CountersInv (poll_dispatch d s) := by
  simp only [poll_dispatch]
  split
  · exact counters_of_unarmed h hr
  · split
    · split
      · exact onerror_counters _ h
      · exact counters_of_unarmed h hr
    · split
      · exact counters_of_unarmed h hr
      · split
        · refine counters_of_unarmed ?_ ?_
          · simpa [Sys.emit, disconnect_ctx] using h
          · simp [Sys.emit, disconnect_ctx]
        · split
          · exact counters_of_unarmed h hr
          · exact onerror_counters _ h

theorem poll_loop_counters {fuel : Nat} {s s1 : Sys}
    (h : s.ctx.connect_future ≠ none → s.ctx.reconnection_attempt = 0)
    (hr : s.ctx.retry_loop = none)
    (hp : _aos_ws_client_poll_loop fuel s = some s1) : CountersInv s1 := by
  simp only [_aos_ws_client_poll_loop] at hp
  split at hp
  · simp at hp
  · rename_i s2 hl
    simp only [Option.some.injEq] at hp
    subst hp
    obtain ⟨⟨b, hb⟩, -, -⟩ := read_loop_inv _ _ _ _ _ hl
    exact onerror_counters _ (by simpa [hb] using h)
  · rename_i d s2 hl
    simp only [Option.some.injEq] at hp
    subst hp
    obtain ⟨⟨b, hb⟩, -, -⟩ := read_loop_inv _ _ _ _ _ hl
    exact poll_dispatch_counters _ _ (by simpa [hb] using h) (by simp [hb, hr])

theorem retry_loop_counters {fuel : Nat} {s s1 : Sys} (h : CountersInv s)
    (hp : _aos_ws_client_retry_loop fuel s = some s1) : CountersInv s1 := by
  simp only [_aos_ws_client_retry_loop] at hp
  split at hp
  · simp only [Option.some.injEq] at hp
    subst hp
    exact onerror_counters _ (by simpa [esp_transport_connect] using h.1)
  · refine poll_loop_counters ?_ ?_ hp
    · cases hf : s.ctx.connect_future <;>
        by_cases hra : s.ctx.reconnection_attempt = 0 <;>
        simp [retry_loop_connected, esp_transport_connect, aos_task_loop_unset,
          aos_task_loop_set, Sys.emit, hf, hra]
    · cases hf : s.ctx.connect_future <;>
        by_cases hra : s.ctx.reconnection_attempt = 0 <;>
        simp [retry_loop_connected, esp_transport_connect, aos_task_loop_unset,
          aos_task_loop_set, Sys.emit, hf, hra]

theorem handler_connect_counters {fuel future : Nat} {s s1 : Sys} (hi : Inv s)
    (hp : _aos_ws_client_handler_connect fuel future s = some s1) : CountersInv s1 := by
  by_cases hst : s.ctx.state = CONNECTED
  · obtain ⟨-, -, h3, -, -, -, -, h8, -⟩ := hi
    have hr : s.ctx.retry_loop = none := by
      by_contra hne
      rcases h8.mp hne with h | h <;> simp [hst] at h
    simp only [_aos_ws_client_handler_connect, hst, Option.some.injEq] at hp
    subst hp
    exact counters_of_unarmed (by simp [Sys.emit]) (by simpa [Sys.emit] using hr)
  · have hprep : (handler_connect_prepare future s).ctx.reconnection_attempt = 0 := by
      simp [handler_connect_prepare]
    have hp2 : (if (esp_transport_connect (handler_connect_prepare future s).ctx.config.host
          (handler_connect_prepare future s).ctx.config.port
          (handler_connect_prepare future s).ctx.config.send_timeout_ms
          (handler_connect_prepare future s)).1 < 0
        then some (_aos_ws_client_onerror (esp_transport_connect
          (handler_connect_prepare future s).ctx.config.host
          (handler_connect_prepare future s).ctx.config.port
          (handler_connect_prepare future s).ctx.config.send_timeout_ms
          (handler_connect_prepare future s)).2)
        else _aos_ws_client_poll_loop fuel (handler_connect_connected future
          (esp_transport_connect (handler_connect_prepare future s).ctx.config.host
          (handler_connect_prepare future s).ctx.config.port
          (handler_connect_prepare future s).ctx.config.send_timeout_ms
          (handler_connect_prepare future s)).2)) = some s1 := by
      cases h : s.ctx.state <;> simp [h] at hst <;>
        simpa [_aos_ws_client_handler_connect, h] using hp
    split at hp2
    · simp only [Option.some.injEq] at hp2
      subst hp2
      exact onerror_counters _ (fun _ => by simpa [esp_transport_connect] using hprep)
    · refine poll_loop_counters ?_ ?_ hp2
      · simp [handler_connect_connected, aos_task_loop_set, Sys.emit]
      · simp [handler_connect_connected, aos_task_loop_set, Sys.emit, esp_transport_connect,
          handler_connect_prepare, resolve_connect_future, disconnect_ctx]
        cases s.ctx.connect_future <;> simp [Sys.emit, disconnect_ctx]

theorem handler_disconnect_counters (future : Nat) {s : Sys} (h : CountersInv s) :
    CountersInv (_aos_ws_client_handler_disconnect future s) := by
  by_cases hst : s.ctx.state = DISCONNECTED
  · exact counters_of_ctx h (by simp [_aos_ws_client_handler_disconnect, hst, Sys.emit])
  · refine counters_of_unarmed ?_ ?_ <;>
      cases h1 : s.ctx.state <;> simp [h1] at hst <;>
      cases hf : s.ctx.connect_future <;>
      simp [_aos_ws_client_handler_disconnect, resolve_connect_future, disconnect_ctx, Sys.emit,
        h1, hf]

theorem handler_send_text_counters (future : Nat) (in_data : List Nat) {s : Sys}
    (h : CountersInv s) : CountersInv (_aos_ws_client_handler_send_text future in_data s) := by
  simp only [_aos_ws_client_handler_send_text]
  split
  · split
    · exact counters_of_ctx (onerror_counters (esp_transport_ws_send_raw
          (WS_TRANSPORT_OPCODES_TEXT ||| WS_TRANSPORT_OPCODES_FIN) in_data (strlen in_data)
          s.ctx.config.send_timeout_ms s).2
        (by simpa [esp_transport_ws_send_raw] using h.1)) (by simp [Sys.emit])
    · exact counters_of_ctx h (by simp [Sys.emit, esp_transport_ws_send_raw])
  · exact counters_of_ctx h (by simp [Sys.emit])

theorem handler_send_binary_counters (future : Nat) (in_data : List Nat) (in_data_len : Nat)
    {s : Sys} (h : CountersInv s) :
    CountersInv (_aos_ws_client_handler_send_binary future in_data in_data_len s) := by
  simp only [_aos_ws_client_handler_send_binary]
  split
  · split
    · exact counters_of_ctx (onerror_counters (esp_transport_ws_send_raw
          (WS_TRANSPORT_OPCODES_BINARY ||| WS_TRANSPORT_OPCODES_FIN) in_data in_data_len
          s.ctx.config.send_timeout_ms s).2
        (by simpa [esp_transport_ws_send_raw] using h.1)) (by simp [Sys.emit])
    · exact counters_of_ctx h (by simp [Sys.emit, esp_transport_ws_send_raw])
  · exact counters_of_ctx h (by simp [Sys.emit])

theorem step_counters {fuel : Nat} {s s1 : Sys} {i : Input} (hi : Inv s) (h : CountersInv s)
    (hs : step fuel s i = some s1) : CountersInv s1 := by
  cases i with
  | AOS_WS_CLIENT_TASKEVT_CONNECT f => exact handler_connect_counters hi hs
  | AOS_WS_CLIENT_TASKEVT_DISCONNECT f =>
    simp only [step, Option.some.injEq] at hs
    subst hs
    exact handler_disconnect_counters f h
  | AOS_WS_CLIENT_TASKEVT_SEND_TEXT f d =>
    simp only [step, Option.some.injEq] at hs
    subst hs
    exact handler_send_text_counters f d h
  | AOS_WS_CLIENT_TASKEVT_SEND_BINARY f d n =>
    simp only [step, Option.some.injEq] at hs
    subst hs
    exact handler_send_binary_counters f d n h
  | poll_tick =>
    simp only [step] at hs
    split at hs
    · rename_i harmed
      have hp : s.ctx.poll_loop ≠ none := (armed_iff hi).1.mp harmed
      obtain ⟨-, -, -, h4, -⟩ := hi
      have hr : s.ctx.retry_loop = none := by
        by_contra hne
        exact hp (h4 hne)
      exact poll_loop_counters h.1 hr hs
    · simp only [Option.some.injEq] at hs
      subst hs
      exact h
  | retry_tick =>
    simp only [step] at hs
    split at hs
    · exact retry_loop_counters h hs
    · simp only [Option.some.injEq] at hs
      subst hs
      exact h

theorem initial_counters (config : aos_ws_client_config_t) (transport : esp_transport_handle_t) :
    CountersInv (initial config transport) :=
  counters_of_unarmed (by simp [initial, initial_ctx]) (by simp [initial, initial_ctx])

theorem reachable_counters {s : Sys} (h : Reachable s) : CountersInv s := by
  induction h with
  | init config transport => exact initial_counters config transport
  | step fuel i hr hs ih => exact step_counters (reachable_inv hr) ih hs

/-- With no connect future pending the error handler resolves nothing and
does not emit RECONNECTED. -/
theorem onerror_quiet (s : Sys) (hf : s.ctx.connect_future = none) :
    ∃ l, (_aos_ws_client_onerror s).log = s.log ++ l ∧ resolutions l = [] ∧
      AOS_WS_CLIENT_EVENT_RECONNECTED ∉ events l := by
  cases hst : s.ctx.state <;>
    simp [_aos_ws_client_onerror, _aos_ws_client_disconnect, aos_task_loop_unset, aos_task_loop_set,
      hst, hf, esp_transport_ws_send_raw, Sys.emit] <;>
    split <;> (try split) <;>
    simp [events, resolutions, hst]

/-- With no connect future pending a poll tick resolves nothing and does not
emit RECONNECTED. -/
theorem poll_loop_quiet {fuel : Nat} {s s1 : Sys} (hf : s.ctx.connect_future = none)
    (hp : _aos_ws_client_poll_loop fuel s = some s1) :
    ∃ l, s1.log = s.log ++ l ∧ resolutions l = [] ∧
      AOS_WS_CLIENT_EVENT_RECONNECTED ∉ events l := by
  simp only [_aos_ws_client_poll_loop] at hp
  split at hp
  · simp at hp
  · rename_i s2 hl
    simp only [Option.some.injEq] at hp
    subst hp
    obtain ⟨⟨b, hb⟩, -, reads, hlog, hreads⟩ := read_loop_inv _ _ _ _ _ hl
    obtain ⟨l, h1, h2, h3⟩ := onerror_quiet s2 (by simp [hb, hf])
    obtain ⟨e1, e2, -, -⟩ := reads_silent reads hreads
    refine ⟨reads ++ l, by rw [h1, hlog, List.append_assoc], ?_, ?_⟩
    · rw [resolutions_append, e2, h2]; rfl
    · rw [events_append, e1]; simpa using h3
  · rename_i d s2 hl
    simp only [Option.some.injEq] at hp
    subst hp
    obtain ⟨⟨b, hb⟩, -, reads, hlog, hreads⟩ := read_loop_inv _ _ _ _ _ hl
    obtain ⟨e1, e2, -, -⟩ := reads_silent reads hreads
    have hf2 : s2.ctx.connect_future = none := by simp [hb, hf]
    have key : ∃ l, (poll_dispatch d s2).log = s2.log ++ l ∧ resolutions l = [] ∧
        AOS_WS_CLIENT_EVENT_RECONNECTED ∉ events l := by
      simp only [poll_dispatch]
      split
      · exact ⟨_, rfl, by simp [resolutions], by simp [events]⟩
      · split
        · split
          · obtain ⟨l, h1, h2, h3⟩ := onerror_quiet (esp_transport_ws_send_raw
              (WS_TRANSPORT_OPCODES_PONG ||| WS_TRANSPORT_OPCODES_FIN) s2.ctx.buffer d
              s2.ctx.config.send_timeout_ms s2).2 (by simpa [esp_transport_ws_send_raw] using hf2)
            refine ⟨Action.esp_transport_ws_send_raw
              (WS_TRANSPORT_OPCODES_PONG ||| WS_TRANSPORT_OPCODES_FIN) s2.ctx.buffer d
              s2.ctx.config.send_timeout_ms :: l, ?_, ?_, ?_⟩
            · rw [h1]; simp [esp_transport_ws_send_raw]
            · simpa [resolutions] using h2
            · simpa [events] using h3
          · exact ⟨_, rfl, by simp [resolutions], by simp [events]⟩
        · split
          · exact ⟨[], by simp, rfl, by simp [events]⟩
          · split
            · obtain ⟨l, h1, -, h3, h4, -⟩ := disconnect_log s2
              refine ⟨l ++ [Action.event_handler AOS_WS_CLIENT_EVENT_DISCONNECTED], ?_, ?_, ?_⟩
              · simp only [Sys.emit]; rw [h1, List.append_assoc]
              · rw [resolutions_append, h4]; rfl
              · rw [events_append, h3]; simp [events]
            · split
              · exact ⟨[], by simp, rfl, by simp [events]⟩
              · exact onerror_quiet s2 hf2
    obtain ⟨l, h1, h2, h3⟩ := key
    refine ⟨reads ++ l, by rw [h1, hlog, List.append_assoc], ?_, ?_⟩
    · rw [resolutions_append, e2, h2]; rfl
    · rw [events_append, e1]; simpa using h3

/-- C27 (refuted as stated): with reconnection_attempts = 1, after a CONNECT
that succeeds and whose immediate poll tick meets a read error the client is
RECONNECTING with the retry loop armed and no connect future, and
reconnection_attempt = 1 is not strictly below the budget 1. -/
theorem retry_armed_counter_reaches_budget :
    ¬ ∀ s : Sys, Reachable s → armed LoopFn._aos_ws_client_retry_loop s = true →
      (s.ctx.state = CONNECTING ∨ s.ctx.state = RECONNECTING) ∧
      (s.ctx.connect_future ≠ none →
        s.ctx.connection_attempt < s.ctx.config.connection_attempts) ∧
      (s.ctx.connect_future = none →
        s.ctx.reconnection_attempt < s.ctx.config.reconnection_attempts) := by
  intro h
  have h1 := (h (after_connect (reconnect_budget 1) failing_read_transport)
    (reachable_after 1 (reconnect_budget 1) failing_read_transport _) (by rfl)).2.2 (by rfl)
  exact absurd h1 (by decide)

/-- C27 (amended): in every reachable state (every handler has run to its
end), if the retry loop is armed then the state is CONNECTING or RECONNECTING
and the counter of the current episode is at most its budget:
connection_attempt <= connection_attempts when a connect future is pending,
reconnection_attempt <= reconnection_attempts otherwise. -/
theorem retry_armed_counter_within_budget (s : Sys) (h : Reachable s)
    (harmed : armed LoopFn._aos_ws_client_retry_loop s = true) :
    (s.ctx.state = CONNECTING ∨ s.ctx.state = RECONNECTING) ∧
    (s.ctx.connect_future ≠ none →
      s.ctx.connection_attempt ≤ s.ctx.config.connection_attempts) ∧
    (s.ctx.connect_future = none →
      s.ctx.reconnection_attempt ≤ s.ctx.config.reconnection_attempts) := by
  have hi := reachable_inv h
  have hr : s.ctx.retry_loop ≠ none := (armed_iff hi).2.mp harmed
  obtain ⟨-, -, -, -, -, -, -, h8, -⟩ := hi
  obtain ⟨-, c2, c3⟩ := reachable_counters h
  exact ⟨h8.mp hr, c2 hr, fun hf => (c3 hr hf).1⟩

theorem retry_armed_counter_within_budget_witness :
    Reachable (after_connect (reconnect_budget 1) failing_read_transport) ∧
    armed LoopFn._aos_ws_client_retry_loop
      (after_connect (reconnect_budget 1) failing_read_transport) = true ∧
    (after_connect (reconnect_budget 1) failing_read_transport).ctx.connect_future = none ∧
    (after_connect (reconnect_budget 1) failing_read_transport).ctx.reconnection_attempt
      ≤ (after_connect (reconnect_budget 1) failing_read_transport).ctx.config.reconnection_attempts ∧
    (after_connect (reconnect_budget 1) failing_read_transport).ctx.reconnection_attempt = 1 :=
  ⟨reachable_after 1 (reconnect_budget 1) failing_read_transport _, by rfl, by rfl,
   (retry_armed_counter_within_budget (after_connect (reconnect_budget 1) failing_read_transport)
      (reachable_after 1 (reconnect_budget 1) failing_read_transport _) (by rfl)).2.2 (by rfl),
   by rfl⟩

/-- C30: in every reachable state (every handler has run to its end) the
state is CONNECTING exactly when a connect future is stored, and the retry loop
is armed (handle stored, loop registered) exactly when the state is CONNECTING
or RECONNECTING; reconnection_attempts being a uint32_t, state RECONNECTING
implies reconnection_attempt >= 1. So on a retry tick delivered in such a state
whose connect succeeds, the success path does exactly one of two things between
the disarming of the retry loop and the arming of the poll loop: in state
CONNECTING it resolves the stored connect future with err=0 (no event), in state
RECONNECTING it emits RECONNECTED (no resolution). The tick is then the poll
tick run from there, which resolves nothing and does not emit RECONNECTED. -/
theorem state_determines_handles (fuel : Nat) (s : Sys) (h : Reachable s) :
    (s.ctx.state = CONNECTING ↔ s.ctx.connect_future ≠ none) ∧
    (s.ctx.retry_loop ≠ none ↔ (s.ctx.state = CONNECTING ∨ s.ctx.state = RECONNECTING)) ∧
    (armed LoopFn._aos_ws_client_retry_loop s = true ↔
      (s.ctx.state = CONNECTING ∨ s.ctx.state = RECONNECTING)) ∧
    (s.ctx.config.reconnection_attempts < 2 ^ 32 → s.ctx.state = RECONNECTING →
      1 ≤ s.ctx.reconnection_attempt) ∧
    (s.ctx.config.reconnection_attempts < 2 ^ 32 →
      armed LoopFn._aos_ws_client_retry_loop s = true →
      0 ≤ s.transport.connect_ret s.transport.connects →
      step fuel s Input.retry_tick = _aos_ws_client_poll_loop fuel
        (retry_loop_connected (esp_transport_connect s.ctx.config.host s.ctx.config.port
          s.ctx.config.send_timeout_ms s).2) ∧
      ((s.ctx.state = CONNECTING ∧ ∃ f, s.ctx.connect_future = some f ∧
          (retry_loop_connected (esp_transport_connect s.ctx.config.host s.ctx.config.port
            s.ctx.config.send_timeout_ms s).2).log = s.log ++
            [Action.esp_transport_connect s.ctx.config.host s.ctx.config.port
              s.ctx.config.send_timeout_ms,
             Action.aos_task_loop_unset s.ctx.retry_loop,
             Action.aos_resolve f (some 0),
             Action.aos_task_loop_set ⟨LoopFn._aos_ws_client_poll_loop, 1⟩]) ∨
        (s.ctx.state = RECONNECTING ∧ s.ctx.connect_future = none ∧
          (retry_loop_connected (esp_transport_connect s.ctx.config.host s.ctx.config.port
            s.ctx.config.send_timeout_ms s).2).log = s.log ++
            [Action.esp_transport_connect s.ctx.config.host s.ctx.config.port
              s.ctx.config.send_timeout_ms,
             Action.aos_task_loop_unset s.ctx.retry_loop,
             Action.event_handler AOS_WS_CLIENT_EVENT_RECONNECTED,
             Action.aos_task_loop_set ⟨LoopFn._aos_ws_client_poll_loop, 1⟩])) ∧
      (∀ s1, step fuel s Input.retry_tick = some s1 →
        ∃ l, s1.log = (retry_loop_connected (esp_transport_connect s.ctx.config.host
            s.ctx.config.port s.ctx.config.send_timeout_ms s).2).log ++ l ∧
          resolutions l = [] ∧ AOS_WS_CLIENT_EVENT_RECONNECTED ∉ events l)) := by
  have hi := reachable_inv h
  obtain ⟨-, ha2⟩ := armed_iff hi
  obtain ⟨-, -, -, -, -, -, -, h8, h9⟩ := hi
  obtain ⟨c1, -, c3⟩ := reachable_counters h
  have hrec : s.ctx.config.reconnection_attempts < 2 ^ 32 → s.ctx.state = RECONNECTING →
      1 ≤ s.ctx.reconnection_attempt := by
    intro hb hst
    have hf : s.ctx.connect_future = none := by
      by_contra hne
      have := h9.mpr hne
      simp [hst] at this
    exact (c3 (h8.mpr (Or.inr hst)) hf).2 hb
  refine ⟨h9, h8, ha2.trans h8, hrec, ?_⟩
  intro hb harmed hok
  have hnot : ¬ s.transport.connect_ret s.transport.connects < 0 := not_lt.mpr hok
  have hstep : step fuel s Input.retry_tick = _aos_ws_client_poll_loop fuel
      (retry_loop_connected (esp_transport_connect s.ctx.config.host s.ctx.config.port
        s.ctx.config.send_timeout_ms s).2) := by
    simp only [step, harmed, if_true, _aos_ws_client_retry_loop]
    simp [esp_transport_connect, hnot]
  refine ⟨hstep, ?_, ?_⟩
  · rcases h8.mp (ha2.mp harmed) with hst | hst
    · left
      have hne := h9.mp hst
      obtain ⟨f, hf⟩ := Option.ne_none_iff_exists'.mp hne
      have hra := c1 hne
      refine ⟨hst, f, hf, ?_⟩
      simp [retry_loop_connected, esp_transport_connect, aos_task_loop_unset, aos_task_loop_set,
        Sys.emit, hf, hra]
    · right
      have hf : s.ctx.connect_future = none := by
        by_contra hne
        have := h9.mpr hne
        simp [hst] at this
      have hra : s.ctx.reconnection_attempt ≠ 0 := by
        have := hrec hb hst
        omega
      refine ⟨hst, hf, ?_⟩
      simp [retry_loop_connected, esp_transport_connect, aos_task_loop_unset, aos_task_loop_set,
        Sys.emit, hf, hra]
  · intro s1 hs1
    rw [hstep] at hs1
    refine poll_loop_quiet ?_ hs1
    cases hf : s.ctx.connect_future <;>
      by_cases hra : s.ctx.reconnection_attempt = 0 <;>
      simp [retry_loop_connected, esp_transport_connect, aos_task_loop_unset,
        aos_task_loop_set, Sys.emit, hf, hra]

theorem state_determines_handles_witness :
    Reachable (after_connect example_config late_transport) ∧
    armed LoopFn._aos_ws_client_retry_loop (after_connect example_config late_transport) = true ∧
    ((after_connect example_config late_transport).ctx.state = CONNECTING ↔
      (after_connect example_config late_transport).ctx.connect_future ≠ none) ∧
    step 1 (after_connect example_config late_transport) Input.retry_tick
      = _aos_ws_client_poll_loop 1 (retry_loop_connected (esp_transport_connect
          (some "ws.postman-echo.com") 443 3000 (after_connect example_config late_transport)).2) ∧
    resolutions (retry_loop_connected (esp_transport_connect
        (some "ws.postman-echo.com") 443 3000 (after_connect example_config late_transport)).2).log
      = [(0, some 0)] ∧
    events (retry_loop_connected (esp_transport_connect
        (some "ws.postman-echo.com") 443 3000 (after_connect example_config late_transport)).2).log
      = [] :=
  ⟨reachable_after 1 example_config late_transport _, by rfl,
   (state_determines_handles 1 (after_connect example_config late_transport)
      (reachable_after 1 example_config late_transport _)).1,
   ((state_determines_handles 1 (after_connect example_config late_transport)
      (reachable_after 1 example_config late_transport _)).2.2.2.2
        (by decide) (by rfl) (by decide)).1,
   by rfl, by rfl⟩

/-! ## The error handler and the retry tick, branch by branch -/

/-- C22: the error handler, for every input state. It first runs close-clean:
both loops are disarmed and their handles nulled, and the transport is closed
(CLOSE frame, wait, close) only if the state is CONNECTED. Then, with a connect
future `f` stored: if connection_attempt >= connection_attempts it runs
close-clean once more, sets state DISCONNECTED, resolves `f` with err=1 and
clears it; otherwise it increments connection_attempt (as a uint32_t), arms the
retry loop with period retry_interval_ms and sets state CONNECTING. With no
connect future: it emits RECONNECTING iff reconnection_attempt = 0, and then if
reconnection_attempt >= reconnection_attempts it sets state DISCONNECTED and
emits DISCONNECTED; otherwise it increments reconnection_attempt, arms the
retry loop, and the state is RECONNECTING. Nothing else is logged and nothing
else of the context changes. -/
theorem onerror_policy (s : Sys) :
    ((_aos_ws_client_disconnect s).ctx = { s.ctx with poll_loop := none, retry_loop := none } ∧
      (_aos_ws_client_disconnect s).log = s.log ++
        [Action.aos_task_loop_unset s.ctx.poll_loop, Action.aos_task_loop_unset s.ctx.retry_loop] ++
        (if s.ctx.state = CONNECTED then
          [Action.esp_transport_ws_send_raw
            (WS_TRANSPORT_OPCODES_CLOSE ||| WS_TRANSPORT_OPCODES_FIN) [] 0
            s.ctx.config.send_timeout_ms,
           Action.esp_transport_ws_poll_connection_closed s.ctx.config.send_timeout_ms,
           Action.esp_transport_close]
        else [])) ∧
    (∀ f, s.ctx.connect_future = some f →
      s.ctx.connection_attempt ≥ s.ctx.config.connection_attempts →
      (_aos_ws_client_onerror s).ctx =
        { s.ctx with
          poll_loop := none, retry_loop := none, state := DISCONNECTED, connect_future := none } ∧
      (_aos_ws_client_onerror s).log =
        (_aos_ws_client_disconnect (_aos_ws_client_disconnect s)).log
          ++ [Action.aos_resolve f (some 1)] ∧
      (_aos_ws_client_onerror s).loops = (_aos_ws_client_disconnect s).loops) ∧
    (∀ f, s.ctx.connect_future = some f →
      s.ctx.connection_attempt < s.ctx.config.connection_attempts →
      (_aos_ws_client_onerror s).ctx =
        { s.ctx with
          poll_loop := none,
          retry_loop := some ⟨LoopFn._aos_ws_client_retry_loop, s.ctx.config.retry_interval_ms⟩,
          connection_attempt := u32 (s.ctx.connection_attempt + 1), state := CONNECTING } ∧
      (s.ctx.config.connection_attempts < 2 ^ 32 →
        (_aos_ws_client_onerror s).ctx.connection_attempt = s.ctx.connection_attempt + 1) ∧
      (_aos_ws_client_onerror s).log = (_aos_ws_client_disconnect s).log ++
        [Action.aos_task_loop_set
          ⟨LoopFn._aos_ws_client_retry_loop, s.ctx.config.retry_interval_ms⟩] ∧
      (_aos_ws_client_onerror s).loops = (_aos_ws_client_disconnect s).loops ++
        [⟨LoopFn._aos_ws_client_retry_loop, s.ctx.config.retry_interval_ms⟩]) ∧
    (s.ctx.connect_future = none →
      s.ctx.reconnection_attempt ≥ s.ctx.config.reconnection_attempts →
      (_aos_ws_client_onerror s).ctx =
        { s.ctx with poll_loop := none, retry_loop := none, state := DISCONNECTED } ∧
      (_aos_ws_client_onerror s).log = (_aos_ws_client_disconnect s).log ++
        (if s.ctx.reconnection_attempt = 0 then
          [Action.event_handler AOS_WS_CLIENT_EVENT_RECONNECTING] else []) ++
        [Action.event_handler AOS_WS_CLIENT_EVENT_DISCONNECTED] ∧
      (_aos_ws_client_onerror s).loops = (_aos_ws_client_disconnect s).loops) ∧
    (s.ctx.connect_future = none →
      s.ctx.reconnection_attempt < s.ctx.config.reconnection_attempts →
      (_aos_ws_client_onerror s).ctx =
        { s.ctx with
          poll_loop := none,
          retry_loop := some ⟨LoopFn._aos_ws_client_retry_loop, s.ctx.config.retry_interval_ms⟩,
          reconnection_attempt := u32 (s.ctx.reconnection_attempt + 1), state := RECONNECTING } ∧
      (s.ctx.config.reconnection_attempts < 2 ^ 32 →
        (_aos_ws_client_onerror s).ctx.reconnection_attempt = s.ctx.reconnection_attempt + 1) ∧
      (_aos_ws_client_onerror s).log = (_aos_ws_client_disconnect s).log ++
        (if s.ctx.reconnection_attempt = 0 then
          [Action.event_handler AOS_WS_CLIENT_EVENT_RECONNECTING] else []) ++
        [Action.aos_task_loop_set
          ⟨LoopFn._aos_ws_client_retry_loop, s.ctx.config.retry_interval_ms⟩] ∧
      (_aos_ws_client_onerror s).loops = (_aos_ws_client_disconnect s).loops ++
        [⟨LoopFn._aos_ws_client_retry_loop, s.ctx.config.retry_interval_ms⟩]) := by
  refine ⟨⟨disconnect_ctx s, ?_⟩, ?_, ?_, ?_, ?_⟩
  · cases hst : s.ctx.state <;>
      simp [_aos_ws_client_disconnect, aos_task_loop_unset, hst, esp_transport_ws_send_raw, Sys.emit]
  · intro f hf hge
    have hnot : ¬ s.ctx.connection_attempt < s.ctx.config.connection_attempts := not_lt.mpr hge
    cases hst : s.ctx.state <;>
      simp [_aos_ws_client_onerror, _aos_ws_client_disconnect, aos_task_loop_unset,
        aos_task_loop_set, hst, hf, hge, hnot, esp_transport_ws_send_raw, Sys.emit]
  · intro f hf hlt
    have hnot : ¬ s.ctx.connection_attempt ≥ s.ctx.config.connection_attempts := not_le.mpr hlt
    have hnot2 : ¬ s.ctx.config.connection_attempts ≤ s.ctx.connection_attempt := not_le.mpr hlt
    have hu : s.ctx.config.connection_attempts < 2 ^ 32 →
        u32 (s.ctx.connection_attempt + 1) = s.ctx.connection_attempt + 1 :=
      fun hb => Nat.mod_eq_of_lt (by omega)
    cases hst : s.ctx.state <;>
      simp [_aos_ws_client_onerror, _aos_ws_client_disconnect, aos_task_loop_unset,
        aos_task_loop_set, hst, hf, hnot, hnot2, esp_transport_ws_send_raw, Sys.emit] <;>
      exact hu
  · intro hf hge
    have hnot : ¬ s.ctx.reconnection_attempt < s.ctx.config.reconnection_attempts :=
      not_lt.mpr hge
    by_cases hra : s.ctx.reconnection_attempt = 0
    · have hb0 : s.ctx.config.reconnection_attempts = 0 := by omega
      cases hst : s.ctx.state <;>
        simp [_aos_ws_client_onerror, _aos_ws_client_disconnect, aos_task_loop_unset,
          aos_task_loop_set, hst, hf, hra, hb0, esp_transport_ws_send_raw, Sys.emit]
    · cases hst : s.ctx.state <;>
        simp [_aos_ws_client_onerror, _aos_ws_client_disconnect, aos_task_loop_unset,
          aos_task_loop_set, hst, hf, hge, hnot, hra, esp_transport_ws_send_raw, Sys.emit]
  · intro hf hlt
    have hnot2 : ¬ s.ctx.config.reconnection_attempts ≤ s.ctx.reconnection_attempt :=
      not_le.mpr hlt
    have hu : s.ctx.config.reconnection_attempts < 2 ^ 32 →
        u32 (s.ctx.reconnection_attempt + 1) = s.ctx.reconnection_attempt + 1 :=
      fun hb => Nat.mod_eq_of_lt (by omega)
    by_cases hra : s.ctx.reconnection_attempt = 0
    · have hb0 : s.ctx.config.reconnection_attempts ≠ 0 := by omega
      cases hst : s.ctx.state <;>
        simp [_aos_ws_client_onerror, _aos_ws_client_disconnect, aos_task_loop_unset,
          aos_task_loop_set, hst, hf, hra, hb0, esp_transport_ws_send_raw, Sys.emit, u32]
    · cases hst : s.ctx.state <;>
        simp [_aos_ws_client_onerror, _aos_ws_client_disconnect, aos_task_loop_unset,
          aos_task_loop_set, hst, hf, hnot2, hra, esp_transport_ws_send_raw, Sys.emit] <;>
        exact hu

theorem onerror_policy_witness :
    (after_connect example_config refusing_transport).ctx.connect_future = some 0 ∧
    (after_connect example_config refusing_transport).ctx.connection_attempt
      < (after_connect example_config refusing_transport).ctx.config.connection_attempts ∧
    (_aos_ws_client_onerror (after_connect example_config refusing_transport)).log
      = (_aos_ws_client_disconnect (after_connect example_config refusing_transport)).log ++
        [Action.aos_task_loop_set ⟨LoopFn._aos_ws_client_retry_loop, 3000⟩] ∧
    (_aos_ws_client_onerror (after_connect example_config refusing_transport)).ctx.connection_attempt
      = 2 ∧
    (after_connect example_config quiet_transport).ctx.connect_future = none ∧
    (_aos_ws_client_onerror (after_connect example_config quiet_transport)).loops
      = (_aos_ws_client_disconnect (after_connect example_config quiet_transport)).loops ++
        [⟨LoopFn._aos_ws_client_retry_loop, 3000⟩] :=
  ⟨by rfl, by decide,
   ((onerror_policy (after_connect example_config refusing_transport)).2.2.1 0 (by rfl)
      (by decide)).2.2.1,
   ((onerror_policy (after_connect example_config refusing_transport)).2.2.1 0 (by rfl)
      (by decide)).2.1 (by decide),
   by rfl,
   ((onerror_policy (after_connect example_config quiet_transport)).2.2.2.2 (by rfl)
      (by decide)).2.2.2⟩

/-- A poll tick makes no transport connect. -/
theorem poll_loop_no_connect {fuel : Nat} {s s1 : Sys}
    (hp : _aos_ws_client_poll_loop fuel s = some s1) :
    connect_calls s1.log = connect_calls s.log := by
  simp only [_aos_ws_client_poll_loop] at hp
  split at hp
  · simp at hp
  · rename_i s2 hl
    simp only [Option.some.injEq] at hp
    subst hp
    obtain ⟨-, -, reads, hlog, hreads⟩ := read_loop_inv _ _ _ _ _ hl
    obtain ⟨l, h1, -, h3⟩ := onerror_log s2
    rw [h1, hlog, connect_calls_append, connect_calls_append, h3,
      (reads_silent reads hreads).2.2.1]
    rfl
  · rename_i d s2 hl
    simp only [Option.some.injEq] at hp
    subst hp
    obtain ⟨-, -, reads, hlog, hreads⟩ := read_loop_inv _ _ _ _ _ hl
    have key : connect_calls (poll_dispatch d s2).log = connect_calls s2.log := by
      simp only [poll_dispatch]
      split
      · simp [Sys.emit, connect_calls_append, connect_calls]
      · split
        · split
          · obtain ⟨l, h1, -, h3⟩ := onerror_log (esp_transport_ws_send_raw
              (WS_TRANSPORT_OPCODES_PONG ||| WS_TRANSPORT_OPCODES_FIN) s2.ctx.buffer d
              s2.ctx.config.send_timeout_ms s2).2
            rw [h1, connect_calls_append, h3]
            simp [esp_transport_ws_send_raw, connect_calls_append, connect_calls]
          · simp [esp_transport_ws_send_raw, connect_calls_append, connect_calls]
        · split
          · rfl
          · split
            · obtain ⟨l, h1, -, -, -, h5⟩ := disconnect_log s2
              simp [Sys.emit, h1, connect_calls_append, connect_calls, h5]
            · split
              · rfl
              · obtain ⟨l, h1, -, h3⟩ := onerror_log s2
                rw [h1, connect_calls_append, h3]
                rfl
    rw [key, hlog, connect_calls_append, (reads_silent reads hreads).2.2.1]
    rfl

/-- C23: a retry tick, for every state. Its first action is one transport
connect with the configured host, port and send_timeout_ms, and the whole tick
makes exactly one connect. If the connect fails, the tick is the error handler
run on the state after the connect, and nothing else. If it succeeds, the tick
disarms the retry loop, sets state CONNECTED, emits RECONNECTED iff
reconnection_attempt was non-zero (resetting it), resolves a stored connect
future with err=0 and clears it, arms the poll loop with period 1 and then runs
one poll tick from the state so reached. -/
theorem retry_tick_policy (fuel : Nat) (s : Sys) :
    (esp_transport_connect s.ctx.config.host s.ctx.config.port s.ctx.config.send_timeout_ms s).2.log
      = s.log ++ [Action.esp_transport_connect s.ctx.config.host s.ctx.config.port
          s.ctx.config.send_timeout_ms] ∧
    (∀ s1, _aos_ws_client_retry_loop fuel s = some s1 →
      connect_calls s1.log = connect_calls s.log + 1) ∧
    (s.transport.connect_ret s.transport.connects < 0 →
      _aos_ws_client_retry_loop fuel s = some (_aos_ws_client_onerror (esp_transport_connect
        s.ctx.config.host s.ctx.config.port s.ctx.config.send_timeout_ms s).2)) ∧
    (0 ≤ s.transport.connect_ret s.transport.connects →
      _aos_ws_client_retry_loop fuel s = _aos_ws_client_poll_loop fuel
        (retry_loop_connected (esp_transport_connect s.ctx.config.host s.ctx.config.port
          s.ctx.config.send_timeout_ms s).2) ∧
      (retry_loop_connected (esp_transport_connect s.ctx.config.host s.ctx.config.port
          s.ctx.config.send_timeout_ms s).2).ctx =
        { s.ctx with
          retry_loop := none, state := CONNECTED, reconnection_attempt := 0,
          connect_future := none,
          poll_loop := some ⟨LoopFn._aos_ws_client_poll_loop, 1⟩ } ∧
      (retry_loop_connected (esp_transport_connect s.ctx.config.host s.ctx.config.port
          s.ctx.config.send_timeout_ms s).2).log = s.log ++
        [Action.esp_transport_connect s.ctx.config.host s.ctx.config.port
          s.ctx.config.send_timeout_ms,
         Action.aos_task_loop_unset s.ctx.retry_loop] ++
        (if s.ctx.reconnection_attempt ≠ 0 then
          [Action.event_handler AOS_WS_CLIENT_EVENT_RECONNECTED] else []) ++
        (match s.ctx.connect_future with
          | some f => [Action.aos_resolve f (some 0)]
          | none => []) ++
        [Action.aos_task_loop_set ⟨LoopFn._aos_ws_client_poll_loop, 1⟩] ∧
      (retry_loop_connected (esp_transport_connect s.ctx.config.host s.ctx.config.port
          s.ctx.config.send_timeout_ms s).2).loops =
        (aos_task_loop_unset s.ctx.retry_loop s).loops
          ++ [⟨LoopFn._aos_ws_client_poll_loop, 1⟩]) := by
  refine ⟨rfl, ?_, ?_, ?_⟩
  · intro s1 hs1
    simp only [_aos_ws_client_retry_loop] at hs1
    split at hs1
    · simp only [Option.some.injEq] at hs1
      subst hs1
      obtain ⟨l, h1, -, h3⟩ := onerror_log (esp_transport_connect s.ctx.config.host
        s.ctx.config.port s.ctx.config.send_timeout_ms s).2
      rw [h1, connect_calls_append, h3]
      simp [esp_transport_connect, connect_calls_append, connect_calls]
    · rw [poll_loop_no_connect hs1]
      cases hf : s.ctx.connect_future <;>
        by_cases hra : s.ctx.reconnection_attempt = 0 <;>
        simp [retry_loop_connected, esp_transport_connect, aos_task_loop_unset,
          aos_task_loop_set, Sys.emit, hf, hra, connect_calls_append, connect_calls]
  · intro hneg
    simp [_aos_ws_client_retry_loop, esp_transport_connect, hneg]
  · intro hok
    have hnot : ¬ s.transport.connect_ret s.transport.connects < 0 := not_lt.mpr hok
    refine ⟨by simp [_aos_ws_client_retry_loop, esp_transport_connect, hnot], ?_, ?_, ?_⟩ <;>
      cases hf : s.ctx.connect_future <;>
      by_cases hra : s.ctx.reconnection_attempt = 0 <;>
      simp [retry_loop_connected, esp_transport_connect, aos_task_loop_unset,
        aos_task_loop_set, Sys.emit, hf, hra]

theorem retry_tick_policy_witness :
    (after_connect example_config refusing_transport).transport.connect_ret
      (after_connect example_config refusing_transport).transport.connects < 0 ∧
    _aos_ws_client_retry_loop 1 (after_connect example_config refusing_transport)
      = some (_aos_ws_client_onerror (esp_transport_connect (some "ws.postman-echo.com") 443 3000
          (after_connect example_config refusing_transport)).2) ∧
    0 ≤ (after_connect example_config late_transport).transport.connect_ret
      (after_connect example_config late_transport).transport.connects ∧
    _aos_ws_client_retry_loop 1 (after_connect example_config late_transport)
      = _aos_ws_client_poll_loop 1 (retry_loop_connected (esp_transport_connect
          (some "ws.postman-echo.com") 443 3000 (after_connect example_config late_transport)).2) ∧
    (_aos_ws_client_retry_loop 1 (after_connect example_config late_transport)).map
        (fun s => (s.ctx.state, resolutions s.log, connect_calls s.log))
      = some (CONNECTED, [(0, some 0)], 2) :=
  ⟨by decide,
   (retry_tick_policy 1 (after_connect example_config refusing_transport)).2.2.1 (by decide),
   by decide,
   ((retry_tick_policy 1 (after_connect example_config late_transport)).2.2.2 (by decide)).1,
   by rfl⟩

/-- C24 (refuted as stated): a CONNECT whose first connect fails and whose
first retry tick connects. At the transition to CONNECTED made by that retry
tick, and in the state the tick ends in, connection_attempt is 1. -/
theorem retry_success_keeps_connection_attempt :
    (after_connect example_config late_transport).ctx.state = CONNECTING ∧
    0 ≤ (after_connect example_config late_transport).transport.connect_ret
      (after_connect example_config late_transport).transport.connects ∧
    (retry_loop_connected (esp_transport_connect (some "ws.postman-echo.com") 443 3000
      (after_connect example_config late_transport)).2).ctx.state = CONNECTED ∧
    (retry_loop_connected (esp_transport_connect (some "ws.postman-echo.com") 443 3000
      (after_connect example_config late_transport)).2).ctx.connection_attempt = 1 ∧
    (run 1 (initial example_config late_transport)
        [Input.AOS_WS_CLIENT_TASKEVT_CONNECT 0, Input.retry_tick]).map
        (fun s => (s.ctx.state, resolutions s.log, s.ctx.connection_attempt,
          s.ctx.reconnection_attempt))
      = some (CONNECTED, [(0, some 0)], 1, 0) := by
  refine ⟨by rfl, by decide, by rfl, by rfl, by rfl⟩

/-- The preparation of a CONNECT leaves the connect script and the number of
connects made as they are. -/
theorem handler_connect_prepare_connects (future : Nat) (s : Sys) :
    (handler_connect_prepare future s).transport.connect_ret = s.transport.connect_ret ∧
    (handler_connect_prepare future s).transport.connects = s.transport.connects := by
  cases hst : s.ctx.state <;> cases hf : s.ctx.connect_future <;>
    simp [handler_connect_prepare, resolve_connect_future, _aos_ws_client_disconnect,
      aos_task_loop_unset, esp_transport_ws_send_raw, Sys.emit, hst, hf]

/-- C24 (amended): whenever the client transitions to CONNECTED, by a CONNECT
handled in another state whose connect succeeds or by a retry tick whose connect
succeeds, reconnection_attempt is 0 at the point of the transition (the state
from which the handler goes on to its poll tick). connection_attempt is 0 there
when the transition is made by the CONNECT; a retry tick leaves
connection_attempt as it was. -/
theorem connected_transition_counters (fuel future : Nat) (s : Sys)
    (hok : 0 ≤ s.transport.connect_ret s.transport.connects) :
    (s.ctx.state ≠ CONNECTED →
      _aos_ws_client_handler_connect fuel future s = _aos_ws_client_poll_loop fuel
        (handler_connect_connected future (esp_transport_connect
          (handler_connect_prepare future s).ctx.config.host
          (handler_connect_prepare future s).ctx.config.port
          (handler_connect_prepare future s).ctx.config.send_timeout_ms
          (handler_connect_prepare future s)).2) ∧
      (handler_connect_connected future (esp_transport_connect
          (handler_connect_prepare future s).ctx.config.host
          (handler_connect_prepare future s).ctx.config.port
          (handler_connect_prepare future s).ctx.config.send_timeout_ms
          (handler_connect_prepare future s)).2).ctx.state = CONNECTED ∧
      (handler_connect_connected future (esp_transport_connect
          (handler_connect_prepare future s).ctx.config.host
          (handler_connect_prepare future s).ctx.config.port
          (handler_connect_prepare future s).ctx.config.send_timeout_ms
          (handler_connect_prepare future s)).2).ctx.connection_attempt = 0 ∧
      (handler_connect_connected future (esp_transport_connect
          (handler_connect_prepare future s).ctx.config.host
          (handler_connect_prepare future s).ctx.config.port
          (handler_connect_prepare future s).ctx.config.send_timeout_ms
          (handler_connect_prepare future s)).2).ctx.reconnection_attempt = 0) ∧
    (_aos_ws_client_retry_loop fuel s = _aos_ws_client_poll_loop fuel
        (retry_loop_connected (esp_transport_connect s.ctx.config.host s.ctx.config.port
          s.ctx.config.send_timeout_ms s).2) ∧
      (retry_loop_connected (esp_transport_connect s.ctx.config.host s.ctx.config.port
          s.ctx.config.send_timeout_ms s).2).ctx.state = CONNECTED ∧
      (retry_loop_connected (esp_transport_connect s.ctx.config.host s.ctx.config.port
          s.ctx.config.send_timeout_ms s).2).ctx.reconnection_attempt = 0 ∧
      (retry_loop_connected (esp_transport_connect s.ctx.config.host s.ctx.config.port
          s.ctx.config.send_timeout_ms s).2).ctx.connection_attempt = s.ctx.connection_attempt) := by
  have hnot : ¬ s.transport.connect_ret s.transport.connects < 0 := not_lt.mpr hok
  constructor
  · intro hst
    obtain ⟨hp1, hp2⟩ := handler_connect_prepare_connects future s
    have hnot2 : ¬ (handler_connect_prepare future s).transport.connect_ret
        (handler_connect_prepare future s).transport.connects < 0 := by
      rw [hp1, hp2]; exact hnot
    refine ⟨?_, ?_, ?_, ?_⟩
    · cases h : s.ctx.state <;> simp [h] at hst <;>
        simp [_aos_ws_client_handler_connect, h, esp_transport_connect, hnot2]
    · simp [handler_connect_connected, aos_task_loop_set, Sys.emit]
    · simp [handler_connect_connected, aos_task_loop_set, Sys.emit, esp_transport_connect,
        handler_connect_prepare]
    · simp [handler_connect_connected, aos_task_loop_set, Sys.emit, esp_transport_connect,
        handler_connect_prepare]
  · refine ⟨by simp [_aos_ws_client_retry_loop, esp_transport_connect, hnot], ?_, ?_, ?_⟩ <;>
      cases hf : s.ctx.connect_future <;>
      by_cases hra : s.ctx.reconnection_attempt = 0 <;>
      simp [retry_loop_connected, esp_transport_connect, aos_task_loop_unset,
        aos_task_loop_set, Sys.emit, hf, hra]

theorem connected_transition_counters_witness :
    0 ≤ (after_connect example_config late_transport).transport.connect_ret
      (after_connect example_config late_transport).transport.connects ∧
    (retry_loop_connected (esp_transport_connect (some "ws.postman-echo.com") 443 3000
      (after_connect example_config late_transport)).2).ctx.reconnection_attempt = 0 ∧
    (retry_loop_connected (esp_transport_connect (some "ws.postman-echo.com") 443 3000
      (after_connect example_config late_transport)).2).ctx.connection_attempt
      = (after_connect example_config late_transport).ctx.connection_attempt ∧
    (after_connect example_config late_transport).ctx.connection_attempt = 1 :=
  ⟨by decide,
   (connected_transition_counters 1 7 (after_connect example_config late_transport)
      (by decide)).2.2.2.1,
   (connected_transition_counters 1 7 (after_connect example_config late_transport)
      (by decide)).2.2.2.2,
   by rfl⟩

/-! ## Construction and destruction -/

theorem alloc_ws_some (env : alloc_outcomes) (complete : aos_ws_client_config_t)
    (log : List AllocAction) (ctx : _aos_ws_client_ctx_t)
    (h : (aos_ws_client_alloc_ws env complete log).1 = some ctx) :
    ctx = initial_ctx complete := by
  simp only [aos_ws_client_alloc_ws, aos_ws_client_alloc_err] at h
  split_ifs at h
  simp only [Option.some.injEq] at h
  exact h.symm

/-- The context of a task returned by the constructor is the zero-filled context
with the completed configuration. -/
theorem alloc_some (k : sdkconfig) (env : alloc_outcomes) (config : aos_ws_client_config_t)
    (ctx : _aos_ws_client_ctx_t) (h : (aos_ws_client_alloc k env config).1 = some ctx) :
    ctx = initial_ctx (complete_config k config) ∧
    config.host ≠ none ∧ config.event_handler ≠ none ∧ config.on_data ≠ none := by
  simp only [aos_ws_client_alloc] at h
  split_ifs at h with h1 h2 h3 h4 h5 h6 h7 <;>
    first
    | (simp [aos_ws_client_alloc_err] at h; done)
    | (refine ⟨alloc_ws_some _ _ _ _ h, ?_⟩
       cases hh : config.host <;> cases he : config.event_handler <;>
         cases hd : config.on_data <;> simp_all)

/-- C21: for every configuration the constructor accepts (it returns a task),
with the build-time defaults the spec documents, the stored configuration copies
host, on_data and event_handler, and each of the following optional fields is
the caller's value when that value is non-null / non-zero and the default
otherwise: path "/", port 443 (so port 0 gives 443), mode SECURE,
connection_attempts 3, reconnection_attempts UINT32_MAX, retry_interval_ms
3000, send_timeout_ms 3000, poll_timeout_ms 100, buffer_size 1024. -/
theorem stored_config_defaults (env : alloc_outcomes) (config : aos_ws_client_config_t)
    (ctx : _aos_ws_client_ctx_t)
    (h : (aos_ws_client_alloc documented_sdkconfig env config).1 = some ctx) :
    ctx.config.host = config.host ∧ ctx.config.on_data = config.on_data ∧
    ctx.config.event_handler = config.event_handler ∧
    ctx.config.path = (match config.path with
      | some p => some p
      | none => some "/") ∧
    ctx.config.port = (if config.port = 0 then 443 else config.port) ∧
    ctx.config.mode = (if config.mode = 0 then AOS_WS_CLIENT_MODE_SECURE else config.mode) ∧
    ctx.config.connection_attempts
      = (if config.connection_attempts = 0 then 3 else config.connection_attempts) ∧
    ctx.config.reconnection_attempts
      = (if config.reconnection_attempts = 0 then 4294967295
        else config.reconnection_attempts) ∧
    ctx.config.retry_interval_ms
      = (if config.retry_interval_ms = 0 then 3000 else config.retry_interval_ms) ∧
    ctx.config.send_timeout_ms
      = (if config.send_timeout_ms = 0 then 3000 else config.send_timeout_ms) ∧
    ctx.config.poll_timeout_ms
      = (if config.poll_timeout_ms = 0 then 100 else config.poll_timeout_ms) ∧
    ctx.config.buffer_size = (if config.buffer_size = 0 then 1024 else config.buffer_size) := by
  obtain ⟨rfl, -⟩ := alloc_some documented_sdkconfig env config ctx h
  cases hp : config.path <;>
    simp [initial_ctx, complete_config, documented_sdkconfig, hp, ite_not]

theorem stored_config_defaults_witness :
    (aos_ws_client_alloc documented_sdkconfig all_succeed minimal_config).1
      = some (initial_ctx (complete_config documented_sdkconfig minimal_config)) ∧
    (initial_ctx (complete_config documented_sdkconfig minimal_config)).config.host
      = some "ws.postman-echo.com" ∧
    (initial_ctx (complete_config documented_sdkconfig minimal_config)).config.path = some "/" ∧
    (initial_ctx (complete_config documented_sdkconfig minimal_config)).config.port = 443 ∧
    (initial_ctx (complete_config documented_sdkconfig minimal_config)).config.buffer_size
      = 1024 :=
  ⟨by rfl,
   (stored_config_defaults all_succeed minimal_config
      (initial_ctx (complete_config documented_sdkconfig minimal_config)) (by rfl)).1,
   (stored_config_defaults all_succeed minimal_config
      (initial_ctx (complete_config documented_sdkconfig minimal_config)) (by rfl)).2.2.2.1,
   (stored_config_defaults all_succeed minimal_config
      (initial_ctx (complete_config documented_sdkconfig minimal_config)) (by rfl)).2.2.2.2.1,
   (stored_config_defaults all_succeed minimal_config
      (initial_ctx (complete_config documented_sdkconfig minimal_config))
      (by rfl)).2.2.2.2.2.2.2.2.2.2.2⟩

/-- C29 (refuted as stated): free called on a connected client whose poll loop
is armed. The poll loop is still registered afterwards and nothing was added to
the log of the client's actions (no loop is disarmed, the transport is not
closed); the release calls are the destruction of the transport and of its
parent first, then the buffer, the context and the task. -/
theorem free_disarms_nothing :
    armed LoopFn._aos_ws_client_poll_loop (after_connect example_config quiet_transport) = true ∧
    armed LoopFn._aos_ws_client_poll_loop
      (aos_ws_client_free (after_connect example_config quiet_transport)).1 = true ∧
    (aos_ws_client_free (after_connect example_config quiet_transport)).1.log
      = (after_connect example_config quiet_transport).log ∧
    Action.esp_transport_close
      ∉ (aos_ws_client_free (after_connect example_config quiet_transport)).1.log ∧
    (aos_ws_client_free (after_connect example_config quiet_transport)).2
      ≠ [ReleaseAction.free Resource.buffer, ReleaseAction.free Resource.ctx,
         ReleaseAction.esp_transport_destroy Resource.transport,
         ReleaseAction.esp_transport_destroy Resource.parent_transport,
         ReleaseAction.aos_task_free Resource.task] ∧
    (aos_ws_client_free (after_connect example_config quiet_transport)).2.head?
      = some (ReleaseAction.esp_transport_destroy Resource.transport) := by
  refine ⟨by rfl, by rfl, by rfl, by decide, by decide, by rfl⟩

/-- C29 (amended): free performs, in this order, the destruction of the
websocket transport, the destruction of its parent transport, the release of the
buffer, the release of the context and the release of the task. It disarms no
loop and makes no call on the open connection: context, registered loops and the
log of the client's actions are as before. -/
theorem free_releases_in_order (s : Sys) :
    (aos_ws_client_free s).2
      = [ReleaseAction.esp_transport_destroy Resource.transport,
         ReleaseAction.esp_transport_destroy Resource.parent_transport,
         ReleaseAction.free Resource.buffer,
         ReleaseAction.free Resource.ctx,
         ReleaseAction.aos_task_free Resource.task] ∧
    (aos_ws_client_free s).1.ctx = s.ctx ∧ (aos_ws_client_free s).1.loops = s.loops ∧
    (aos_ws_client_free s).1.log = s.log ∧
    armed LoopFn._aos_ws_client_poll_loop (aos_ws_client_free s).1
      = armed LoopFn._aos_ws_client_poll_loop s ∧
    armed LoopFn._aos_ws_client_retry_loop (aos_ws_client_free s).1
      = armed LoopFn._aos_ws_client_retry_loop s :=
  ⟨rfl, rfl, rfl, rfl, rfl, rfl⟩

/-! ## The counters never exceed their budgets -/

theorem bound_of_ctx {s s1 : Sys} (h : BoundInv s)
    (hc : s1.ctx.connection_attempt = s.ctx.connection_attempt)
    (hr : s1.ctx.reconnection_attempt = s.ctx.reconnection_attempt)
    (hcfg : s1.ctx.config = s.ctx.config) : BoundInv s1 := by
  simpa [BoundInv, hc, hr, hcfg] using h

theorem onerror_bound (s : Sys) (h : BoundInv s) : BoundInv (_aos_ws_client_onerror s) := by
  obtain ⟨h1, h2⟩ := h
  cases hst : s.ctx.state <;> cases hf : s.ctx.connect_future <;>
    simp [BoundInv, _aos_ws_client_onerror, _aos_ws_client_disconnect, aos_task_loop_unset,
      aos_task_loop_set, hst, hf, esp_transport_ws_send_raw, Sys.emit] <;>
    split <;> (try split) <;>
    simp [hst, hf, u32] at * <;>
    omega

theorem poll_dispatch_bound (d : Nat) (s : Sys) (h : BoundInv s) :
    BoundInv (poll_dispatch d s) := by
  simp only [poll_dispatch]
  split
  · exact bound_of_ctx h rfl rfl rfl
  · split
    · split
      · exact onerror_bound _ (bound_of_ctx h rfl rfl rfl)
      · exact bound_of_ctx h rfl rfl rfl
    · split
      · exact h
      · split
        · exact bound_of_ctx h (by simp [Sys.emit, disconnect_ctx])
            (by simp [Sys.emit, disconnect_ctx]) (by simp [Sys.emit, disconnect_ctx])
        · split
          · exact h
          · exact onerror_bound _ h

theorem poll_loop_bound {fuel : Nat} {s s1 : Sys} (h : BoundInv s)
    (hp : _aos_ws_client_poll_loop fuel s = some s1) : BoundInv s1 := by
  simp only [_aos_ws_client_poll_loop] at hp
  split at hp
  · simp at hp
  · rename_i s2 hl
    simp only [Option.some.injEq] at hp
    subst hp
    obtain ⟨⟨b, hb⟩, -, -⟩ := read_loop_inv _ _ _ _ _ hl
    exact onerror_bound _ (bound_of_ctx h (by simp [hb]) (by simp [hb]) (by simp [hb]))
  · rename_i d s2 hl
    simp only [Option.some.injEq] at hp
    subst hp
    obtain ⟨⟨b, hb⟩, -, -⟩ := read_loop_inv _ _ _ _ _ hl
    exact poll_dispatch_bound _ _ (bound_of_ctx h (by simp [hb]) (by simp [hb]) (by simp [hb]))

theorem retry_loop_bound {fuel : Nat} {s s1 : Sys} (h : BoundInv s)
    (hp : _aos_ws_client_retry_loop fuel s = some s1) : BoundInv s1 := by
  simp only [_aos_ws_client_retry_loop] at hp
  split at hp
  · simp only [Option.some.injEq] at hp
    subst hp
    exact onerror_bound _ (bound_of_ctx h rfl rfl rfl)
  · refine poll_loop_bound ?_ hp
    obtain ⟨h1, h2⟩ := h
    cases hf : s.ctx.connect_future <;>
      by_cases hra : s.ctx.reconnection_attempt = 0 <;>
      simp [BoundInv, retry_loop_connected, esp_transport_connect, aos_task_loop_unset,
        aos_task_loop_set, Sys.emit, hf, hra, h1, h2]

theorem handler_connect_bound {fuel future : Nat} {s s1 : Sys}
    (hp : _aos_ws_client_handler_connect fuel future s = some s1) : BoundInv s1 := by
  by_cases hst : s.ctx.state = CONNECTED
  · simp only [_aos_ws_client_handler_connect, hst, Option.some.injEq] at hp
    subst hp
    simp [BoundInv, Sys.emit]
  · have hprep : BoundInv (esp_transport_connect (handler_connect_prepare future s).ctx.config.host
        (handler_connect_prepare future s).ctx.config.port
        (handler_connect_prepare future s).ctx.config.send_timeout_ms
        (handler_connect_prepare future s)).2 := by
      simp [BoundInv, esp_transport_connect, handler_connect_prepare]
    have hp2 : (if (esp_transport_connect (handler_connect_prepare future s).ctx.config.host
          (handler_connect_prepare future s).ctx.config.port
          (handler_connect_prepare future s).ctx.config.send_timeout_ms
          (handler_connect_prepare future s)).1 < 0
        then some (_aos_ws_client_onerror (esp_transport_connect
          (handler_connect_prepare future s).ctx.config.host
          (handler_connect_prepare future s).ctx.config.port
          (handler_connect_prepare future s).ctx.config.send_timeout_ms
          (handler_connect_prepare future s)).2)
        else _aos_ws_client_poll_loop fuel (handler_connect_connected future
          (esp_transport_connect (handler_connect_prepare future s).ctx.config.host
          (handler_connect_prepare future s).ctx.config.port
          (handler_connect_prepare future s).ctx.config.send_timeout_ms
          (handler_connect_prepare future s)).2)) = some s1 := by
      cases h : s.ctx.state <;> simp [h] at hst <;>
        simpa [_aos_ws_client_handler_connect, h] using hp
    split at hp2
    · simp only [Option.some.injEq] at hp2
      subst hp2
      exact onerror_bound _ hprep
    · exact poll_loop_bound (bound_of_ctx hprep
        (by simp [handler_connect_connected, aos_task_loop_set, Sys.emit])
        (by simp [handler_connect_connected, aos_task_loop_set, Sys.emit])
        (by simp [handler_connect_connected, aos_task_loop_set, Sys.emit])) hp2

theorem handler_disconnect_bound (future : Nat) {s : Sys} (h : BoundInv s) :
    BoundInv (_aos_ws_client_handler_disconnect future s) := by
  refine bound_of_ctx h ?_ ?_ ?_ <;>
    cases hst : s.ctx.state <;> cases hf : s.ctx.connect_future <;>
    simp [_aos_ws_client_handler_disconnect, resolve_connect_future, disconnect_ctx, Sys.emit,
      hst, hf]

theorem handler_send_text_bound (future : Nat) (in_data : List Nat) {s : Sys}
    (h : BoundInv s) : BoundInv (_aos_ws_client_handler_send_text future in_data s) := by
  simp only [_aos_ws_client_handler_send_text]
  split
  · split
    · exact bound_of_ctx (onerror_bound (esp_transport_ws_send_raw
          (WS_TRANSPORT_OPCODES_TEXT ||| WS_TRANSPORT_OPCODES_FIN) in_data (strlen in_data)
          s.ctx.config.send_timeout_ms s).2 (bound_of_ctx h rfl rfl rfl)) rfl rfl rfl
    · exact bound_of_ctx h rfl rfl rfl
  · exact bound_of_ctx h rfl rfl rfl

theorem handler_send_binary_bound (future : Nat) (in_data : List Nat) (in_data_len : Nat)
    {s : Sys} (h : BoundInv s) :
    BoundInv (_aos_ws_client_handler_send_binary future in_data in_data_len s) := by
  simp only [_aos_ws_client_handler_send_binary]
  split
  · split
    · exact bound_of_ctx (onerror_bound (esp_transport_ws_send_raw
          (WS_TRANSPORT_OPCODES_BINARY ||| WS_TRANSPORT_OPCODES_FIN) in_data in_data_len
          s.ctx.config.send_timeout_ms s).2 (bound_of_ctx h rfl rfl rfl)) rfl rfl rfl
    · exact bound_of_ctx h rfl rfl rfl
  · exact bound_of_ctx h rfl rfl rfl

theorem step_bound {fuel : Nat} {s s1 : Sys} {i : Input} (h : BoundInv s)
    (hs : step fuel s i = some s1) : BoundInv s1 := by
  cases i with
  | AOS_WS_CLIENT_TASKEVT_CONNECT f => exact handler_connect_bound hs
  | AOS_WS_CLIENT_TASKEVT_DISCONNECT f =>
    simp only [step, Option.some.injEq] at hs
    subst hs
    exact handler_disconnect_bound f h
  | AOS_WS_CLIENT_TASKEVT_SEND_TEXT f d =>
    simp only [step, Option.some.injEq] at hs
    subst hs
    exact handler_send_text_bound f d h
  | AOS_WS_CLIENT_TASKEVT_SEND_BINARY f d n =>
    simp only [step, Option.some.injEq] at hs
    subst hs
    exact handler_send_binary_bound f d n h
  | poll_tick =>
    simp only [step] at hs
    split at hs
    · exact poll_loop_bound h hs
    · simp only [Option.some.injEq] at hs
      subst hs
      exact h
  | retry_tick =>
    simp only [step] at hs
    split at hs
    · exact retry_loop_bound h hs
    · simp only [Option.some.injEq] at hs
      subst hs
      exact h

theorem reachable_bound {s : Sys} (h : Reachable s) : BoundInv s := by
  induction h with
  | init config transport => simp [BoundInv, initial, initial_ctx]
  | step fuel i _ hs ih => exact step_bound ih hs

/-- An increment of a counter that is below a `uint32_t` budget does not wrap. -/
theorem increment_no_wrap (counter budget : Nat) (hlt : counter < budget) (hb : budget < 2 ^ 32) :
    u32 (counter + 1) = counter + 1 :=
  Nat.mod_eq_of_lt (by omega)

/-- The error handler leaves each counter as it is or adds exactly 1 to it,
and it adds 1 only below the budget: with `uint32_t` budgets the increment does
not wrap. -/
theorem onerror_counter_steps (x : Sys) :
    (x.ctx.config.connection_attempts < 2 ^ 32 →
      (_aos_ws_client_onerror x).ctx.connection_attempt = x.ctx.connection_attempt ∨
      (x.ctx.connection_attempt < x.ctx.config.connection_attempts ∧
        (_aos_ws_client_onerror x).ctx.connection_attempt = x.ctx.connection_attempt + 1)) ∧
    (x.ctx.config.reconnection_attempts < 2 ^ 32 →
      (_aos_ws_client_onerror x).ctx.reconnection_attempt = x.ctx.reconnection_attempt ∨
      (x.ctx.reconnection_attempt < x.ctx.config.reconnection_attempts ∧
        (_aos_ws_client_onerror x).ctx.reconnection_attempt
          = x.ctx.reconnection_attempt + 1)) := by
  cases hst : x.ctx.state <;> cases hf : x.ctx.connect_future <;>
    simp [_aos_ws_client_onerror, _aos_ws_client_disconnect, aos_task_loop_unset,
      aos_task_loop_set, hst, hf, esp_transport_ws_send_raw, Sys.emit] <;>
    split <;> (try split) <;>
    simp [hst, hf, u32] at * <;>
    omega

/-- C31: in every reachable state connection_attempt <= connection_attempts
and reconnection_attempt <= reconnection_attempts. The counters are incremented
by the error handler only, and for every state it is run on, with budgets that
are 32-bit unsigned values (UINT32_MAX included), each counter is left as it is
or becomes exactly its value plus 1, the latter only when it was below its
budget: no increment wraps around. -/
theorem counters_within_budget (s : Sys) (h : Reachable s) :
    s.ctx.connection_attempt ≤ s.ctx.config.connection_attempts ∧
    s.ctx.reconnection_attempt ≤ s.ctx.config.reconnection_attempts ∧
    (∀ x : Sys, x.ctx.config.connection_attempts ≤ 4294967295 →
      (_aos_ws_client_onerror x).ctx.connection_attempt = x.ctx.connection_attempt ∨
      (x.ctx.connection_attempt < x.ctx.config.connection_attempts ∧
        (_aos_ws_client_onerror x).ctx.connection_attempt = x.ctx.connection_attempt + 1)) ∧
    (∀ x : Sys, x.ctx.config.reconnection_attempts ≤ 4294967295 →
      (_aos_ws_client_onerror x).ctx.reconnection_attempt = x.ctx.reconnection_attempt ∨
      (x.ctx.reconnection_attempt < x.ctx.config.reconnection_attempts ∧
        (_aos_ws_client_onerror x).ctx.reconnection_attempt
          = x.ctx.reconnection_attempt + 1)) := by
  obtain ⟨h1, h2⟩ := reachable_bound h
  refine ⟨h1, h2, ?_, ?_⟩
  · intro x hb
    exact (onerror_counter_steps x).1 (by omega)
  · intro x hb
    exact (onerror_counter_steps x).2 (by omega)

theorem counters_within_budget_witness :
    Reachable (after_connect example_config failing_read_transport) ∧
    (after_connect example_config failing_read_transport).ctx.config.reconnection_attempts
      = 4294967295 ∧
    (after_connect example_config failing_read_transport).ctx.reconnection_attempt = 1 ∧
    (after_connect example_config failing_read_transport).ctx.reconnection_attempt
      ≤ (after_connect example_config failing_read_transport).ctx.config.reconnection_attempts ∧
    (after_connect example_config failing_read_transport).ctx.connection_attempt
      ≤ (after_connect example_config failing_read_transport).ctx.config.connection_attempts :=
  ⟨reachable_after 1 example_config failing_read_transport _, by rfl, by rfl,
   (counters_within_budget (after_connect example_config failing_read_transport)
      (reachable_after 1 example_config failing_read_transport _)).2.1,
   (counters_within_budget (after_connect example_config failing_read_transport)
      (reachable_after 1 example_config failing_read_transport _)).1⟩

/-! ## Termination and bounds of the read loop -/

/-- The read loop under the read contract, started with `data_len = d` below
the buffer size and with fuel for the remaining capacity. -/
theorem read_loop_bounded : ∀ (fuel d : Nat) (s : Sys),
    s.ctx.config.buffer_size < 2 ^ 32 →
    d < s.ctx.config.buffer_size → s.ctx.config.buffer_size - d ≤ fuel →
    (∀ i, data_len_before s.transport.read_ret s.transport.reads d i
        < s.ctx.config.buffer_size →
      s.transport.read_ret (s.transport.reads + i) < 0 ∨
      (s.transport.read_ret (s.transport.reads + i)).toNat
        ≤ s.ctx.config.buffer_size
          - data_len_before s.transport.read_ret s.transport.reads d i) →
    ∃ k res s1, read_loop fuel d s = some (res, s1) ∧
      d + (k + 1) ≤ s.ctx.config.buffer_size ∧
      s1.transport.reads = s.transport.reads + (k + 1) ∧
      (∃ l, s1.log = s.log ++ l ∧ l.length = k + 1 ∧
        ∀ a ∈ l, ∃ o, o < s.ctx.config.buffer_size ∧
          a = Action.esp_transport_read o (s.ctx.config.buffer_size - o)
            s.ctx.config.poll_timeout_ms) ∧
      (∀ i, i ≤ k → data_len_before s.transport.read_ret s.transport.reads d i
        < s.ctx.config.buffer_size) ∧
      (∀ i, i < k → 1 ≤ s.transport.read_ret (s.transport.reads + i) ∧
        data_len_before s.transport.read_ret s.transport.reads d (i + 1)
          < s.ctx.config.buffer_size ∧
        data_len_before s.transport.read_ret s.transport.reads d (i + 1)
          < (s.transport.read_payload_len (s.transport.reads + i + 1) % 2 ^ 32).toNat) ∧
      (res = none ↔ s.transport.read_ret (s.transport.reads + k) < 0) ∧
      (∀ d1, res = some d1 →
        d1 = data_len_before s.transport.read_ret s.transport.reads d (k + 1) ∧
        d1 ≤ s.ctx.config.buffer_size ∧
        (s.transport.read_ret (s.transport.reads + k) = 0 ∨ d1 = s.ctx.config.buffer_size ∨
          (s.transport.read_payload_len (s.transport.reads + k + 1) % 2 ^ 32).toNat ≤ d1)) := by
  intro fuel
  induction fuel with
  | zero => intro d s _ hd hf; omega
  | succ n ih =>
    intro d s hB hd hf hreads
    have hcap : u32 (s.ctx.config.buffer_size + 2 ^ 32 - d) = s.ctx.config.buffer_size - d := by
      simp only [u32]
      omega
    have h0 := hreads 0 (by simpa [data_len_before] using hd)
    simp only [data_len_before, Nat.add_zero] at h0
    rw [read_loop]
    simp only [esp_transport_read, esp_transport_ws_get_read_payload_len]
    by_cases hneg : s.transport.read_ret s.transport.reads < 0
    · rw [if_pos hneg]
      refine ⟨0, none, _, rfl, by omega, rfl, ⟨[_], rfl, rfl, ?_⟩, ?_, ?_, ?_, ?_⟩
      · intro a ha
        simp only [List.mem_singleton] at ha
        exact ⟨d, hd, by rw [ha, hcap]⟩
      · intro i hi
        have : i = 0 := by omega
        subst this
        simpa [data_len_before] using hd
      · intro i hi; omega
      · simpa using hneg
      · intro d1 h; simp at h
    · rw [if_neg hneg]
      have hle : (s.transport.read_ret s.transport.reads).toNat
          ≤ s.ctx.config.buffer_size - d := by
        rcases h0 with h | h
        · exact absurd h hneg
        · exact h
      have hu : u32 (d + (s.transport.read_ret s.transport.reads).toNat)
          = d + (s.transport.read_ret s.transport.reads).toNat := by
        unfold u32; exact Nat.mod_eq_of_lt (by omega)
      have hshift : ∀ i, data_len_before s.transport.read_ret s.transport.reads d (i + 1)
          = data_len_before s.transport.read_ret (s.transport.reads + 1)
              (d + (s.transport.read_ret s.transport.reads).toNat) i := by
        intro i
        rw [data_len_before, hu]
      have hidx : ∀ i, s.transport.reads + 1 + i = s.transport.reads + (i + 1) := by
        intro i; omega
      simp only [hu]
      by_cases hcont : s.transport.read_ret s.transport.reads ≠ 0 ∧
          d + (s.transport.read_ret s.transport.reads).toNat < s.ctx.config.buffer_size ∧
          d + (s.transport.read_ret s.transport.reads).toNat
            < (s.transport.read_payload_len (s.transport.reads + 1) % 2 ^ 32).toNat
      · rw [if_pos hcont]
        obtain ⟨hc1, hc2, hc3⟩ := hcont
        have hpos : 1 ≤ s.transport.read_ret s.transport.reads := by omega
        obtain ⟨k, res, s1, h1, h2, h3, ⟨l, h4, h4l, h4a⟩, h5, h6, h7, h8⟩ :=
          ih (d + (s.transport.read_ret s.transport.reads).toNat)
            (esp_transport_read d (u32 (s.ctx.config.buffer_size + 2 ^ 32 - d))
              s.ctx.config.poll_timeout_ms s).2
            hB hc2
            (by
              show s.ctx.config.buffer_size
                - (d + (s.transport.read_ret s.transport.reads).toNat) ≤ n
              omega)
            (by
              intro i hi
              have := hreads (i + 1) (by rw [hshift]; exact hi)
              rw [hshift, ← hidx] at this
              exact this)
        simp only [esp_transport_read] at h2 h3 h4 h4a h5 h6 h7 h8
        refine ⟨k + 1, res, s1, h1, by omega, by omega,
          ⟨Action.esp_transport_read d (u32 (s.ctx.config.buffer_size + 2 ^ 32 - d))
            s.ctx.config.poll_timeout_ms :: l, ?_, ?_, ?_⟩, ?_, ?_, ?_, ?_⟩
        · rw [h4, List.append_assoc]; rfl
        · simp [h4l]
        · intro a ha
          rcases List.mem_cons.mp ha with ha | ha
          · exact ⟨d, hd, by rw [ha, hcap]⟩
          · exact h4a a ha
        · intro i hi
          cases i with
          | zero => simpa [data_len_before] using hd
          | succ j =>
            rw [hshift]
            exact h5 j (by omega)
        · intro i hi
          cases i with
          | zero =>
            refine ⟨hpos, ?_, ?_⟩
            · rw [hshift]; exact hc2
            · rw [hshift]; exact hc3
          | succ j =>
            have := h6 j (by omega)
            rw [hshift (j + 1), ← hidx j]
            exact this
        · rw [← hidx k]; exact h7
        · intro d1 hd1
          have := h8 d1 hd1
          rw [hshift (k + 1), ← hidx k]
          exact this
      · rw [if_neg hcont]
        refine ⟨0, some (d + (s.transport.read_ret s.transport.reads).toNat), _, rfl, by omega,
          rfl, ⟨[_], rfl, rfl, ?_⟩, ?_, ?_, ?_, ?_⟩
        · intro a ha
          simp only [List.mem_singleton] at ha
          exact ⟨d, hd, by rw [ha, hcap]⟩
        · intro i hi
          have : i = 0 := by omega
          subst this
          simpa [data_len_before] using hd
        · intro i hi; omega
        · simpa using hneg
        · intro d1 hd1
          simp only [Option.some.injEq] at hd1
          subst hd1
          refine ⟨by simp [data_len_before, hu], by omega, ?_⟩
          by_cases hz : s.transport.read_ret s.transport.reads = 0
          · exact Or.inl hz
          · right
            simp only [ne_eq, hz, not_false_eq_true, true_and, not_and, not_lt] at hcont
            by_cases hlt : d + (s.transport.read_ret s.transport.reads).toNat
                < s.ctx.config.buffer_size
            · exact Or.inr (hcont hlt)
            · exact Or.inl (by omega)

/-- C32: take a poll tick on a state with 1 <= buffer_size (a 32-bit value)
in which every read made returns a negative value or a count of at most the
capacity it is offered (buffer_size - data_len). With fuel for buffer_size
iterations the read loop returns, so the poll tick returns: it makes `k + 1`
reads with `k + 1 <= buffer_size`. Every read is logged with an offset `o` below
buffer_size and the capacity buffer_size - o, which is at least 1; data_len
before each read is below buffer_size, and the final data_len is at most
buffer_size. The loop goes on after a read exactly while the count returned is
positive and data_len is below buffer_size and below the declared payload
length: it stops at the first read that returns a negative value (reported as
an error), or that returns 0, or after which data_len = buffer_size or data_len
is not below the declared payload length. -/
theorem read_loop_terminates (fuel : Nat) (s : Sys)
    (hB1 : 1 ≤ s.ctx.config.buffer_size) (hB : s.ctx.config.buffer_size < 2 ^ 32)
    (hreads : ∀ i, data_len_before s.transport.read_ret s.transport.reads 0 i
        < s.ctx.config.buffer_size →
      s.transport.read_ret (s.transport.reads + i) < 0 ∨
      (s.transport.read_ret (s.transport.reads + i)).toNat
        ≤ s.ctx.config.buffer_size
          - data_len_before s.transport.read_ret s.transport.reads 0 i)
    (hfuel : s.ctx.config.buffer_size ≤ fuel) :
    ∃ k res s1, read_loop fuel 0 s = some (res, s1) ∧
      k + 1 ≤ s.ctx.config.buffer_size ∧
      s1.transport.reads = s.transport.reads + (k + 1) ∧
      (∃ l, s1.log = s.log ++ l ∧ l.length = k + 1 ∧
        ∀ a ∈ l, ∃ o, o < s.ctx.config.buffer_size ∧
          a = Action.esp_transport_read o (s.ctx.config.buffer_size - o)
            s.ctx.config.poll_timeout_ms) ∧
      (∀ i, i ≤ k → data_len_before s.transport.read_ret s.transport.reads 0 i
        < s.ctx.config.buffer_size) ∧
      (∀ i, i < k → 1 ≤ s.transport.read_ret (s.transport.reads + i) ∧
        data_len_before s.transport.read_ret s.transport.reads 0 (i + 1)
          < s.ctx.config.buffer_size ∧
        data_len_before s.transport.read_ret s.transport.reads 0 (i + 1)
          < (s.transport.read_payload_len (s.transport.reads + i + 1) % 2 ^ 32).toNat) ∧
      (res = none ↔ s.transport.read_ret (s.transport.reads + k) < 0) ∧
      (∀ d1, res = some d1 →
        d1 = data_len_before s.transport.read_ret s.transport.reads 0 (k + 1) ∧
        d1 ≤ s.ctx.config.buffer_size ∧
        (s.transport.read_ret (s.transport.reads + k) = 0 ∨ d1 = s.ctx.config.buffer_size ∨
          (s.transport.read_payload_len (s.transport.reads + k + 1) % 2 ^ 32).toNat ≤ d1)) ∧
      ∃ s2, _aos_ws_client_poll_loop fuel s = some s2 := by
  obtain ⟨k, res, s1, h1, h2, h3, h4, h5, h6, h7, h8⟩ :=
    read_loop_bounded fuel 0 s hB (by omega) (by omega) hreads
  refine ⟨k, res, s1, h1, by omega, h3, h4, h5, h6, h7, h8, ?_⟩
  cases res with
  | none => exact ⟨_aos_ws_client_onerror s1, by simp only [_aos_ws_client_poll_loop, h1]⟩
  | some d1 => exact ⟨poll_dispatch d1 s1, by simp only [_aos_ws_client_poll_loop, h1]⟩

/-- The reads on `oversize_text_transport` keep to the capacity offered. -/
theorem oversize_text_contract (i : Nat)
    (hi : data_len_before (after_connect example_config oversize_text_transport).transport.read_ret
        (after_connect example_config oversize_text_transport).transport.reads 0 i
      < (after_connect example_config oversize_text_transport).ctx.config.buffer_size) :
    (after_connect example_config oversize_text_transport).transport.read_ret
        ((after_connect example_config oversize_text_transport).transport.reads + i) < 0 ∨
    ((after_connect example_config oversize_text_transport).transport.read_ret
        ((after_connect example_config oversize_text_transport).transport.reads + i)).toNat
      ≤ (after_connect example_config oversize_text_transport).ctx.config.buffer_size
        - data_len_before (after_connect example_config oversize_text_transport).transport.read_ret
            (after_connect example_config oversize_text_transport).transport.reads 0 i :=
  Or.inr (oversize_text_reads i hi).2.1

theorem read_loop_terminates_witness :
    1 ≤ (after_connect example_config oversize_text_transport).ctx.config.buffer_size ∧
    (after_connect example_config oversize_text_transport).ctx.config.buffer_size = 8 ∧
    ∃ k res s1, read_loop 8 0 (after_connect example_config oversize_text_transport)
        = some (res, s1) ∧
      k + 1 ≤ 8 ∧
      s1.transport.reads
        = (after_connect example_config oversize_text_transport).transport.reads + (k + 1) := by
  refine ⟨by decide, by rfl, ?_⟩
  obtain ⟨k, res, s1, h1, h2, h3, -⟩ := read_loop_terminates 8
    (after_connect example_config oversize_text_transport) (by decide) (by decide)
    oversize_text_contract (by decide)
  exact ⟨k, res, s1, h1, h2, h3⟩

/-! ## The completed configuration -/

theorem nat_default_idem (a d : Nat) :
    (if (if a ≠ 0 then a else d) ≠ 0 then (if a ≠ 0 then a else d) else d)
      = if a ≠ 0 then a else d := by
  by_cases ha : a = 0 <;> by_cases hd : d = 0 <;> simp [ha, hd]

theorem option_default_idem {α : Type} (x d : Option α) :
    (if (if x.isSome then x else d).isSome then (if x.isSome then x else d) else d)
      = if x.isSome then x else d := by
  cases x <;> cases d <;> simp

/-- Completing a completed configuration changes nothing, whatever the
build-time defaults are. -/
theorem complete_config_idem (k : sdkconfig) (config : aos_ws_client_config_t) :
    complete_config k (complete_config k config) = complete_config k config := by
  simp only [complete_config, nat_default_idem, option_default_idem]

/-- C33: for every configuration the constructor accepts (it returns a task),
with the build-time defaults the spec documents, the stored connection_attempts,
reconnection_attempts, retry_interval_ms, send_timeout_ms, poll_timeout_ms,
buffer_size and port are all non-zero. A 0 given by the caller is replaced by
the default, so connection_attempts = 0 is stored as 3 and
reconnection_attempts = 0 as UINT32_MAX: a zero budget cannot be configured.
Completing the stored configuration again returns it unchanged. -/
theorem stored_config_nonzero (env : alloc_outcomes) (config : aos_ws_client_config_t)
    (ctx : _aos_ws_client_ctx_t)
    (h : (aos_ws_client_alloc documented_sdkconfig env config).1 = some ctx) :
    ctx.config.connection_attempts ≠ 0 ∧ ctx.config.reconnection_attempts ≠ 0 ∧
    ctx.config.retry_interval_ms ≠ 0 ∧ ctx.config.send_timeout_ms ≠ 0 ∧
    ctx.config.poll_timeout_ms ≠ 0 ∧ ctx.config.buffer_size ≠ 0 ∧ ctx.config.port ≠ 0 ∧
    (config.connection_attempts = 0 → ctx.config.connection_attempts = 3) ∧
    (config.reconnection_attempts = 0 → ctx.config.reconnection_attempts = 4294967295) ∧
    complete_config documented_sdkconfig ctx.config = ctx.config := by
  obtain ⟨rfl, -⟩ := alloc_some documented_sdkconfig env config ctx h
  refine ⟨?_, ?_, ?_, ?_, ?_, ?_, ?_, ?_, ?_, complete_config_idem _ _⟩
  · by_cases h0 : config.connection_attempts = 0 <;>
      simp [initial_ctx, complete_config, documented_sdkconfig, h0]
  · by_cases h0 : config.reconnection_attempts = 0 <;>
      simp [initial_ctx, complete_config, documented_sdkconfig, h0]
  · by_cases h0 : config.retry_interval_ms = 0 <;>
      simp [initial_ctx, complete_config, documented_sdkconfig, h0]
  · by_cases h0 : config.send_timeout_ms = 0 <;>
      simp [initial_ctx, complete_config, documented_sdkconfig, h0]
  · by_cases h0 : config.poll_timeout_ms = 0 <;>
      simp [initial_ctx, complete_config, documented_sdkconfig, h0]
  · show (complete_config documented_sdkconfig config).buffer_size ≠ 0
    by_cases h0 : config.buffer_size = 0 <;>
      simp [complete_config, documented_sdkconfig, h0]
  · by_cases h0 : config.port = 0 <;>
      simp [initial_ctx, complete_config, h0]
  · intro h0
    simp [initial_ctx, complete_config, documented_sdkconfig, h0]
  · intro h0
    simp [initial_ctx, complete_config, documented_sdkconfig, h0]

theorem stored_config_nonzero_witness :
    (aos_ws_client_alloc documented_sdkconfig all_succeed minimal_config).1
      = some (initial_ctx (complete_config documented_sdkconfig minimal_config)) ∧
    minimal_config.reconnection_attempts = 0 ∧
    (initial_ctx (complete_config documented_sdkconfig minimal_config)).config.reconnection_attempts
      = 4294967295 ∧
    (initial_ctx (complete_config documented_sdkconfig minimal_config)).config.port ≠ 0 ∧
    complete_config documented_sdkconfig
        (initial_ctx (complete_config documented_sdkconfig minimal_config)).config
      = (initial_ctx (complete_config documented_sdkconfig minimal_config)).config :=
  ⟨by rfl, by rfl,
   (stored_config_nonzero all_succeed minimal_config
      (initial_ctx (complete_config documented_sdkconfig minimal_config))
      (by rfl)).2.2.2.2.2.2.2.2.1 (by rfl),
   (stored_config_nonzero all_succeed minimal_config
      (initial_ctx (complete_config documented_sdkconfig minimal_config))
      (by rfl)).2.2.2.2.2.2.1,
   (stored_config_nonzero all_succeed minimal_config
      (initial_ctx (complete_config documented_sdkconfig minimal_config))
      (by rfl)).2.2.2.2.2.2.2.2.2⟩

end AosWsClient
